import Mathlib

/-!
# Reception / product lifecycle of the PVZ service

A shallow embedding of `internal/repository/repository.go`, of
`Service.GetPVZInfo` from `internal/services/services.go`, of the records of
`internal/models/models.go`, of the field validators of
`internal/validation/validation.go`, of the status codes chosen by the handlers
of `internal/handlers/handlers.go`, and of `RoleCheckerMW` from
`internal/app/app.go`.

* The relational store is three tables, each a list of rows in physical order.
* `time.Time` is a natural number of nanoseconds since Go's zero instant.
* Everything an operation obtains from outside the store is gathered in `Env`:
  the identifier returned by `uuid.NewString()`, the reading of `time.Now()`,
  whether each database call fails with a driver error, and which row the
  database hands back first among rows that tie on the `ORDER BY` key.
* Every operation returns its Go result, the store afterwards and the list of
  database calls it issued.
* `GetPVZInfo` gets its surroundings in `ReadEnv`: how each fetch goes and the
  order of rows with equal `create_date`. A Go slice is an optional list, `none`
  being nil; a Go `int` is an integer wrapped to 64 bits where it is multiplied;
  `make([]T, 0, limit)` panics when the capacity is out of range.
* Two concurrent `CreateReception` calls are two program counters over one
  store, advanced one database statement at a time by a schedule.
-/

namespace PvzService

/-! ## Records (`internal/models/models.go`) -/

abbrev City := String
abbrev ReceptionStatus := String
abbrev ProductType := String

def StatusInProgress : ReceptionStatus := "in_progress"
def StatusClose : ReceptionStatus := "close"

structure PVZ where
  ID : String
  RegistrationDate : Nat
  City : City
  deriving DecidableEq, Repr

structure Reception where
  ID : String
  DateTime : Nat
  PvzID : String
  Status : ReceptionStatus
  deriving DecidableEq, Repr

structure Product where
  ID : String
  DateTime : Nat
  /-- The Go field `Type` (a reserved word here). -/
  Type_ : ProductType
  ReceptionID : String
  deriving DecidableEq, Repr

/-- The three tables `pvz`, `receptions` and `products`. -/
structure Store where
  pvz : List PVZ
  receptions : List Reception
  products : List Product
  deriving DecidableEq, Repr

def Store.empty : Store := ⟨[], [], []⟩

/-! ## Errors (`var ( Err... )` of `repository.go`, and `models.Wrap`) -/

inductive Err where
  | ErrUserNotFound
  | ErrNoActiveReception
  | ErrReceptionInProgress
  | ErrPvzNotFound
  | ErrNoProductsInReception
  | ErrInvalidPassword
  | ErrBeginTransaction
  | ErrCommitTransaction
  /-- The value of `models.Wrap(msg, err)` for a driver error `err`. -/
  | Wrap (msg : String)
  /-- Not an error value: the call does not return, the goroutine panics. -/
  | Panic (msg : String)
  deriving DecidableEq, Repr

/-- The result of a Go function returning `(α, error)`. -/
inductive Res (α : Type) where
  | ok (v : α)
  | fail (err : Err)
  deriving DecidableEq, Repr

/-! ## Database calls -/

/-- The SQL constants of `repository.go`, by their Go names. -/
inductive Sql where
  | insertPVZ
  | checkPvzQuery
  | checkRecQuery
  | insertQuery
  | getReceptionIDQuery
  | insertProductQuery
  | getRecInfoQuery
  | updateQuery
  | getProductIDQuery
  | deleteQuery
  | selectPVZList
  | selectRecList
  | selectProductList
  deriving DecidableEq, Repr

/-- Whether the statement text carries `FOR UPDATE`. -/
def Sql.forUpdate : Sql → Bool
  | .getReceptionIDQuery => true
  | .getRecInfoQuery => true
  | .getProductIDQuery => true
  | _ => false

/-- One call on `r.DB` or on a transaction `tx`. -/
inductive DBCall where
  | Begin
  | Commit
  | Rollback
  | DBQueryRow (q : Sql)
  | DBQuery (q : Sql)
  | DBExec (q : Sql)
  | TxQueryRow (q : Sql)
  | TxExec (q : Sql)
  deriving DecidableEq, Repr

/-- What one call of a repository method receives from outside the store. -/
structure Env where
  /-- The value of `uuid.NewString()`. -/
  uuid : String
  /-- The value of `time.Now().UTC()`, in nanoseconds. -/
  now : Nat
  /-- Whether `r.DB.Begin()` returns an error, in a method that calls it. -/
  beginErr : Bool
  /-- Whether the first query of the method returns a driver error. -/
  queryErr : Bool
  /-- Whether the second query of the method returns a driver error. -/
  queryErr2 : Bool
  /-- Whether the `Exec` of the method returns an error. -/
  execErr : Bool
  /-- Whether `tx.Commit()` returns an error, in a method that calls it. A
  transaction whose `Commit` returns an error is taken not to be applied: the
  database is atomic and the deferred `tx.Rollback()` follows. -/
  commitErr : Bool
  /-- The row picked by the first `ORDER BY ... LIMIT 1` among rows with equal key. -/
  tie : Nat
  /-- The row picked by the second `ORDER BY ... LIMIT 1` among rows with equal key. -/
  tie2 : Nat
  deriving DecidableEq, Repr

/-- The result of a repository method, the store after it, and the calls it made. -/
structure Out (α : Type) where
  res : Res α
  store : Store
  log : List DBCall

/-! ## Library functions used by the repository -/

/-- The constant `time.Millisecond`, in nanoseconds. -/
def Millisecond : Nat := 1000000

/-- Go's `Time.Round(d)`: the nearest multiple of `d`, halfway values rounding up. -/
def Round (t d : Nat) : Nat :=
  if d = 0 then t
  else
    let r := t % d
    if r + r < d then t - r else t + (d - r)

/-- The rows returned by `SELECT ... ORDER BY key DESC LIMIT 1` over `rows`: a row
whose key no other row exceeds. SQL leaves the order of rows with equal keys
open; `tie` says which of them comes first. -/
def orderByDescLimit1 {α : Type} (key : α → Nat) (tie : Nat) (rows : List α) : Option α :=
  let top := rows.filter (fun r => rows.all (fun r' => decide (key r' ≤ key r)))
  top[tie % top.length]?

/-- The rows of `receptions` matching `WHERE pvz_id = $1 AND status = $2`. -/
def receptionsWhere (s : Store) (pvzID : String) (status : ReceptionStatus) : List Reception :=
  s.receptions.filter (fun r => decide (r.PvzID = pvzID) && decide (r.Status = status))

/-- The rows of `products` matching `WHERE reception_id = $1`. -/
def productsWhere (s : Store) (receptionID : String) : List Product :=
  s.products.filter (fun p => decide (p.ReceptionID = receptionID))

/-! ## Repository methods (`internal/repository/repository.go`) -/

def CreatePVZ (e : Env) (s : Store) (city : City) : Out PVZ :=
  let pvz : PVZ := ⟨e.uuid, Round e.now Millisecond, city⟩
  if e.execErr then
    ⟨.fail (.Wrap "can't create pvz"), s, [.DBExec .insertPVZ]⟩
  else
    ⟨.ok pvz, ⟨s.pvz ++ [pvz], s.receptions, s.products⟩, [.DBExec .insertPVZ]⟩

def CreateReception (e : Env) (s : Store) (pvzID : String) : Out Reception :=
  if e.queryErr then
    ⟨.fail (.Wrap "failed to check pvz existence"), s, [.DBQueryRow .checkPvzQuery]⟩
  else if !(s.pvz.any (fun p => decide (p.ID = pvzID))) then
    ⟨.fail .ErrPvzNotFound, s, [.DBQueryRow .checkPvzQuery]⟩
  else if e.queryErr2 then
    ⟨.fail (.Wrap "failed to check reception existence"), s,
      [.DBQueryRow .checkPvzQuery, .DBQueryRow .checkRecQuery]⟩
  else if !(receptionsWhere s pvzID StatusInProgress).isEmpty then
    ⟨.fail .ErrReceptionInProgress, s,
      [.DBQueryRow .checkPvzQuery, .DBQueryRow .checkRecQuery]⟩
  else
    let recv : Reception := ⟨e.uuid, Round e.now Millisecond, pvzID, StatusInProgress⟩
    if e.execErr then
      ⟨.fail (.Wrap "failed to insert reception"), s,
        [.DBQueryRow .checkPvzQuery, .DBQueryRow .checkRecQuery, .DBExec .insertQuery]⟩
    else
      ⟨.ok recv, ⟨s.pvz, s.receptions ++ [recv], s.products⟩,
        [.DBQueryRow .checkPvzQuery, .DBQueryRow .checkRecQuery, .DBExec .insertQuery]⟩

def CreateProduct (e : Env) (s : Store) (pvzID : String) (productType : ProductType) :
    Out Product :=
  if e.beginErr then
    ⟨.fail .ErrBeginTransaction, s, [.Begin]⟩
  else if e.queryErr then
    ⟨.fail (.Wrap "failed to get reception id"), s,
      [.Begin, .TxQueryRow .getReceptionIDQuery, .Rollback]⟩
  else
    match orderByDescLimit1 Reception.DateTime e.tie (receptionsWhere s pvzID StatusInProgress) with
    | none =>
      ⟨.fail .ErrNoActiveReception, s, [.Begin, .TxQueryRow .getReceptionIDQuery, .Rollback]⟩
    | some row =>
      let receptionID := row.ID
      let productID := e.uuid
      let regTime := Round e.now Millisecond
      if e.execErr then
        ⟨.fail (.Wrap "failed to insert product"), s,
          [.Begin, .TxQueryRow .getReceptionIDQuery, .TxExec .insertProductQuery, .Rollback]⟩
      else if e.commitErr then
        ⟨.fail .ErrCommitTransaction, s,
          [.Begin, .TxQueryRow .getReceptionIDQuery, .TxExec .insertProductQuery, .Commit]⟩
      else
        let product : Product := ⟨productID, regTime, productType, receptionID⟩
        ⟨.ok product, ⟨s.pvz, s.receptions, s.products ++ [product]⟩,
          [.Begin, .TxQueryRow .getReceptionIDQuery, .TxExec .insertProductQuery, .Commit]⟩

def CloseLastReception (e : Env) (s : Store) (pvzID : String) : Out Reception :=
  if e.beginErr then
    ⟨.fail .ErrBeginTransaction, s, [.Begin]⟩
  else if e.queryErr then
    ⟨.fail (.Wrap "select reception"), s, [.Begin, .TxQueryRow .getRecInfoQuery, .Rollback]⟩
  else
    match orderByDescLimit1 Reception.DateTime e.tie (receptionsWhere s pvzID StatusInProgress) with
    | none =>
      ⟨.fail .ErrNoActiveReception, s, [.Begin, .TxQueryRow .getRecInfoQuery, .Rollback]⟩
    | some row =>
      let recv : Reception := ⟨row.ID, row.DateTime, pvzID, StatusClose⟩
      if e.execErr then
        ⟨.fail (.Wrap "update reception"), s,
          [.Begin, .TxQueryRow .getRecInfoQuery, .TxExec .updateQuery, .Rollback]⟩
      else if e.commitErr then
        ⟨.fail .ErrCommitTransaction, s,
          [.Begin, .TxQueryRow .getRecInfoQuery, .TxExec .updateQuery, .Commit]⟩
      else
        ⟨.ok recv,
          ⟨s.pvz,
            s.receptions.map (fun r =>
              if r.ID = recv.ID then ⟨r.ID, r.DateTime, r.PvzID, recv.Status⟩ else r),
            s.products⟩,
          [.Begin, .TxQueryRow .getRecInfoQuery, .TxExec .updateQuery, .Commit]⟩

def DeleteLastProduct (e : Env) (s : Store) (pvzID : String) : Out Unit :=
  if e.beginErr then
    ⟨.fail .ErrBeginTransaction, s, [.Begin]⟩
  else if e.queryErr then
    ⟨.fail (.Wrap "select reception"), s,
      [.Begin, .TxQueryRow .getReceptionIDQuery, .Rollback]⟩
  else
    match orderByDescLimit1 Reception.DateTime e.tie (receptionsWhere s pvzID StatusInProgress) with
    | none =>
      ⟨.fail .ErrNoActiveReception, s, [.Begin, .TxQueryRow .getReceptionIDQuery, .Rollback]⟩
    | some row =>
      let receptionID := row.ID
      if e.queryErr2 then
        ⟨.fail (.Wrap "select product"), s,
          [.Begin, .TxQueryRow .getReceptionIDQuery, .TxQueryRow .getProductIDQuery, .Rollback]⟩
      else
        match orderByDescLimit1 Product.DateTime e.tie2 (productsWhere s receptionID) with
        | none =>
          ⟨.fail .ErrNoProductsInReception, s,
            [.Begin, .TxQueryRow .getReceptionIDQuery, .TxQueryRow .getProductIDQuery,
              .Rollback]⟩
        | some prow =>
          let productID := prow.ID
          if e.execErr then
            ⟨.fail (.Wrap "delete product"), s,
              [.Begin, .TxQueryRow .getReceptionIDQuery, .TxQueryRow .getProductIDQuery,
                .TxExec .deleteQuery, .Rollback]⟩
          else if e.commitErr then
            ⟨.fail .ErrCommitTransaction, s,
              [.Begin, .TxQueryRow .getReceptionIDQuery, .TxQueryRow .getProductIDQuery,
                .TxExec .deleteQuery, .Commit]⟩
          else
            ⟨.ok (),
              ⟨s.pvz, s.receptions, s.products.filter (fun p => !decide (p.ID = productID))⟩,
              [.Begin, .TxQueryRow .getReceptionIDQuery, .TxQueryRow .getProductIDQuery,
                .TxExec .deleteQuery, .Commit]⟩

/-! ## Sequences of calls -/

/-- One call of a store operation with its arguments. -/
inductive Call where
  | CreatePVZ (city : City)
  | CreateReception (pvzID : String)
  | CreateProduct (pvzID : String) (productType : ProductType)
  | DeleteLastProduct (pvzID : String)
  | CloseLastReception (pvzID : String)
  deriving DecidableEq, Repr

/-- The store after one call that runs to completion. -/
def step (s : Store) (c : Env × Call) : Store :=
  match c.2 with
  | .CreatePVZ city => (CreatePVZ c.1 s city).store
  | .CreateReception pvzID => (CreateReception c.1 s pvzID).store
  | .CreateProduct pvzID productType => (CreateProduct c.1 s pvzID productType).store
  | .DeleteLastProduct pvzID => (DeleteLastProduct c.1 s pvzID).store
  | .CloseLastReception pvzID => (CloseLastReception c.1 s pvzID).store

/-- The store after a sequence of calls, each completing before the next starts. -/
def run (s : Store) (cs : List (Env × Call)) : Store :=
  cs.foldl step s

/-- The number of receptions of `pvzID` with status `in_progress`. -/
def inProgressCount (s : Store) (pvzID : String) : Nat :=
  (receptionsWhere s pvzID StatusInProgress).length

/-- An environment in which no database call fails. -/
def Env.ok (uuid : String) (now : Nat) (tie tie2 : Nat) : Env :=
  ⟨uuid, now, false, false, false, false, false, tie, tie2⟩

/-! ## Example stores -/

/-- A small store: pickup point `Z` with one in-progress reception `R1`. -/
def sampleOpen : Store :=
  ⟨[⟨"Z", 0, "Казань"⟩], [⟨"R1", 1000000, "Z", StatusInProgress⟩], []⟩

/-- A small store: pickup point `Z` whose only reception `R1` is closed. -/
def sampleClosed : Store :=
  ⟨[⟨"Z", 0, "Казань"⟩], [⟨"R1", 1000000, "Z", StatusClose⟩], []⟩

/-- The store `sampleOpen` with two products in reception `R1`. -/
def sampleTwo : Store :=
  ⟨[⟨"Z", 0, "Казань"⟩], [⟨"R1", 1000000, "Z", StatusInProgress⟩],
    [⟨"P1", 2000000, "обувь", "R1"⟩, ⟨"P2", 3000000, "обувь", "R1"⟩]⟩

/-- A sequence of calls on the empty store: create pickup point `Z`, open a
reception, try to open a second one, append a product, close, open again. -/
def sampleCalls : List (Env × Call) :=
  [(Env.ok "Z" 100 0 0, .CreatePVZ "Казань"),
   (Env.ok "R1" 1000000 0 0, .CreateReception "Z"),
   (Env.ok "R2" 2000000 0 0, .CreateReception "Z"),
   (Env.ok "P1" 3000000 0 0, .CreateProduct "Z" "обувь"),
   (Env.ok "" 4000000 0 0, .CloseLastReception "Z"),
   (Env.ok "R3" 5000000 0 0, .CreateReception "Z")]

/-- The store after appending `P1`, `P2`, `P3` in that order to the empty
reception `R1` of `sampleOpen`. The clock reads 5.0001 ms, 6.0001 ms and
6.00045 ms; `CreateProduct` rounds the last two to the same millisecond. -/
def afterThreeAppends : Store :=
  (CreateProduct (Env.ok "P3" 6000450 0 0)
    (CreateProduct (Env.ok "P2" 6000100 0 0)
      (CreateProduct (Env.ok "P1" 5000100 0 0) sampleOpen "Z" "обувь").store
      "Z" "обувь").store
    "Z" "обувь").store

/-- The store after appending `P1`, `P2`, `P3` to the empty reception `R1` of
`sampleOpen` at clock readings that round to three different milliseconds. -/
def afterThreeSpacedAppends : Store :=
  (CreateProduct (Env.ok "P3" 7000450 0 0)
    (CreateProduct (Env.ok "P2" 6000100 0 0)
      (CreateProduct (Env.ok "P1" 5000100 0 0) sampleOpen "Z" "обувь").store
      "Z" "обувь").store
    "Z" "обувь").store

/-- The part of the tables that concerns the reception row `r` stored at position
`i`: the row is still there, no row with its id is `in_progress`, the products
referencing it are exactly `P`, and no other product carries the id of one of
them. -/
def ClosedFrame (r : Reception) (i : Nat) (P : List Product)
    (recs : List Reception) (prods : List Product) : Prop :=
  recs[i]? = some r ∧
  (∀ r' ∈ recs, r'.ID = r.ID → r'.Status ≠ StatusInProgress) ∧
  prods.filter (fun p => decide (p.ReceptionID = r.ID)) = P ∧
  (∀ q ∈ prods, q.ReceptionID ≠ r.ID → ∀ p ∈ P, q.ID ≠ p.ID)

/-- An environment in which `Begin` and `Commit` would fail and everything else
succeeds. -/
def envNoTx : Env :=
  ⟨"R2", 5000000, true, false, false, false, true, 0, 0⟩

/-! ## The read model (`GetPVZInfo`) -/

/-- The Go struct `models.ReceptionWithProducts`. A Go slice is an optional list:
`none` is the nil slice. -/
structure ReceptionWithProducts where
  Reception : Reception
  Products : Option (List Product)
  deriving DecidableEq, Repr

/-- The Go struct `models.PVZInfo`; `Receptions` is a Go slice (`none` is nil). -/
structure PVZInfo where
  Pvz : PVZ
  Receptions : Option (List ReceptionWithProducts)
  deriving DecidableEq, Repr

/-- How the fetch of one result set goes: without error, with an error from
`Query`, with an error from `Scan` on a row, with an error from `rows.Err()`, or
with the process running out of memory while it buffers the rows (a fatal error
of the Go runtime: the call returns nothing). -/
inductive Fetch where
  | fine
  | queryErr
  | scanErr
  | rowsErr
  | noMemory
  deriving DecidableEq, Repr

/-- What one call of `GetPVZInfo` receives from outside the store: how each of the
three fetches goes, and for each `ORDER BY create_date` the preference of the
database among rows with equal `create_date` (smaller rank first). -/
structure ReadEnv where
  pvzFetch : Fetch
  recFetch : Fetch
  prodFetch : Fetch
  pvzRank : PVZ → Nat
  recRank : Reception → Nat
  prodRank : Product → Nat

/-- The value of a Go `int` (64 bits) holding the integer `x`. -/
def wrapInt64 (x : Int) : Int :=
  (x + 2 ^ 63) % 2 ^ 64 - 2 ^ 63

/-- The order of the rows of `ORDER BY key`: by key, rows with equal keys by the
rank the database gives them. -/
def rowLE {α : Type} (key rank : α → Nat) (a b : α) : Prop :=
  key a < key b ∨ (key a = key b ∧ rank a ≤ rank b)

instance rowLE_decidable {α : Type} (key rank : α → Nat) : DecidableRel (rowLE key rank) :=
  fun a b => inferInstanceAs (Decidable (key a < key b ∨ (key a = key b ∧ rank a ≤ rank b)))

/-- The rows of `SELECT ... ORDER BY key` over `rows`. -/
def orderBy {α : Type} (key rank : α → Nat) (rows : List α) : List α :=
  rows.insertionSort (rowLE key rank)

/-- The condition `create_date BETWEEN $1 AND $2`, the same as
`create_date >= $1 AND create_date <= $2`. -/
def inWindow (start end_ t : Nat) : Bool :=
  decide (start ≤ t) && decide (t ≤ end_)

/-- The pickup points joined with a reception inside the window, `DISTINCT`. -/
def pvzInWindow (s : Store) (start end_ : Nat) : List PVZ :=
  (s.pvz.filter (fun p =>
    s.receptions.any (fun r => decide (r.PvzID = p.ID) && inWindow start end_ r.DateTime))).dedup

/-- The rows of the query `selectPVZList` with `LIMIT limit OFFSET offset`. -/
def selectPVZList (rank : PVZ → Nat) (s : Store) (start end_ : Nat) (limit offset : Nat) :
    List PVZ :=
  ((orderBy PVZ.RegistrationDate rank (pvzInWindow s start end_)).drop offset).take limit

/-- The rows of the query `selectRecList` for the pickup-point ids `pvzIDList`. -/
def selectRecList (rank : Reception → Nat) (s : Store) (pvzIDList : List String)
    (start end_ : Nat) : List Reception :=
  orderBy Reception.DateTime rank
    (s.receptions.filter (fun r =>
      decide (r.PvzID ∈ pvzIDList) && inWindow start end_ r.DateTime))

/-- The rows of the query `selectProductList` for the reception ids `recIDList`. -/
def selectProductList (rank : Product → Nat) (s : Store) (recIDList : List String) :
    List Product :=
  orderBy Product.DateTime rank
    (s.products.filter (fun p => decide (p.ReceptionID ∈ recIDList)))

/-- A Go `map[string]β`. -/
abbrev GoMap (β : Type) := String → Option β

def GoMap.empty {β : Type} : GoMap β := fun _ => none

/-- The map after `m[k] = v`. -/
def GoMap.set {β : Type} (m : GoMap β) (k : String) (v : β) : GoMap β :=
  fun k' => if k' = k then some v else m k'

/-- The loop filling `productsMap`:
`productsMap[product.ReceptionID] = append(productsMap[product.ReceptionID], product)`. -/
def buildProductsMap (prods : List Product) : GoMap (List Product) :=
  prods.foldl (fun m p => m.set p.ReceptionID ((m p.ReceptionID).getD [] ++ [p])) GoMap.empty

/-- The loop filling `pvzMap` from index `i` on: `pvzMap[info.Pvz.ID] = &pvzInfoList[i]`;
a pointer into the slice is the index of the element. -/
def buildPvzMap : Nat → List PVZInfo → GoMap Nat → GoMap Nat
  | _, [], m => m
  | i, info :: rest, m => buildPvzMap (i + 1) rest (m.set info.Pvz.ID i)

/-- The list with `g` applied to the element at index `i`. -/
def modifyAt {α : Type} (g : α → α) : Nat → List α → List α
  | _, [] => []
  | 0, x :: xs => g x :: xs
  | i + 1, x :: xs => x :: modifyAt g i xs

/-- One round of the second stitch loop; `none` is the nil-pointer panic of
`pvzMap[rwp.Reception.PvzID].Receptions` when the key is absent. -/
def stitchStep (productsMap : GoMap (List Product)) (pvzMap : GoMap Nat)
    (acc : Option (List PVZInfo)) (rwp : ReceptionWithProducts) : Option (List PVZInfo) :=
  match acc with
  | none => none
  | some infos =>
    let products := (productsMap rwp.Reception.ID).getD []
    let rwp' : ReceptionWithProducts := ⟨rwp.Reception, some products⟩
    match pvzMap rwp.Reception.PvzID with
    | none => none
    | some i =>
      some (modifyAt (fun info => ⟨info.Pvz, some (info.Receptions.getD [] ++ [rwp'])⟩) i infos)

/-- The in-memory stitch at the end of `GetPVZInfo`. -/
def stitch (pvzInfoList : List PVZInfo) (recList : List ReceptionWithProducts)
    (productsMap : GoMap (List Product)) : Option (List PVZInfo) :=
  let infos : List PVZInfo := pvzInfoList.map (fun info => ⟨info.Pvz, some []⟩)
  let pvzMap := buildPvzMap 0 pvzInfoList GoMap.empty
  recList.foldl (stitchStep productsMap pvzMap) (some infos)

/-- The largest size in bytes of one allocation of the Go runtime on a 64-bit
platform (`maxAlloc` of `runtime/malloc.go`, 48 address bits). -/
def maxAlloc : Nat := 2 ^ 48

/-- The size in bytes of a `models.PVZInfo` on a 64-bit platform: the `PVZ` holds
two strings of 16 bytes and a `time.Time` of 24 bytes, the `Receptions` slice
header takes 24 bytes. -/
def sizeofPVZInfo : Nat := 80

/-- The size in bytes of a `string` on a 64-bit platform. -/
def sizeofString : Nat := 16

/-- Whether the capacity of `make([]T, 0, cap)` is in range, for elements of
`elemSize` bytes: `runtime.makeslice` panics with "makeslice: cap out of range"
when `cap` is negative or `cap` elements take more than `maxAlloc` bytes. Within
this range the memory is requested; whether the process has it is part of
`Fetch`. -/
def makeslice (elemSize : Nat) (cap : Int) : Bool :=
  decide (0 ≤ cap) && decide (cap.toNat * elemSize ≤ maxAlloc)

def GetPVZInfo (e : ReadEnv) (s : Store) (start end_ : Nat) (page limit : Int) :
    Out (Option (List PVZInfo)) :=
  let offset := wrapInt64 ((page - 1) * limit)
  if e.pvzFetch = .queryErr ∨ limit < 0 ∨ offset < 0 then
    ⟨.fail (.Wrap "select pvz"), s, [.DBQuery .selectPVZList]⟩
  else if makeslice sizeofPVZInfo limit = false ∨ makeslice sizeofString limit = false then
    ⟨.fail (.Panic "makeslice: cap out of range"), s, [.DBQuery .selectPVZList]⟩
  else if e.pvzFetch = .noMemory then
    ⟨.fail (.Panic "fatal error: runtime: out of memory"), s, [.DBQuery .selectPVZList]⟩
  else
    let pvzRows := selectPVZList e.pvzRank s start end_ limit.toNat offset.toNat
    if e.pvzFetch = .scanErr ∧ pvzRows ≠ [] then
      ⟨.fail (.Wrap "pvz rows scan"), s, [.DBQuery .selectPVZList]⟩
    else if e.pvzFetch = .rowsErr then
      ⟨.fail (.Wrap "rows err pvz"), s, [.DBQuery .selectPVZList]⟩
    else
      let pvzInfoList : List PVZInfo := pvzRows.map (fun p => ⟨p, none⟩)
      let pvzIDList := pvzRows.map PVZ.ID
      if pvzIDList.length = 0 then
        ⟨.ok (some pvzInfoList), s, [.DBQuery .selectPVZList]⟩
      else if e.recFetch = .queryErr then
        ⟨.fail (.Wrap "select reception"), s, [.DBQuery .selectPVZList, .DBQuery .selectRecList]⟩
      else if e.recFetch = .noMemory then
        ⟨.fail (.Panic "fatal error: runtime: out of memory"), s,
          [.DBQuery .selectPVZList, .DBQuery .selectRecList]⟩
      else
        let recRows := selectRecList e.recRank s pvzIDList start end_
        if e.recFetch = .scanErr ∧ recRows ≠ [] then
          ⟨.fail (.Wrap "reception rows scan"), s,
            [.DBQuery .selectPVZList, .DBQuery .selectRecList]⟩
        else if e.recFetch = .rowsErr then
          ⟨.fail (.Wrap "rows err reception"), s,
            [.DBQuery .selectPVZList, .DBQuery .selectRecList]⟩
        else
          let recList : List ReceptionWithProducts := recRows.map (fun r => ⟨r, none⟩)
          let recIDList := recRows.map Reception.ID
          if e.prodFetch = .queryErr then
            ⟨.fail (.Wrap "select product"), s,
              [.DBQuery .selectPVZList, .DBQuery .selectRecList, .DBQuery .selectProductList]⟩
          else if e.prodFetch = .noMemory then
            ⟨.fail (.Panic "fatal error: runtime: out of memory"), s,
              [.DBQuery .selectPVZList, .DBQuery .selectRecList, .DBQuery .selectProductList]⟩
          else
            let prodRows := selectProductList e.prodRank s recIDList
            if e.prodFetch = .scanErr ∧ prodRows ≠ [] then
              ⟨.fail (.Wrap "product rows scan"), s,
                [.DBQuery .selectPVZList, .DBQuery .selectRecList, .DBQuery .selectProductList]⟩
            else if e.prodFetch = .rowsErr then
              ⟨.fail (.Wrap "rows err product"), s,
                [.DBQuery .selectPVZList, .DBQuery .selectRecList, .DBQuery .selectProductList]⟩
            else
              match stitch pvzInfoList recList (buildProductsMap prodRows) with
              | none =>
                ⟨.fail (.Panic "nil pointer dereference"), s,
                  [.DBQuery .selectPVZList, .DBQuery .selectRecList,
                    .DBQuery .selectProductList]⟩
              | some out =>
                ⟨.ok (some out), s,
                  [.DBQuery .selectPVZList, .DBQuery .selectRecList,
                    .DBQuery .selectProductList]⟩

/-- A read environment without failures in which the database returns rows with
equal `create_date` in table order. -/
def ReadEnv.ok : ReadEnv :=
  ⟨.fine, .fine, .fine, fun _ => 0, fun _ => 0, fun _ => 0⟩

/-- A store with history: pickup point `Z`, its closed reception `R1` and the two
products of `R1`. -/
def sampleHistory : Store :=
  ⟨[⟨"Z", 0, "Казань"⟩], [⟨"R1", 1000000, "Z", StatusClose⟩],
    [⟨"P1", 2000000, "обувь", "R1"⟩, ⟨"P2", 3000000, "обувь", "R1"⟩]⟩

/-- Fifteen pickup points `p01` ... `p15`, created in that order at distinct times,
each with one reception created at time 100000000. -/
def fifteen : Store :=
  ⟨[
    ⟨"p01", 1000000, "Москва"⟩, ⟨"p02", 2000000, "Москва"⟩, ⟨"p03", 3000000, "Москва"⟩,
    ⟨"p04", 4000000, "Москва"⟩, ⟨"p05", 5000000, "Москва"⟩, ⟨"p06", 6000000, "Москва"⟩,
    ⟨"p07", 7000000, "Москва"⟩, ⟨"p08", 8000000, "Москва"⟩, ⟨"p09", 9000000, "Москва"⟩,
    ⟨"p10", 10000000, "Москва"⟩, ⟨"p11", 11000000, "Москва"⟩, ⟨"p12", 12000000, "Москва"⟩,
    ⟨"p13", 13000000, "Москва"⟩, ⟨"p14", 14000000, "Москва"⟩, ⟨"p15", 15000000, "Москва"⟩],
   [
    ⟨"r01", 100000000, "p01", StatusInProgress⟩, ⟨"r02", 100000000, "p02", StatusInProgress⟩,
    ⟨"r03", 100000000, "p03", StatusInProgress⟩, ⟨"r04", 100000000, "p04", StatusInProgress⟩,
    ⟨"r05", 100000000, "p05", StatusInProgress⟩, ⟨"r06", 100000000, "p06", StatusInProgress⟩,
    ⟨"r07", 100000000, "p07", StatusInProgress⟩, ⟨"r08", 100000000, "p08", StatusInProgress⟩,
    ⟨"r09", 100000000, "p09", StatusInProgress⟩, ⟨"r10", 100000000, "p10", StatusInProgress⟩,
    ⟨"r11", 100000000, "p11", StatusInProgress⟩, ⟨"r12", 100000000, "p12", StatusInProgress⟩,
    ⟨"r13", 100000000, "p13", StatusInProgress⟩, ⟨"r14", 100000000, "p14", StatusInProgress⟩,
    ⟨"r15", 100000000, "p15", StatusInProgress⟩],
   []⟩

/-- The store of the scenario: starting from pickup point `Z` alone, open
reception `R1`, append `P1` when the clock reads `c1` and `P2` when it reads `c2`,
then close the reception. -/
def afterScenario (c1 c2 : Nat) : Store :=
  (CloseLastReception (Env.ok "" 9000000 0 0)
    (CreateProduct (Env.ok "P2" c2 0 0)
      (CreateProduct (Env.ok "P1" c1 0 0)
        (CreateReception (Env.ok "R1" 1000000 0 0) ⟨[⟨"Z", 0, "Казань"⟩], [], []⟩ "Z").store
        "Z" "обувь").store
      "Z" "обувь").store
    "Z").store

/-- A read environment without failures in which the database returns product
`P2` before other products with the same `create_date`. -/
def readEnvP2First : ReadEnv :=
  ⟨.fine, .fine, .fine, fun _ => 0, fun _ => 0, fun p => if p.ID = "P2" then 0 else 1⟩

/-! ## The service (`internal/services/services.go`) -/

/-- The result of `Service.GetPVZInfo` together with the argument tuples
`(start, end, page, limit)` of the calls it made to `Repo.GetPVZInfo`. -/
structure ServiceOut (R : Type) where
  res : Res R
  calls : List (Nat × Nat × Int × Int)

/-- The method `Service.GetPVZInfo`. Its surroundings are parameters: `parse` is
`time.Parse(time.RFC3339, ·)` (`none` when it returns an error), `now` is the
value of `time.Now().UTC()`, `repo` is `s.Repo.GetPVZInfo`. The zero `time.Time`
is instant `0`. -/
def Service.GetPVZInfo {R : Type} (parse : String → Option Nat) (now : Nat)
    (repo : Nat → Nat → Int → Int → Res R) (start end_ : String) (page limit : Int) :
    ServiceOut R :=
  let page := if page = 0 then 1 else page
  let limit := if limit = 0 then 10 else limit
  let startDate := 0
  let endDate := now
  let rest := fun (startDate endDate : Nat) =>
    (⟨repo startDate endDate page limit, [(startDate, endDate, page, limit)]⟩ : ServiceOut R)
  let afterStart := fun (startDate : Nat) =>
    if end_ ≠ "" then
      match parse end_ with
      | none => (⟨.fail (.Wrap "invalid endDate"), []⟩ : ServiceOut R)
      | some t => rest startDate t
    else rest startDate endDate
  if start ≠ "" then
    match parse start with
    | none => ⟨.fail (.Wrap "invalid startDate"), []⟩
    | some t => afterStart t
  else afterStart startDate

/-- The text of an error value, given the text `cause` of the error it wraps:
`models.Wrap` formats `"%s: %w"`. -/
def Err.text (cause : String) : Err → String
  | .ErrUserNotFound => "user not found"
  | .ErrNoActiveReception => "no active reception"
  | .ErrReceptionInProgress => "previous reception not closed"
  | .ErrPvzNotFound => "pvz not found"
  | .ErrNoProductsInReception => "no products in reception"
  | .ErrInvalidPassword => "invalid password"
  | .ErrBeginTransaction => "failed to begin transaction"
  | .ErrCommitTransaction => "failed to commit transaction"
  | .Wrap msg => msg ++ ": " ++ cause
  | .Panic msg => msg

/-- A stand-in for `time.Parse` that accepts one timestamp only. -/
def parseOne : String → Option Nat :=
  fun str => if str = "2025-01-01T00:00:00Z" then some 63871286400000000000 else none

/-- A stand-in for the repository that returns its arguments. -/
def repoEcho : Nat → Nat → Int → Int → Res (Nat × Nat × Int × Int) :=
  fun a b c d => .ok (a, b, c, d)

/-! ## Validation (`internal/validation/validation.go`) -/

abbrev Role := String

def Employee : Role := "employee"
def Moderator : Role := "moderator"

def Moscow : City := "Москва"
def SaintP : City := "Санкт-Петербург"
def Kazan : City := "Казань"

def Electronic : ProductType := "электроника"
def Clothes : ProductType := "одежда"
def Shoes : ProductType := "обувь"

/-- The function `check(v, set...)`: `slices.Contains(set, v)`. -/
def check {T : Type} [DecidableEq T] (v : T) (set : List T) : Bool :=
  set.any (fun x => decide (x = v))

/-- The validator registered as `govalidator.TagMap["role"]`. -/
def validateRole (str : String) : Bool :=
  check str [Employee, Moderator]

/-- The validator registered as `govalidator.TagMap["city"]`. -/
def validateCity (str : String) : Bool :=
  check str [Moscow, SaintP, Kazan]

/-- The validator registered as `govalidator.TagMap["productType"]`. -/
def validateProductType (str : String) : Bool :=
  check str [Electronic, Clothes, Shoes]

/-! ## Handlers (`internal/handlers/handlers.go`) -/

def StatusOK : Nat := 200
def StatusCreated : Nat := 201
def StatusBadRequest : Nat := 400
def StatusInternalServerError : Nat := 500

/-- The status code written by `Handler.CreateReception`: `bindErr` and
`validateErr` say whether `c.Bind` and `c.Validate` fail, `svc` is what
`h.Service.CreateReception` returns. -/
def Handler.CreateReception (bindErr validateErr : Bool) (svc : Res Reception) : Nat :=
  if bindErr then StatusBadRequest
  else if validateErr then StatusBadRequest
  else
    match svc with
    | .fail _ => StatusBadRequest
    | .ok _ => StatusCreated

/-- The status code written by `Handler.CreateProduct`. -/
def Handler.CreateProduct (bindErr validateErr : Bool) (svc : Res Product) : Nat :=
  if bindErr then StatusBadRequest
  else if validateErr then StatusBadRequest
  else
    match svc with
    | .fail _ => StatusBadRequest
    | .ok _ => StatusCreated

/-- The status code written by `Handler.CloseLastReception`: `isUUID` is the value
of `govalidator.IsUUID(pvzID)`. -/
def Handler.CloseLastReception (isUUID : Bool) (svc : Res Reception) : Nat :=
  if !isUUID then StatusBadRequest
  else
    match svc with
    | .fail _ => StatusBadRequest
    | .ok _ => StatusOK

/-- The status code written by `Handler.DeleteLastProduct`. -/
def Handler.DeleteLastProduct (isUUID : Bool) (svc : Res Unit) : Nat :=
  if !isUUID then StatusBadRequest
  else
    match svc with
    | .fail _ => StatusBadRequest
    | .ok _ => StatusOK

/-- The status code written by `Handler.GetPVZ`. -/
def Handler.GetPVZ {R : Type} (bindErr validateErr : Bool) (svc : Res R) : Nat :=
  if bindErr then StatusBadRequest
  else if validateErr then StatusBadRequest
  else
    match svc with
    | .fail _ => StatusInternalServerError
    | .ok _ => StatusOK

/-! ## Transaction discipline of a call log -/

/-- Whether the call is a statement sent on `r.DB`, outside any transaction. -/
def DBCall.outsideTx : DBCall → Bool
  | .DBQueryRow _ => true
  | .DBQuery _ => true
  | .DBExec _ => true
  | _ => false

/-- Whether the call is a query on the transaction whose text carries `FOR UPDATE`. -/
def DBCall.lockingRead : DBCall → Bool
  | .TxQueryRow q => q.forUpdate
  | _ => false

/-- The calls of one operation follow the transaction discipline: `Begin` comes
first, no statement goes to `r.DB` directly, the first statement after `Begin` is
a locking read, and a call that succeeded ends with `Commit`. -/
def txDiscipline (log : List DBCall) (succeeded : Bool) : Bool :=
  match log with
  | .Begin :: rest =>
    rest.all (fun c => !c.outsideTx) &&
    (match rest with
      | [] => true
      | c :: _ => c.lockingRead) &&
    (!succeeded || decide (log.getLast? = some .Commit))
  | _ => false

/-- Whether the result is a success. -/
def Res.isOk {α : Type} : Res α → Bool
  | .ok _ => true
  | .fail _ => false

/-- Referential integrity of the store: every reception's `pvz_id` is the id of a
pickup point of the pvz table, and every product's `reception_id` is the id of a
reception of the receptions table. -/
def RefIntegrity (s : Store) : Prop :=
  (∀ r ∈ s.receptions, ∃ p ∈ s.pvz, p.ID = r.PvzID) ∧
  (∀ q ∈ s.products, ∃ r ∈ s.receptions, r.ID = q.ReceptionID)

/-- Whether product `p` belongs to pickup point `pvzID`: a reception of `pvzID`
carries the id that `p` references. -/
def ownedBy (s : Store) (pvzID : String) (p : Product) : Bool :=
  s.receptions.any (fun r => decide (r.ID = p.ReceptionID) && decide (r.PvzID = pvzID))

/-- Whether product `p` belongs to a pickup point other than `pvzID`. -/
def ownedByOther (s : Store) (pvzID : String) (p : Product) : Bool :=
  s.receptions.any (fun r => decide (r.ID = p.ReceptionID) && !decide (r.PvzID = pvzID))

/-- The store `s'` differs from `s` at most in receptions and products of pickup
point `pvzID`: the pvz table is the same, the receptions of other pickup points
are the same rows in the same order, and so are the products of other pickup
points. -/
def Frame (s : Store) (pvzID : String) (s' : Store) : Prop :=
  s'.pvz = s.pvz ∧
  s'.receptions.filter (fun r => !decide (r.PvzID = pvzID))
    = s.receptions.filter (fun r => !decide (r.PvzID = pvzID)) ∧
  s'.products.filter (ownedByOther s pvzID) = s.products.filter (ownedByOther s pvzID)

/-- Two pickup points `Z` and `Y`, each with a reception in progress holding one
product. -/
def sampleTwoPoints : Store :=
  ⟨[⟨"Z", 0, "Казань"⟩, ⟨"Y", 500000, "Москва"⟩],
    [⟨"R1", 1000000, "Z", StatusInProgress⟩, ⟨"R2", 2000000, "Y", StatusInProgress⟩],
    [⟨"P1", 3000000, "обувь", "R1"⟩, ⟨"P2", 4000000, "одежда", "R2"⟩]⟩

/-! ## Role check (`RoleCheckerMW` of `internal/app/app.go`) -/

def StatusForbidden : Nat := 403

/-- A value stored in a `jwt.MapClaims`: a Go string or a value of another type. -/
inductive ClaimValue where
  | str (s : String)
  | other

/-- The field `token.Claims`: a `jwt.MapClaims` or claims of another type. -/
inductive Claims where
  | mapClaims (m : GoMap ClaimValue)
  | otherClaims

/-- The value of `c.Get("user")`: nothing or a value that is not a `*jwt.Token`, a
nil `*jwt.Token`, or a pointer to a token. -/
inductive UserValue where
  | absent
  | nilToken
  | token (claims : Claims)

/-- What the middleware does with a request: it calls `next`, or answers with a
status and a message, or panics. -/
inductive MWResult where
  | next
  | json (status : Nat) (message : String)
  | panic
  deriving DecidableEq, Repr

/-- The loop filling `rolesMap`: `rolesMap[string(val)] = struct{}{}`. -/
def buildRolesMap (allowedRoles : List Role) : GoMap Unit :=
  allowedRoles.foldl (fun m val => m.set val ()) GoMap.empty

def RoleCheckerMW (allowedRoles : List Role) (user : UserValue) : MWResult :=
  let rolesMap := buildRolesMap allowedRoles
  match user with
  | .absent => .json StatusForbidden "access is denied"
  | .nilToken => .panic
  | .token claims =>
    match claims with
    | .otherClaims => .json StatusForbidden "access is denied"
    | .mapClaims m =>
      let role :=
        match m "role" with
        | some (.str s) => s
        | _ => ""
      match rolesMap role with
      | none => .json StatusForbidden "access is denied"
      | some _ => .next

/-- Claims holding only the string role `r`. -/
def claimsWithRole (r : String) : Claims :=
  .mapClaims (GoMap.empty.set "role" (.str r))

/-! ## Concurrent callers of `CreateReception` -/

/-- Where a running `CreateReception` call stands: before one of its three store
accesses, or returned with a result. -/
inductive OpenPC where
  | checkPvz
  | checkRec
  | insert
  | done (res : Res Reception)
  deriving DecidableEq, Repr

/-- The next store access of a `CreateReception pvzID` call. Each access is one
statement sent on `r.DB`; the database runs it atomically. -/
def CreateReception.access (e : Env) (pvzID : String) (pc : OpenPC) (s : Store) :
    OpenPC × Store :=
  match pc with
  | .checkPvz =>
    if e.queryErr then (.done (.fail (.Wrap "failed to check pvz existence")), s)
    else if !(s.pvz.any (fun p => decide (p.ID = pvzID))) then
      (.done (.fail .ErrPvzNotFound), s)
    else (.checkRec, s)
  | .checkRec =>
    if e.queryErr2 then (.done (.fail (.Wrap "failed to check reception existence")), s)
    else if !(receptionsWhere s pvzID StatusInProgress).isEmpty then
      (.done (.fail .ErrReceptionInProgress), s)
    else (.insert, s)
  | .insert =>
    let recv : Reception := ⟨e.uuid, Round e.now Millisecond, pvzID, StatusInProgress⟩
    if e.execErr then (.done (.fail (.Wrap "failed to insert reception")), s)
    else (.done (.ok recv), ⟨s.pvz, s.receptions ++ [recv], s.products⟩)
  | .done res => (.done res, s)

/-- Two `CreateReception pvzID` calls `A` and `B` and the store they share. -/
structure Openers where
  pcA : OpenPC
  pcB : OpenPC
  store : Store
  deriving DecidableEq, Repr

/-- One store access by `A` (when `turnA`) or by `B`. -/
def Openers.step (eA eB : Env) (pvzID : String) (st : Openers) (turnA : Bool) : Openers :=
  if turnA then
    ⟨(CreateReception.access eA pvzID st.pcA st.store).1, st.pcB,
      (CreateReception.access eA pvzID st.pcA st.store).2⟩
  else
    ⟨st.pcA, (CreateReception.access eB pvzID st.pcB st.store).1,
      (CreateReception.access eB pvzID st.pcB st.store).2⟩

/-- The two calls run under the interleaving `schedule` of their store accesses. -/
def Openers.run (eA eB : Env) (pvzID : String) (s : Store) (schedule : List Bool) : Openers :=
  schedule.foldl (Openers.step eA eB pvzID) ⟨.checkPvz, .checkPvz, s⟩

/-- The interleaving in which both calls pass their checks before either inserts. -/
def checksFirst : List Bool :=
  [true, true, false, false, true, false]

/-! ## Stores with two receptions in progress, and a mixed history -/

/-- The store that two concurrent `CreateReception "Z"` calls leave on
`sampleClosed` when both make their checks before either inserts: receptions `RA`
and `RB` of `Z` are both in progress. -/
def sampleRaced : Store :=
  (Openers.run (Env.ok "RA" 5000000 0 0) (Env.ok "RB" 6000000 0 0) "Z" sampleClosed
    checksFirst).store

/-- The store `sampleRaced` after one `CreateProduct "Z"`: product `P1` is in the
later reception `RB`, and reception `RA` is in progress and empty. -/
def sampleRacedOne : Store :=
  (CreateProduct (Env.ok "P1" 7000000 0 0) sampleRaced "Z" "обувь").store

/-- Pickup point `Z` with a closed reception `R1` holding product `P1` and a
reception `R2` in progress holding no product. -/
def sampleMixed : Store :=
  ⟨[⟨"Z", 0, "Казань"⟩],
    [⟨"R1", 1000000, "Z", StatusClose⟩, ⟨"R2", 4000000, "Z", StatusInProgress⟩],
    [⟨"P1", 2000000, "обувь", "R1"⟩]⟩

/-! ## The `ORDER BY ... DESC LIMIT 1` query -/

theorem exists_max_key {α : Type} (key : α → Nat) :
    ∀ rows : List α, rows ≠ [] → ∃ r ∈ rows, ∀ r' ∈ rows, key r' ≤ key r
  | [], h => absurd rfl h
  | [a], _ => ⟨a, by simp, by simp⟩
  | a :: b :: rest, _ => by
    obtain ⟨m, hm, hmax⟩ := exists_max_key key (b :: rest) (by simp)
    by_cases hle : key a ≤ key m
    · refine ⟨m, List.mem_cons_of_mem _ hm, ?_⟩
      intro r' hr'
      rcases List.mem_cons.mp hr' with h | h
      · subst h; exact hle
      · exact hmax r' h
    · refine ⟨a, List.mem_cons_self _ _, ?_⟩
      intro r' hr'
      rcases List.mem_cons.mp hr' with h | h
      · subst h; exact le_refl _
      · exact le_trans (hmax r' h) (by omega)

theorem orderByDescLimit1_some {α : Type} (key : α → Nat) (tie : Nat) (rows : List α) (r : α)
    (h : orderByDescLimit1 key tie rows = some r) :
    r ∈ rows ∧ ∀ r' ∈ rows, key r' ≤ key r := by
  unfold orderByDescLimit1 at h
  have hmem := List.getElem?_mem h
  rw [List.mem_filter] at hmem
  refine ⟨hmem.1, ?_⟩
  have hall := hmem.2
  rw [List.all_eq_true] at hall
  intro r' hr'
  simpa using hall r' hr'

theorem orderByDescLimit1_eq_none {α : Type} (key : α → Nat) (tie : Nat) (rows : List α) :
    orderByDescLimit1 key tie rows = none ↔ rows = [] := by
  constructor
  · intro h
    by_contra hne
    obtain ⟨m, hm, hmax⟩ := exists_max_key key rows hne
    unfold orderByDescLimit1 at h
    have hmem : m ∈ rows.filter (fun r => rows.all (fun r' => decide (key r' ≤ key r))) := by
      rw [List.mem_filter]
      refine ⟨hm, ?_⟩
      rw [List.all_eq_true]
      intro r' hr'
      simpa using hmax r' hr'
    have hpos : 0 < (rows.filter (fun r => rows.all (fun r' => decide (key r' ≤ key r)))).length :=
      List.length_pos_of_mem hmem
    rw [List.getElem?_eq_none_iff] at h
    have := Nat.mod_lt tie hpos
    omega
  · intro h
    subst h
    simp [orderByDescLimit1]

theorem orderByDescLimit1_isSome {α : Type} (key : α → Nat) (tie : Nat) (rows : List α)
    (h : rows ≠ []) : ∃ r, orderByDescLimit1 key tie rows = some r := by
  cases hq : orderByDescLimit1 key tie rows with
  | none => exact absurd ((orderByDescLimit1_eq_none key tie rows).mp hq) h
  | some r => exact ⟨r, rfl⟩

theorem mem_receptionsWhere (s : Store) (pvzID : String) (status : ReceptionStatus)
    (r : Reception) :
    r ∈ receptionsWhere s pvzID status ↔
      r ∈ s.receptions ∧ r.PvzID = pvzID ∧ r.Status = status := by
  simp [receptionsWhere, List.mem_filter]

theorem mem_productsWhere (s : Store) (receptionID : String) (p : Product) :
    p ∈ productsWhere s receptionID ↔ p ∈ s.products ∧ p.ReceptionID = receptionID := by
  simp [productsWhere, List.mem_filter]

theorem receptionsWhere_eq_nil (s : Store) (pvzID : String) (status : ReceptionStatus) :
    receptionsWhere s pvzID status = [] ↔
      ∀ r ∈ s.receptions, r.PvzID = pvzID → r.Status ≠ status := by
  simp [receptionsWhere, List.filter_eq_nil_iff]

theorem receptionsWhere_ne_nil (s : Store) (pvzID : String) (status : ReceptionStatus)
    (h : ∃ r ∈ s.receptions, r.PvzID = pvzID ∧ r.Status = status) :
    receptionsWhere s pvzID status ≠ [] := by
  obtain ⟨r, hr, h1, h2⟩ := h
  intro hnil
  exact (receptionsWhere_eq_nil s pvzID status).mp hnil r hr h1 h2

/-! ## `CreateReception` -/

/-- C2: when `pvzID` is the id of a pickup point in the store that already has a
reception with status `in_progress`, and the two existence checks are answered,
`CreateReception` fails with `ErrReceptionInProgress` and the store (the pvz,
receptions and products tables) is unchanged. -/
theorem createReception_inProgress_conflict (e : Env) (s : Store) (pvzID : String)
    (hq : e.queryErr = false) (hq2 : e.queryErr2 = false)
    (hpvz : ∃ p ∈ s.pvz, p.ID = pvzID)
    (hrec : ∃ r ∈ s.receptions, r.PvzID = pvzID ∧ r.Status = StatusInProgress) :
    (CreateReception e s pvzID).res = .fail .ErrReceptionInProgress ∧
      (CreateReception e s pvzID).store = s := by
  have hany : s.pvz.any (fun p => decide (p.ID = pvzID)) = true := by
    simpa [List.any_eq_true] using hpvz
  have hne : (receptionsWhere s pvzID StatusInProgress).isEmpty = false := by
    have := receptionsWhere_ne_nil s pvzID StatusInProgress hrec
    cases hl : receptionsWhere s pvzID StatusInProgress with
    | nil => exact absurd hl this
    | cons a l => rfl
  simp [CreateReception, hq, hq2, hany, hne]

theorem createReception_inProgress_conflict_witness :
    (CreateReception (Env.ok "R2" 5000000 0 0) sampleOpen "Z").res
        = .fail .ErrReceptionInProgress ∧
      (CreateReception (Env.ok "R2" 5000000 0 0) sampleOpen "Z").store = sampleOpen :=
  createReception_inProgress_conflict (Env.ok "R2" 5000000 0 0) sampleOpen "Z" rfl rfl
    ⟨⟨"Z", 0, "Казань"⟩, by simp [sampleOpen], rfl⟩
    ⟨⟨"R1", 1000000, "Z", StatusInProgress⟩, by simp [sampleOpen], rfl, rfl⟩

/-- C3: when `pvzID` is not the id of any pickup point in the store, and the pvz
existence check is answered, `CreateReception` fails with `ErrPvzNotFound`; the
only database call it makes is that check (neither the in-progress check nor the
insert is issued), and the store is unchanged. -/
theorem createReception_pvz_not_found (e : Env) (s : Store) (pvzID : String)
    (hq : e.queryErr = false)
    (hno : ∀ p ∈ s.pvz, p.ID ≠ pvzID) :
    (CreateReception e s pvzID).res = .fail .ErrPvzNotFound ∧
      (CreateReception e s pvzID).log = [.DBQueryRow .checkPvzQuery] ∧
      DBCall.DBQueryRow .checkRecQuery ∉ (CreateReception e s pvzID).log ∧
      DBCall.DBExec .insertQuery ∉ (CreateReception e s pvzID).log ∧
      (CreateReception e s pvzID).store = s := by
  have hany : s.pvz.any (fun p => decide (p.ID = pvzID)) = false := by
    simpa [List.any_eq_false] using hno
  simp [CreateReception, hq, hany]

theorem createReception_pvz_not_found_witness :
    (CreateReception (Env.ok "R2" 5000000 0 0) sampleOpen "Y").res = .fail .ErrPvzNotFound ∧
      (CreateReception (Env.ok "R2" 5000000 0 0) sampleOpen "Y").log
        = [.DBQueryRow .checkPvzQuery] ∧
      DBCall.DBQueryRow .checkRecQuery ∉
        (CreateReception (Env.ok "R2" 5000000 0 0) sampleOpen "Y").log ∧
      DBCall.DBExec .insertQuery ∉
        (CreateReception (Env.ok "R2" 5000000 0 0) sampleOpen "Y").log ∧
      (CreateReception (Env.ok "R2" 5000000 0 0) sampleOpen "Y").store = sampleOpen :=
  createReception_pvz_not_found (Env.ok "R2" 5000000 0 0) sampleOpen "Y" rfl
    (by simp [sampleOpen])

/-- C4: when `pvzID` is the id of a pickup point in the store that has no
reception with status `in_progress`, and the two checks and the insert succeed,
`CreateReception` returns a reception with status `in_progress`, pvz id `pvzID`,
the generated id and the clock reading rounded to the millisecond; afterwards
the receptions table is the old table followed by exactly that record, and the
pvz and products tables are unchanged. -/
theorem createReception_success (e : Env) (s : Store) (pvzID : String)
    (hq : e.queryErr = false) (hq2 : e.queryErr2 = false) (hx : e.execErr = false)
    (hpvz : ∃ p ∈ s.pvz, p.ID = pvzID)
    (hnone : ∀ r ∈ s.receptions, r.PvzID = pvzID → r.Status ≠ StatusInProgress) :
    ∃ r : Reception,
      (CreateReception e s pvzID).res = .ok r ∧
      r.Status = StatusInProgress ∧ r.PvzID = pvzID ∧
      r.ID = e.uuid ∧ r.DateTime = Round e.now Millisecond ∧
      (CreateReception e s pvzID).store.receptions = s.receptions ++ [r] ∧
      (CreateReception e s pvzID).store.pvz = s.pvz ∧
      (CreateReception e s pvzID).store.products = s.products := by
  have hany : s.pvz.any (fun p => decide (p.ID = pvzID)) = true := by
    simpa [List.any_eq_true] using hpvz
  have hnil : receptionsWhere s pvzID StatusInProgress = [] :=
    (receptionsWhere_eq_nil s pvzID StatusInProgress).mpr hnone
  refine ⟨⟨e.uuid, Round e.now Millisecond, pvzID, StatusInProgress⟩, ?_⟩
  simp [CreateReception, hq, hq2, hx, hany, hnil]

theorem createReception_success_witness :
    ∃ r : Reception,
      (CreateReception (Env.ok "R2" 5000400 0 0) sampleClosed "Z").res = .ok r ∧
      r.Status = StatusInProgress ∧ r.PvzID = "Z" ∧
      r.ID = (Env.ok "R2" 5000400 0 0).uuid ∧
      r.DateTime = Round (Env.ok "R2" 5000400 0 0).now Millisecond ∧
      (CreateReception (Env.ok "R2" 5000400 0 0) sampleClosed "Z").store.receptions
        = sampleClosed.receptions ++ [r] ∧
      (CreateReception (Env.ok "R2" 5000400 0 0) sampleClosed "Z").store.pvz
        = sampleClosed.pvz ∧
      (CreateReception (Env.ok "R2" 5000400 0 0) sampleClosed "Z").store.products
        = sampleClosed.products :=
  createReception_success (Env.ok "R2" 5000400 0 0) sampleClosed "Z" rfl rfl rfl
    ⟨⟨"Z", 0, "Казань"⟩, by simp [sampleClosed], rfl⟩
    (by simp [sampleClosed, StatusClose, StatusInProgress])

/-! ## `CreateProduct` -/

/-- C5: when no reception of `pvzID` has status `in_progress` (none was opened, or
all are closed), and the transaction begins and the lookup is answered,
`CreateProduct` fails with `ErrNoActiveReception` for every product type, and the
store (in particular the products and receptions tables) is unchanged. -/
theorem createProduct_no_active_reception (e : Env) (s : Store) (pvzID : String)
    (hb : e.beginErr = false) (hq : e.queryErr = false)
    (hnone : ∀ r ∈ s.receptions, r.PvzID = pvzID → r.Status ≠ StatusInProgress) :
    ∀ productType : ProductType,
      (CreateProduct e s pvzID productType).res = .fail .ErrNoActiveReception ∧
      (CreateProduct e s pvzID productType).store.products = s.products ∧
      (CreateProduct e s pvzID productType).store.receptions = s.receptions ∧
      (CreateProduct e s pvzID productType).store = s := by
  intro productType
  have hnil : receptionsWhere s pvzID StatusInProgress = [] :=
    (receptionsWhere_eq_nil s pvzID StatusInProgress).mpr hnone
  have hsel : orderByDescLimit1 Reception.DateTime e.tie
      (receptionsWhere s pvzID StatusInProgress) = none := by
    rw [hnil]; exact (orderByDescLimit1_eq_none _ _ _).mpr rfl
  simp [CreateProduct, hb, hq, hsel]

theorem createProduct_no_active_reception_witness :
    (CreateProduct (Env.ok "P9" 7000000 0 0) sampleClosed "Z" "обувь").res
        = .fail .ErrNoActiveReception ∧
      (CreateProduct (Env.ok "P9" 7000000 0 0) sampleClosed "Z" "обувь").store.products
        = sampleClosed.products ∧
      (CreateProduct (Env.ok "P9" 7000000 0 0) sampleClosed "Z" "обувь").store.receptions
        = sampleClosed.receptions ∧
      (CreateProduct (Env.ok "P9" 7000000 0 0) sampleClosed "Z" "обувь").store
        = sampleClosed :=
  createProduct_no_active_reception (Env.ok "P9" 7000000 0 0) sampleClosed "Z" rfl rfl
    (by simp [sampleClosed, StatusClose, StatusInProgress]) "обувь"

/-- C6: when `pvzID` has a reception with status `in_progress` and begin, lookup,
insert and commit all succeed, `CreateProduct` returns a product whose
`ReceptionID` is the id of an `in_progress` reception of `pvzID` whose creation
time no other `in_progress` reception of `pvzID` exceeds, and whose type is
`productType`; afterwards the products table is the old table followed by exactly
that record, and the receptions and pvz tables are unchanged. -/
theorem createProduct_success (e : Env) (s : Store) (pvzID : String)
    (productType : ProductType)
    (hb : e.beginErr = false) (hq : e.queryErr = false) (hx : e.execErr = false)
    (hc : e.commitErr = false)
    (hrec : ∃ r ∈ s.receptions, r.PvzID = pvzID ∧ r.Status = StatusInProgress) :
    ∃ (p : Product) (r : Reception),
      (CreateProduct e s pvzID productType).res = .ok p ∧
      r ∈ s.receptions ∧ r.PvzID = pvzID ∧ r.Status = StatusInProgress ∧
      (∀ r' ∈ s.receptions, r'.PvzID = pvzID → r'.Status = StatusInProgress →
        r'.DateTime ≤ r.DateTime) ∧
      p.ReceptionID = r.ID ∧ p.Type_ = productType ∧
      p.ID = e.uuid ∧ p.DateTime = Round e.now Millisecond ∧
      (CreateProduct e s pvzID productType).store.products = s.products ++ [p] ∧
      (CreateProduct e s pvzID productType).store.receptions = s.receptions ∧
      (CreateProduct e s pvzID productType).store.pvz = s.pvz := by
  obtain ⟨row, hsel⟩ := orderByDescLimit1_isSome Reception.DateTime e.tie _
    (receptionsWhere_ne_nil s pvzID StatusInProgress hrec)
  obtain ⟨hmem, hmax⟩ := orderByDescLimit1_some _ _ _ _ hsel
  rw [mem_receptionsWhere] at hmem
  refine ⟨⟨e.uuid, Round e.now Millisecond, productType, row.ID⟩, row, ?_, hmem.1, hmem.2.1,
    hmem.2.2, ?_, rfl, rfl, rfl, rfl, ?_, ?_, ?_⟩
  · simp [CreateProduct, hb, hq, hx, hc, hsel]
  · intro r' hr' h1 h2
    exact hmax r' ((mem_receptionsWhere s pvzID StatusInProgress r').mpr ⟨hr', h1, h2⟩)
  · simp [CreateProduct, hb, hq, hx, hc, hsel]
  · simp [CreateProduct, hb, hq, hx, hc, hsel]
  · simp [CreateProduct, hb, hq, hx, hc, hsel]

theorem createProduct_success_witness :
    ∃ (p : Product) (r : Reception),
      (CreateProduct (Env.ok "P1" 2000300 0 0) sampleOpen "Z" "обувь").res = .ok p ∧
      r ∈ sampleOpen.receptions ∧ r.PvzID = "Z" ∧ r.Status = StatusInProgress ∧
      (∀ r' ∈ sampleOpen.receptions, r'.PvzID = "Z" → r'.Status = StatusInProgress →
        r'.DateTime ≤ r.DateTime) ∧
      p.ReceptionID = r.ID ∧ p.Type_ = "обувь" ∧
      p.ID = (Env.ok "P1" 2000300 0 0).uuid ∧
      p.DateTime = Round (Env.ok "P1" 2000300 0 0).now Millisecond ∧
      (CreateProduct (Env.ok "P1" 2000300 0 0) sampleOpen "Z" "обувь").store.products
        = sampleOpen.products ++ [p] ∧
      (CreateProduct (Env.ok "P1" 2000300 0 0) sampleOpen "Z" "обувь").store.receptions
        = sampleOpen.receptions ∧
      (CreateProduct (Env.ok "P1" 2000300 0 0) sampleOpen "Z" "обувь").store.pvz
        = sampleOpen.pvz :=
  createProduct_success (Env.ok "P1" 2000300 0 0) sampleOpen "Z" "обувь" rfl rfl rfl rfl
    ⟨⟨"R1", 1000000, "Z", StatusInProgress⟩, by simp [sampleOpen], rfl, rfl⟩

/-! ## Rows with a unique id -/

theorem split_of_nodup_key {α : Type} (f : α → String) (l : List α)
    (hnd : (l.map f).Nodup) (a : α) (ha : a ∈ l) :
    ∃ pre post, l = pre ++ a :: post ∧
      (∀ x ∈ pre, f x ≠ f a) ∧ (∀ x ∈ post, f x ≠ f a) := by
  obtain ⟨pre, post, hl⟩ := List.append_of_mem ha
  refine ⟨pre, post, hl, ?_, ?_⟩
  · intro x hx hfx
    rw [hl, List.map_append, List.map_cons] at hnd
    have hdis := (List.nodup_append.mp hnd).2.2
    exact hdis (List.mem_map_of_mem f hx) (by rw [hfx]; exact List.mem_cons_self _ _)
  · intro x hx hfx
    rw [hl, List.map_append, List.map_cons] at hnd
    have hcons := (List.nodup_append.mp hnd).2.1
    have hnot := (List.nodup_cons.mp hcons).1
    exact hnot (by rw [← hfx]; exact List.mem_map_of_mem f hx)

theorem filter_ne_key_split {α : Type} (f : α → String) (pre post : List α) (a : α)
    (hpre : ∀ x ∈ pre, f x ≠ f a) (hpost : ∀ x ∈ post, f x ≠ f a) :
    (pre ++ a :: post).filter (fun x => !decide (f x = f a)) = pre ++ post := by
  rw [List.filter_append, List.filter_cons]
  have h1 : pre.filter (fun x => !decide (f x = f a)) = pre := by
    rw [List.filter_eq_self]
    intro x hx
    simpa using hpre x hx
  have h2 : post.filter (fun x => !decide (f x = f a)) = post := by
    rw [List.filter_eq_self]
    intro x hx
    simpa using hpost x hx
  simp [h1, h2]

theorem map_update_key_split {α : Type} (f : α → String) (g : α → α) (pre post : List α)
    (a : α) (hpre : ∀ x ∈ pre, f x ≠ f a) (hpost : ∀ x ∈ post, f x ≠ f a) :
    (pre ++ a :: post).map (fun x => if f x = f a then g x else x) = pre ++ g a :: post := by
  rw [List.map_append, List.map_cons]
  have h1 : pre.map (fun x => if f x = f a then g x else x) = pre := by
    conv_rhs => rw [← List.map_id pre]
    apply List.map_congr_left
    intro x hx
    simp [hpre x hx]
  have h2 : post.map (fun x => if f x = f a then g x else x) = post := by
    conv_rhs => rw [← List.map_id post]
    apply List.map_congr_left
    intro x hx
    simp [hpost x hx]
  simp [h1, h2]

/-! ## `DeleteLastProduct` -/

/-- C7 (as stated, refuted): in the store `sampleRacedOne` pickup point `Z` has
the `in_progress` reception `RA` that contains no product, next to the later
`in_progress` reception `RB` holding `P1`. `DeleteLastProduct "Z"` does not fail
with `ErrNoProductsInReception`: it succeeds and deletes `P1`. -/
theorem deleteLastProduct_succeeds_beside_empty_reception :
    sampleRacedOne = ⟨[⟨"Z", 0, "Казань"⟩],
      [⟨"R1", 1000000, "Z", StatusClose⟩, ⟨"RA", 5000000, "Z", StatusInProgress⟩,
        ⟨"RB", 6000000, "Z", StatusInProgress⟩],
      [⟨"P1", 7000000, "обувь", "RB"⟩]⟩ ∧
    (∃ r ∈ sampleRacedOne.receptions, r.PvzID = "Z" ∧ r.Status = StatusInProgress ∧
      ∀ p ∈ sampleRacedOne.products, p.ReceptionID ≠ r.ID) ∧
    (DeleteLastProduct (Env.ok "" 9000000 0 0) sampleRacedOne "Z").res = .ok () ∧
    (DeleteLastProduct (Env.ok "" 9000000 0 0) sampleRacedOne "Z").store.products = [] := by
  decide

/-- C7 (amended): when the transaction begins and the reception lookup is
answered, `DeleteLastProduct` fails with `ErrNoActiveReception` if `pvzID` has no
reception with status `in_progress`. When the product lookup is answered too, it
fails with `ErrNoProductsInReception` if the `in_progress` reception of `pvzID`
that the lookup selects (one of latest `create_date`) contains no product; in
particular if `pvzID` has an `in_progress` reception and no product references
an `in_progress` reception of `pvzID`. In all these cases the store is
unchanged. -/
theorem deleteLastProduct_precondition_errors (e : Env) (s : Store) (pvzID : String)
    (hb : e.beginErr = false) (hq : e.queryErr = false) :
    ((∀ r ∈ s.receptions, r.PvzID = pvzID → r.Status ≠ StatusInProgress) →
      (DeleteLastProduct e s pvzID).res = .fail .ErrNoActiveReception ∧
      (DeleteLastProduct e s pvzID).store = s) ∧
    (e.queryErr2 = false →
      ∀ row, orderByDescLimit1 Reception.DateTime e.tie
          (receptionsWhere s pvzID StatusInProgress) = some row →
        (∀ p ∈ s.products, p.ReceptionID ≠ row.ID) →
        (DeleteLastProduct e s pvzID).res = .fail .ErrNoProductsInReception ∧
        (DeleteLastProduct e s pvzID).store = s) ∧
    (e.queryErr2 = false →
      (∃ r ∈ s.receptions, r.PvzID = pvzID ∧ r.Status = StatusInProgress) →
      (∀ r ∈ s.receptions, r.PvzID = pvzID → r.Status = StatusInProgress →
        ∀ p ∈ s.products, p.ReceptionID ≠ r.ID) →
      (DeleteLastProduct e s pvzID).res = .fail .ErrNoProductsInReception ∧
      (DeleteLastProduct e s pvzID).store = s) := by
  have hsel_case : e.queryErr2 = false →
      ∀ row, orderByDescLimit1 Reception.DateTime e.tie
          (receptionsWhere s pvzID StatusInProgress) = some row →
        (∀ p ∈ s.products, p.ReceptionID ≠ row.ID) →
        (DeleteLastProduct e s pvzID).res = .fail .ErrNoProductsInReception ∧
        (DeleteLastProduct e s pvzID).store = s := by
    intro hq2 row hsel hempty
    have hpnil : productsWhere s row.ID = [] := by
      rw [productsWhere, List.filter_eq_nil_iff]
      intro p hp
      simpa using hempty p hp
    have hpsel : orderByDescLimit1 Product.DateTime e.tie2 (productsWhere s row.ID) = none := by
      rw [hpnil]; exact (orderByDescLimit1_eq_none _ _ _).mpr rfl
    simp [DeleteLastProduct, hb, hq, hq2, hsel, hpsel]
  refine ⟨?_, hsel_case, ?_⟩
  · intro hnone
    have hnil : receptionsWhere s pvzID StatusInProgress = [] :=
      (receptionsWhere_eq_nil s pvzID StatusInProgress).mpr hnone
    have hsel : orderByDescLimit1 Reception.DateTime e.tie
        (receptionsWhere s pvzID StatusInProgress) = none := by
      rw [hnil]; exact (orderByDescLimit1_eq_none _ _ _).mpr rfl
    simp [DeleteLastProduct, hb, hq, hsel]
  · intro hq2 hrec hempty
    obtain ⟨row, hsel⟩ := orderByDescLimit1_isSome Reception.DateTime e.tie _
      (receptionsWhere_ne_nil s pvzID StatusInProgress hrec)
    obtain ⟨hmem, _⟩ := orderByDescLimit1_some _ _ _ _ hsel
    rw [mem_receptionsWhere] at hmem
    exact hsel_case hq2 row hsel (hempty row hmem.1 hmem.2.1 hmem.2.2)

theorem deleteLastProduct_precondition_errors_witness :
    ((DeleteLastProduct (Env.ok "" 9000000 0 0) sampleClosed "Z").res
        = .fail .ErrNoActiveReception ∧
      (DeleteLastProduct (Env.ok "" 9000000 0 0) sampleClosed "Z").store = sampleClosed) ∧
    ((DeleteLastProduct (Env.ok "" 9000000 0 0) sampleRaced "Z").res
        = .fail .ErrNoProductsInReception ∧
      (DeleteLastProduct (Env.ok "" 9000000 0 0) sampleRaced "Z").store = sampleRaced) ∧
    ((DeleteLastProduct (Env.ok "" 9000000 0 0) sampleOpen "Z").res
        = .fail .ErrNoProductsInReception ∧
      (DeleteLastProduct (Env.ok "" 9000000 0 0) sampleOpen "Z").store = sampleOpen) :=
  ⟨(deleteLastProduct_precondition_errors (Env.ok "" 9000000 0 0) sampleClosed "Z" rfl rfl).1
      (by simp [sampleClosed, StatusClose, StatusInProgress]),
    (deleteLastProduct_precondition_errors (Env.ok "" 9000000 0 0) sampleRaced "Z" rfl rfl).2.1
      rfl ⟨"RB", 6000000, "Z", StatusInProgress⟩ (by decide) (by decide),
    (deleteLastProduct_precondition_errors (Env.ok "" 9000000 0 0) sampleOpen "Z" rfl rfl).2.2
      rfl ⟨⟨"R1", 1000000, "Z", StatusInProgress⟩, by simp [sampleOpen], rfl, rfl⟩
      (by simp [sampleOpen])⟩

theorem deleteLastProduct_ok_inv (e : Env) (s : Store) (pvzID : String)
    (hok : (DeleteLastProduct e s pvzID).res = .ok ()) :
    ∃ (row : Reception) (prow : Product),
      orderByDescLimit1 Reception.DateTime e.tie (receptionsWhere s pvzID StatusInProgress)
        = some row ∧
      orderByDescLimit1 Product.DateTime e.tie2 (productsWhere s row.ID) = some prow ∧
      (DeleteLastProduct e s pvzID).store
        = ⟨s.pvz, s.receptions, s.products.filter (fun p => !decide (p.ID = prow.ID))⟩ := by
  unfold DeleteLastProduct at hok ⊢
  cases hb : e.beginErr <;> simp only [hb] at hok ⊢
  · cases hq : e.queryErr <;> simp only [hq] at hok ⊢
    · cases hsel : orderByDescLimit1 Reception.DateTime e.tie
          (receptionsWhere s pvzID StatusInProgress) with
      | none => simp [hsel] at hok
      | some row =>
        simp only [hsel] at hok ⊢
        cases hq2 : e.queryErr2 <;> simp only [hq2] at hok ⊢
        · cases hpsel : orderByDescLimit1 Product.DateTime e.tie2 (productsWhere s row.ID) with
          | none => simp [hpsel] at hok
          | some prow =>
            simp only [hpsel] at hok ⊢
            cases hx : e.execErr <;> simp only [hx] at hok ⊢
            · cases hc : e.commitErr <;> simp only [hc] at hok ⊢
              · exact ⟨row, prow, rfl, hpsel, rfl⟩
              · simp at hok
            · simp at hok
        · simp at hok
    · simp at hok
  · simp at hok

/-- C8: in a store whose product ids are pairwise distinct, a successful
`DeleteLastProduct pvzID` removes exactly one row of the products table: a
product of the selected `in_progress` reception of `pvzID` (the latest one) whose
creation time no other product of that reception exceeds. The products before
and after it in the table stay, in order; the receptions and pvz tables are
unchanged. -/
theorem deleteLastProduct_removes_latest (e : Env) (s : Store) (pvzID : String)
    (hnd : (s.products.map Product.ID).Nodup)
    (hok : (DeleteLastProduct e s pvzID).res = .ok ()) :
    ∃ (r : Reception) (pre : List Product) (p0 : Product) (post : List Product),
      r ∈ s.receptions ∧ r.PvzID = pvzID ∧ r.Status = StatusInProgress ∧
      (∀ r' ∈ s.receptions, r'.PvzID = pvzID → r'.Status = StatusInProgress →
        r'.DateTime ≤ r.DateTime) ∧
      s.products = pre ++ p0 :: post ∧
      p0.ReceptionID = r.ID ∧
      (∀ q ∈ s.products, q.ReceptionID = r.ID → q.DateTime ≤ p0.DateTime) ∧
      (DeleteLastProduct e s pvzID).store.products = pre ++ post ∧
      (DeleteLastProduct e s pvzID).store.receptions = s.receptions ∧
      (DeleteLastProduct e s pvzID).store.pvz = s.pvz := by
  obtain ⟨row, prow, hsel, hpsel, hstore⟩ := deleteLastProduct_ok_inv e s pvzID hok
  obtain ⟨hmem, hmax⟩ := orderByDescLimit1_some _ _ _ _ hsel
  obtain ⟨hpmem, hpmax⟩ := orderByDescLimit1_some _ _ _ _ hpsel
  rw [mem_receptionsWhere] at hmem
  rw [mem_productsWhere] at hpmem
  obtain ⟨pre, post, hsplit, hpre, hpost⟩ :=
    split_of_nodup_key Product.ID s.products hnd prow hpmem.1
  refine ⟨row, pre, prow, post, hmem.1, hmem.2.1, hmem.2.2, ?_, hsplit, hpmem.2, ?_, ?_, ?_, ?_⟩
  · intro r' hr' h1 h2
    exact hmax r' ((mem_receptionsWhere s pvzID StatusInProgress r').mpr ⟨hr', h1, h2⟩)
  · intro q hq hqr
    exact hpmax q ((mem_productsWhere s row.ID q).mpr ⟨hq, hqr⟩)
  · rw [hstore]
    show s.products.filter (fun p => !decide (p.ID = prow.ID)) = pre ++ post
    rw [hsplit]
    exact filter_ne_key_split Product.ID pre post prow hpre hpost
  · rw [hstore]
  · rw [hstore]

theorem deleteLastProduct_removes_latest_witness :
    ∃ (r : Reception) (pre : List Product) (p0 : Product) (post : List Product),
      r ∈ sampleTwo.receptions ∧ r.PvzID = "Z" ∧ r.Status = StatusInProgress ∧
      (∀ r' ∈ sampleTwo.receptions, r'.PvzID = "Z" → r'.Status = StatusInProgress →
        r'.DateTime ≤ r.DateTime) ∧
      sampleTwo.products = pre ++ p0 :: post ∧
      p0.ReceptionID = r.ID ∧
      (∀ q ∈ sampleTwo.products, q.ReceptionID = r.ID → q.DateTime ≤ p0.DateTime) ∧
      (DeleteLastProduct (Env.ok "" 9000000 0 0) sampleTwo "Z").store.products = pre ++ post ∧
      (DeleteLastProduct (Env.ok "" 9000000 0 0) sampleTwo "Z").store.receptions
        = sampleTwo.receptions ∧
      (DeleteLastProduct (Env.ok "" 9000000 0 0) sampleTwo "Z").store.pvz = sampleTwo.pvz :=
  deleteLastProduct_removes_latest (Env.ok "" 9000000 0 0) sampleTwo "Z" (by decide) (by decide)

/-! ## `CloseLastReception` -/

theorem closeLastReception_ok_inv (e : Env) (s : Store) (pvzID : String) (ret : Reception)
    (hok : (CloseLastReception e s pvzID).res = .ok ret) :
    ∃ row : Reception,
      orderByDescLimit1 Reception.DateTime e.tie (receptionsWhere s pvzID StatusInProgress)
        = some row ∧
      ret = ⟨row.ID, row.DateTime, pvzID, StatusClose⟩ ∧
      (CloseLastReception e s pvzID).store
        = ⟨s.pvz,
            s.receptions.map (fun r =>
              if r.ID = row.ID then ⟨r.ID, r.DateTime, r.PvzID, StatusClose⟩ else r),
            s.products⟩ := by
  unfold CloseLastReception at hok ⊢
  cases hb : e.beginErr <;> simp only [hb] at hok ⊢
  · cases hq : e.queryErr <;> simp only [hq] at hok ⊢
    · cases hsel : orderByDescLimit1 Reception.DateTime e.tie
          (receptionsWhere s pvzID StatusInProgress) with
      | none => simp [hsel] at hok
      | some row =>
        simp only [hsel] at hok ⊢
        cases hx : e.execErr <;> simp only [hx] at hok ⊢
        · cases hc : e.commitErr <;> simp only [hc] at hok ⊢
          · refine ⟨row, rfl, ?_, rfl⟩
            simp at hok
            exact hok.symm
          · simp at hok
        · simp at hok
    · simp at hok
  · simp at hok

/-- C10: in a store whose reception ids are pairwise distinct, a successful
`CloseLastReception pvzID` returns a reception whose `ID` and `DateTime` are those
of a stored `in_progress` reception of `pvzID` (the latest one), whose `PvzID` is
`pvzID` and whose `Status` is `close`; afterwards the receptions table is the old
one with exactly that row replaced by the returned record (so it differs from
the stored row in its status only), and the products and pvz tables are
unchanged. -/
theorem closeLastReception_success (e : Env) (s : Store) (pvzID : String) (ret : Reception)
    (hnd : (s.receptions.map Reception.ID).Nodup)
    (hok : (CloseLastReception e s pvzID).res = .ok ret) :
    ∃ (pre : List Reception) (r0 : Reception) (post : List Reception),
      s.receptions = pre ++ r0 :: post ∧
      r0.PvzID = pvzID ∧ r0.Status = StatusInProgress ∧
      (∀ r' ∈ s.receptions, r'.PvzID = pvzID → r'.Status = StatusInProgress →
        r'.DateTime ≤ r0.DateTime) ∧
      ret.ID = r0.ID ∧ ret.DateTime = r0.DateTime ∧ ret.PvzID = pvzID ∧
      ret.Status = StatusClose ∧
      (CloseLastReception e s pvzID).store.receptions = pre ++ ret :: post ∧
      (CloseLastReception e s pvzID).store.products = s.products ∧
      (CloseLastReception e s pvzID).store.pvz = s.pvz := by
  obtain ⟨row, hsel, hret, hstore⟩ := closeLastReception_ok_inv e s pvzID ret hok
  obtain ⟨hmem, hmax⟩ := orderByDescLimit1_some _ _ _ _ hsel
  rw [mem_receptionsWhere] at hmem
  obtain ⟨pre, post, hsplit, hpre, hpost⟩ :=
    split_of_nodup_key Reception.ID s.receptions hnd row hmem.1
  refine ⟨pre, row, post, hsplit, hmem.2.1, hmem.2.2, ?_, ?_, ?_, ?_, ?_, ?_, ?_, ?_⟩
  · intro r' hr' h1 h2
    exact hmax r' ((mem_receptionsWhere s pvzID StatusInProgress r').mpr ⟨hr', h1, h2⟩)
  · rw [hret]
  · rw [hret]
  · rw [hret]
  · rw [hret]
  · rw [hstore]
    show s.receptions.map (fun r =>
        if r.ID = row.ID then (⟨r.ID, r.DateTime, r.PvzID, StatusClose⟩ : Reception) else r)
      = pre ++ ret :: post
    rw [hsplit, map_update_key_split Reception.ID
      (fun r => ⟨r.ID, r.DateTime, r.PvzID, StatusClose⟩) pre post row hpre hpost, hret,
      hmem.2.1]
  · rw [hstore]
  · rw [hstore]

theorem closeLastReception_success_witness :
    ∃ (pre : List Reception) (r0 : Reception) (post : List Reception),
      sampleTwo.receptions = pre ++ r0 :: post ∧
      r0.PvzID = "Z" ∧ r0.Status = StatusInProgress ∧
      (∀ r' ∈ sampleTwo.receptions, r'.PvzID = "Z" → r'.Status = StatusInProgress →
        r'.DateTime ≤ r0.DateTime) ∧
      (⟨"R1", 1000000, "Z", StatusClose⟩ : Reception).ID = r0.ID ∧
      (⟨"R1", 1000000, "Z", StatusClose⟩ : Reception).DateTime = r0.DateTime ∧
      (⟨"R1", 1000000, "Z", StatusClose⟩ : Reception).PvzID = "Z" ∧
      (⟨"R1", 1000000, "Z", StatusClose⟩ : Reception).Status = StatusClose ∧
      (CloseLastReception (Env.ok "" 9000000 0 0) sampleTwo "Z").store.receptions
        = pre ++ (⟨"R1", 1000000, "Z", StatusClose⟩ : Reception) :: post ∧
      (CloseLastReception (Env.ok "" 9000000 0 0) sampleTwo "Z").store.products
        = sampleTwo.products ∧
      (CloseLastReception (Env.ok "" 9000000 0 0) sampleTwo "Z").store.pvz = sampleTwo.pvz :=
  closeLastReception_success (Env.ok "" 9000000 0 0) sampleTwo "Z"
    ⟨"R1", 1000000, "Z", StatusClose⟩ (by decide) (by decide)

/-! ## At most one reception in progress -/

theorem createPVZ_receptions (e : Env) (s : Store) (city : City) :
    (CreatePVZ e s city).store.receptions = s.receptions := by
  unfold CreatePVZ
  cases e.execErr <;> rfl

theorem createProduct_receptions (e : Env) (s : Store) (pvzID : String)
    (productType : ProductType) :
    (CreateProduct e s pvzID productType).store.receptions = s.receptions := by
  unfold CreateProduct
  cases e.beginErr <;> cases e.queryErr <;> cases e.execErr <;> cases e.commitErr <;>
    cases orderByDescLimit1 Reception.DateTime e.tie
      (receptionsWhere s pvzID StatusInProgress) <;> rfl

theorem deleteLastProduct_receptions (e : Env) (s : Store) (pvzID : String) :
    (DeleteLastProduct e s pvzID).store.receptions = s.receptions := by
  unfold DeleteLastProduct
  cases e.beginErr <;> cases e.queryErr <;> simp only [Bool.false_eq_true, if_false, if_true]
  cases orderByDescLimit1 Reception.DateTime e.tie
      (receptionsWhere s pvzID StatusInProgress) with
  | none => rfl
  | some row =>
    cases e.queryErr2 <;> simp only [Bool.false_eq_true, if_false, if_true]
    cases orderByDescLimit1 Product.DateTime e.tie2 (productsWhere s row.ID) with
    | none => rfl
    | some prow => cases e.execErr <;> cases e.commitErr <;> rfl

theorem createReception_receptions (e : Env) (s : Store) (pvzID : String) :
    (CreateReception e s pvzID).store.receptions = s.receptions ∨
      (receptionsWhere s pvzID StatusInProgress = [] ∧
        (CreateReception e s pvzID).store.receptions
          = s.receptions ++ [⟨e.uuid, Round e.now Millisecond, pvzID, StatusInProgress⟩]) := by
  unfold CreateReception
  cases e.queryErr
  · cases hany : s.pvz.any (fun p => decide (p.ID = pvzID))
    · exact Or.inl rfl
    · cases e.queryErr2
      · cases hl : receptionsWhere s pvzID StatusInProgress with
        | nil =>
          cases e.execErr
          · exact Or.inr ⟨rfl, rfl⟩
          · exact Or.inl rfl
        | cons a l => exact Or.inl rfl
      · exact Or.inl rfl
  · exact Or.inl rfl

theorem closeLastReception_receptions (e : Env) (s : Store) (pvzID : String) :
    (CloseLastReception e s pvzID).store.receptions = s.receptions ∨
      ∃ id : String, (CloseLastReception e s pvzID).store.receptions
        = s.receptions.map (fun r =>
            if r.ID = id then ⟨r.ID, r.DateTime, r.PvzID, StatusClose⟩ else r) := by
  unfold CloseLastReception
  cases e.beginErr
  · cases e.queryErr
    · cases orderByDescLimit1 Reception.DateTime e.tie
          (receptionsWhere s pvzID StatusInProgress) with
      | none => exact Or.inl rfl
      | some row =>
        cases e.execErr
        · cases e.commitErr
          · exact Or.inr ⟨row.ID, rfl⟩
          · exact Or.inl rfl
        · exact Or.inl rfl
    · exact Or.inl rfl
  · exact Or.inl rfl

theorem inProgress_filter_close_le (id pvzID : String) (l : List Reception) :
    ((l.map (fun r : Reception =>
        if r.ID = id then (⟨r.ID, r.DateTime, r.PvzID, StatusClose⟩ : Reception) else r)).filter
      (fun r => decide (r.PvzID = pvzID) && decide (r.Status = StatusInProgress))).length
    ≤ (l.filter
      (fun r => decide (r.PvzID = pvzID) && decide (r.Status = StatusInProgress))).length := by
  induction l with
  | nil => simp
  | cons a l ih =>
    rw [List.map_cons, List.filter_cons, List.filter_cons]
    by_cases hid : a.ID = id
    · have hcl : (StatusClose = StatusInProgress) = False := by
        simp [StatusClose, StatusInProgress]
      simp only [hid, if_true, hcl, decide_False, Bool.and_false, Bool.false_eq_true, if_false]
      split
      · exact Nat.le_succ_of_le ih
      · exact ih
    · simp only [hid, if_false]
      split
      · simpa using ih
      · exact ih

theorem step_inProgressCount (s : Store) (c : Env × Call)
    (h : ∀ pvzID, inProgressCount s pvzID ≤ 1) :
    ∀ pvzID, inProgressCount (step s c) pvzID ≤ 1 := by
  intro pvzID
  have hsame : ∀ s' : Store, s'.receptions = s.receptions →
      inProgressCount s' pvzID ≤ 1 := by
    intro s' hs'
    have := h pvzID
    simpa [inProgressCount, receptionsWhere, hs'] using this
  obtain ⟨e, call⟩ := c
  cases call with
  | CreatePVZ city => exact hsame _ (createPVZ_receptions e s city)
  | CreateProduct id productType => exact hsame _ (createProduct_receptions e s id productType)
  | DeleteLastProduct id => exact hsame _ (deleteLastProduct_receptions e s id)
  | CreateReception id =>
    rcases createReception_receptions e s id with hEq | ⟨hnil, hEq⟩
    · exact hsame _ hEq
    · show inProgressCount (CreateReception e s id).store pvzID ≤ 1
      unfold inProgressCount receptionsWhere
      rw [hEq, List.filter_append, List.length_append]
      by_cases hid : id = pvzID
      · subst hid
        have h0 : (s.receptions.filter (fun r =>
            decide (r.PvzID = id) && decide (r.Status = StatusInProgress))).length = 0 := by
          have := congrArg List.length hnil
          simpa [receptionsWhere] using this
        rw [h0]
        simp
      · have := h pvzID
        simp only [inProgressCount, receptionsWhere] at this
        simpa [List.filter_cons, hid] using this
  | CloseLastReception id =>
    rcases closeLastReception_receptions e s id with hEq | ⟨rid, hEq⟩
    · exact hsame _ hEq
    · show inProgressCount (CloseLastReception e s id).store pvzID ≤ 1
      unfold inProgressCount receptionsWhere
      rw [hEq]
      have := h pvzID
      simp only [inProgressCount, receptionsWhere] at this
      exact le_trans (inProgress_filter_close_le rid pvzID s.receptions) this

/-- C1: if every pickup-point id has at most one reception with status
`in_progress` (as in the empty store), then after any finite sequence of
`CreatePVZ`, `CreateReception`, `CreateProduct`, `DeleteLastProduct` and
`CloseLastReception` calls, with arbitrary arguments, generated ids, clock
readings and database failures, each call completing before the next starts,
every pickup-point id still has 0 or 1 receptions with status `in_progress`. -/
theorem at_most_one_inProgress_invariant (s : Store)
    (h : ∀ pvzID, inProgressCount s pvzID ≤ 1) (cs : List (Env × Call)) :
    ∀ pvzID, inProgressCount (run s cs) pvzID = 0 ∨ inProgressCount (run s cs) pvzID = 1 := by
  have key : ∀ (cs : List (Env × Call)) (s : Store),
      (∀ pvzID, inProgressCount s pvzID ≤ 1) →
      ∀ pvzID, inProgressCount (run s cs) pvzID ≤ 1 := by
    intro cs
    induction cs with
    | nil => intro s hs; exact hs
    | cons c cs ih =>
      intro s hs
      exact ih (step s c) (step_inProgressCount s c hs)
  intro pvzID
  have := key cs s h pvzID
  omega

theorem at_most_one_inProgress_invariant_witness :
    inProgressCount (run Store.empty sampleCalls) "Z" = 0 ∨
      inProgressCount (run Store.empty sampleCalls) "Z" = 1 :=
  at_most_one_inProgress_invariant Store.empty (fun _ => Nat.zero_le 1) sampleCalls "Z"

/-! ## Order of removal -/

/-- C9 (evaluation at the failing input): `P1`, `P2`, `P3` are appended in that
order to the empty in-progress reception of `Z`, the last two within one
millisecond, so both are stored with creation time 6000000. The product lookup of
`DeleteLastProduct` orders by creation time only; when the database returns the
first of the two tied rows, the first call succeeds and removes `P2`, not `P3`. -/
theorem deleteLastProduct_equal_timestamps_not_lifo :
    afterThreeAppends.products =
      [⟨"P1", 5000000, "обувь", "R1"⟩, ⟨"P2", 6000000, "обувь", "R1"⟩,
        ⟨"P3", 6000000, "обувь", "R1"⟩] ∧
    (DeleteLastProduct (Env.ok "" 8000000 0 0) afterThreeAppends "Z").res = .ok () ∧
    (DeleteLastProduct (Env.ok "" 8000000 0 0) afterThreeAppends "Z").store.products =
      [⟨"P1", 5000000, "обувь", "R1"⟩, ⟨"P3", 6000000, "обувь", "R1"⟩] := by
  decide

/-- When the three clock readings round to different milliseconds, the removal
order on the same scenario is `P3`, `P2`, `P1` whatever rows the database prefers
among ties, and a fourth call fails with `ErrNoProductsInReception`. -/
theorem deleteLastProduct_spaced_timestamps_lifo (u1 u2 u3 u4 : String)
    (n1 n2 n3 n4 a1 a2 a3 a4 b1 b2 b3 b4 : Nat) :
    (DeleteLastProduct (Env.ok u1 n1 a1 b1) afterThreeSpacedAppends "Z").res = .ok () ∧
    (DeleteLastProduct (Env.ok u1 n1 a1 b1) afterThreeSpacedAppends "Z").store.products =
      [⟨"P1", 5000000, "обувь", "R1"⟩, ⟨"P2", 6000000, "обувь", "R1"⟩] ∧
    (DeleteLastProduct (Env.ok u2 n2 a2 b2)
      (DeleteLastProduct (Env.ok u1 n1 a1 b1) afterThreeSpacedAppends "Z").store "Z").res
      = .ok () ∧
    (DeleteLastProduct (Env.ok u2 n2 a2 b2)
      (DeleteLastProduct (Env.ok u1 n1 a1 b1) afterThreeSpacedAppends "Z").store
      "Z").store.products = [⟨"P1", 5000000, "обувь", "R1"⟩] ∧
    (DeleteLastProduct (Env.ok u3 n3 a3 b3) (DeleteLastProduct (Env.ok u2 n2 a2 b2)
      (DeleteLastProduct (Env.ok u1 n1 a1 b1) afterThreeSpacedAppends "Z").store "Z").store
      "Z").res = .ok () ∧
    (DeleteLastProduct (Env.ok u3 n3 a3 b3) (DeleteLastProduct (Env.ok u2 n2 a2 b2)
      (DeleteLastProduct (Env.ok u1 n1 a1 b1) afterThreeSpacedAppends "Z").store "Z").store
      "Z").store.products = [] ∧
    (DeleteLastProduct (Env.ok u4 n4 a4 b4) (DeleteLastProduct (Env.ok u3 n3 a3 b3)
      (DeleteLastProduct (Env.ok u2 n2 a2 b2)
        (DeleteLastProduct (Env.ok u1 n1 a1 b1) afterThreeSpacedAppends "Z").store "Z").store
      "Z").store "Z").res = .fail .ErrNoProductsInReception := by
  have hs : afterThreeSpacedAppends =
      ⟨[⟨"Z", 0, "Казань"⟩], [⟨"R1", 1000000, "Z", StatusInProgress⟩],
        [⟨"P1", 5000000, "обувь", "R1"⟩, ⟨"P2", 6000000, "обувь", "R1"⟩,
          ⟨"P3", 7000000, "обувь", "R1"⟩]⟩ := by decide
  rw [hs]
  simp [DeleteLastProduct, Env.ok, orderByDescLimit1, receptionsWhere, productsWhere,
    Nat.mod_one]

/-! ## Closing is terminal for the pickup point -/

theorem closeLastReception_no_active (e : Env) (s : Store) (pvzID : String)
    (hb : e.beginErr = false) (hq : e.queryErr = false)
    (hnone : ∀ r ∈ s.receptions, r.PvzID = pvzID → r.Status ≠ StatusInProgress) :
    (CloseLastReception e s pvzID).res = .fail .ErrNoActiveReception ∧
      (CloseLastReception e s pvzID).store = s := by
  have hnil : receptionsWhere s pvzID StatusInProgress = [] :=
    (receptionsWhere_eq_nil s pvzID StatusInProgress).mpr hnone
  have hsel : orderByDescLimit1 Reception.DateTime e.tie
      (receptionsWhere s pvzID StatusInProgress) = none := by
    rw [hnil]; exact (orderByDescLimit1_eq_none _ _ _).mpr rfl
  simp [CloseLastReception, hb, hq, hsel]

theorem closeLastReception_leaves_none (e : Env) (s : Store) (pvzID : String)
    (ret : Reception) (hone : inProgressCount s pvzID ≤ 1)
    (hok : (CloseLastReception e s pvzID).res = .ok ret) :
    ∀ r ∈ (CloseLastReception e s pvzID).store.receptions,
      r.PvzID = pvzID → r.Status ≠ StatusInProgress := by
  obtain ⟨row, hsel, _, hstore⟩ := closeLastReception_ok_inv e s pvzID ret hok
  obtain ⟨hmem, _⟩ := orderByDescLimit1_some _ _ _ _ hsel
  have hsingle : ∀ r0 ∈ receptionsWhere s pvzID StatusInProgress, r0 = row := by
    intro r0 hr0
    unfold inProgressCount at hone
    cases hl : receptionsWhere s pvzID StatusInProgress with
    | nil => rw [hl] at hr0; cases hr0
    | cons a l =>
      rw [hl] at hone hmem hr0
      cases l with
      | nil =>
        rw [List.mem_singleton] at hmem hr0
        rw [hr0, hmem]
      | cons b l' => simp at hone
  intro r hr hpvz hst
  rw [hstore] at hr
  obtain ⟨r0, hr0, hfr⟩ := List.mem_map.mp hr
  by_cases hid : r0.ID = row.ID
  · rw [if_pos hid] at hfr
    rw [← hfr] at hst
    simp [StatusClose, StatusInProgress] at hst
  · rw [if_neg hid] at hfr
    subst hfr
    have := hsingle r0 ((mem_receptionsWhere s pvzID StatusInProgress r0).mpr ⟨hr0, hpvz, hst⟩)
    exact hid (by rw [this])

theorem step_no_active (s : Store) (c : Env × Call) (pvzID : String)
    (hcall : c.2 ≠ .CreateReception pvzID)
    (hnone : ∀ r ∈ s.receptions, r.PvzID = pvzID → r.Status ≠ StatusInProgress) :
    ∀ r ∈ (step s c).receptions, r.PvzID = pvzID → r.Status ≠ StatusInProgress := by
  obtain ⟨e, call⟩ := c
  cases call with
  | CreatePVZ city =>
    show ∀ r ∈ (CreatePVZ e s city).store.receptions, _
    rw [createPVZ_receptions]; exact hnone
  | CreateProduct id productType =>
    show ∀ r ∈ (CreateProduct e s id productType).store.receptions, _
    rw [createProduct_receptions]; exact hnone
  | DeleteLastProduct id =>
    show ∀ r ∈ (DeleteLastProduct e s id).store.receptions, _
    rw [deleteLastProduct_receptions]; exact hnone
  | CreateReception id =>
    have hne : id ≠ pvzID := fun h => hcall (by rw [h])
    show ∀ r ∈ (CreateReception e s id).store.receptions, _
    rcases createReception_receptions e s id with hEq | ⟨_, hEq⟩
    · rw [hEq]; exact hnone
    · rw [hEq]
      intro r hr hpvz
      rcases List.mem_append.mp hr with h | h
      · exact hnone r h hpvz
      · rw [List.mem_singleton] at h
        subst h
        exact absurd hpvz hne
  | CloseLastReception id =>
    show ∀ r ∈ (CloseLastReception e s id).store.receptions, _
    rcases closeLastReception_receptions e s id with hEq | ⟨rid, hEq⟩
    · rw [hEq]; exact hnone
    · rw [hEq]
      intro r hr hpvz hst
      obtain ⟨r0, hr0, hfr⟩ := List.mem_map.mp hr
      by_cases hid : r0.ID = rid
      · rw [if_pos hid] at hfr
        rw [← hfr] at hst
        simp [StatusClose, StatusInProgress] at hst
      · rw [if_neg hid] at hfr
        subst hfr
        exact hnone r0 hr0 hpvz hst

theorem run_no_active (cs : List (Env × Call)) (pvzID : String)
    (hcalls : ∀ c ∈ cs, c.2 ≠ .CreateReception pvzID) :
    ∀ s : Store, (∀ r ∈ s.receptions, r.PvzID = pvzID → r.Status ≠ StatusInProgress) →
      ∀ r ∈ (run s cs).receptions, r.PvzID = pvzID → r.Status ≠ StatusInProgress := by
  induction cs with
  | nil => intro s hs; exact hs
  | cons c cs ih =>
    intro s hs
    exact ih (fun c' hc' => hcalls c' (List.mem_cons_of_mem _ hc')) (step s c)
      (step_no_active s c pvzID (hcalls c (List.mem_cons_self _ _)) hs)

/-- C11 (as stated, refuted): in the store `sampleRaced` pickup point `Z` has the
two `in_progress` receptions `RA` and `RB`. `CloseLastReception "Z"` succeeds and
closes `RB`; no `CreateReception "Z"` follows; the second `CloseLastReception "Z"`
does not fail with `ErrNoActiveReception`: it succeeds and closes `RA`. -/
theorem closeLastReception_twice_on_two_open :
    sampleRaced = ⟨[⟨"Z", 0, "Казань"⟩],
      [⟨"R1", 1000000, "Z", StatusClose⟩, ⟨"RA", 5000000, "Z", StatusInProgress⟩,
        ⟨"RB", 6000000, "Z", StatusInProgress⟩], []⟩ ∧
    (CloseLastReception (Env.ok "" 8000000 0 0) sampleRaced "Z").res
      = .ok ⟨"RB", 6000000, "Z", StatusClose⟩ ∧
    (CloseLastReception (Env.ok "" 9000000 0 0)
      (run (CloseLastReception (Env.ok "" 8000000 0 0) sampleRaced "Z").store []) "Z").res
      = .ok ⟨"RA", 5000000, "Z", StatusClose⟩ ∧
    (CloseLastReception (Env.ok "" 9000000 0 0)
      (run (CloseLastReception (Env.ok "" 8000000 0 0) sampleRaced "Z").store []) "Z").store
      ≠ run (CloseLastReception (Env.ok "" 8000000 0 0) sampleRaced "Z").store [] := by
  decide

/-- C11 (amended): when the transaction begins and the lookup is answered,
`CloseLastReception pvzID` fails with `ErrNoActiveReception` and leaves the store
unchanged whenever `pvzID` has no reception with status `in_progress`. In
particular, in a store where `pvzID` has at most one `in_progress` reception,
after a successful `CloseLastReception pvzID` followed by any calls other than
`CreateReception pvzID`, a second `CloseLastReception pvzID` fails with
`ErrNoActiveReception` and leaves the store unchanged. -/
theorem closeLastReception_idempotent_terminal (e1 e2 : Env) (s : Store) (pvzID : String)
    (ret : Reception) (cs : List (Env × Call))
    (hb : e2.beginErr = false) (hq : e2.queryErr = false) :
    ((∀ r ∈ s.receptions, r.PvzID = pvzID → r.Status ≠ StatusInProgress) →
      (CloseLastReception e2 s pvzID).res = .fail .ErrNoActiveReception ∧
      (CloseLastReception e2 s pvzID).store = s) ∧
    (inProgressCount s pvzID ≤ 1 →
      (CloseLastReception e1 s pvzID).res = .ok ret →
      (∀ c ∈ cs, c.2 ≠ .CreateReception pvzID) →
      (CloseLastReception e2 (run (CloseLastReception e1 s pvzID).store cs) pvzID).res
        = .fail .ErrNoActiveReception ∧
      (CloseLastReception e2 (run (CloseLastReception e1 s pvzID).store cs) pvzID).store
        = run (CloseLastReception e1 s pvzID).store cs) := by
  refine ⟨closeLastReception_no_active e2 s pvzID hb hq, ?_⟩
  intro hone hok hcalls
  exact closeLastReception_no_active e2 _ pvzID hb hq
    (run_no_active cs pvzID hcalls _ (closeLastReception_leaves_none e1 s pvzID ret hone hok))

theorem closeLastReception_idempotent_terminal_witness :
    ((CloseLastReception (Env.ok "" 9000000 0 0) sampleClosed "Z").res
        = .fail .ErrNoActiveReception ∧
      (CloseLastReception (Env.ok "" 9000000 0 0) sampleClosed "Z").store = sampleClosed) ∧
    ((CloseLastReception (Env.ok "" 9000000 0 0)
        (run (CloseLastReception (Env.ok "" 8000000 0 0) sampleTwo "Z").store
          [(Env.ok "P3" 8500000 0 0, .CreateProduct "Z" "обувь")]) "Z").res
        = .fail .ErrNoActiveReception ∧
      (CloseLastReception (Env.ok "" 9000000 0 0)
        (run (CloseLastReception (Env.ok "" 8000000 0 0) sampleTwo "Z").store
          [(Env.ok "P3" 8500000 0 0, .CreateProduct "Z" "обувь")]) "Z").store
        = run (CloseLastReception (Env.ok "" 8000000 0 0) sampleTwo "Z").store
          [(Env.ok "P3" 8500000 0 0, .CreateProduct "Z" "обувь")]) :=
  ⟨(closeLastReception_idempotent_terminal (Env.ok "" 8000000 0 0) (Env.ok "" 9000000 0 0)
      sampleClosed "Z" ⟨"R1", 1000000, "Z", StatusClose⟩ [] rfl rfl).1
      (by simp [sampleClosed, StatusClose, StatusInProgress]),
    (closeLastReception_idempotent_terminal (Env.ok "" 8000000 0 0) (Env.ok "" 9000000 0 0)
      sampleTwo "Z" ⟨"R1", 1000000, "Z", StatusClose⟩
      [(Env.ok "P3" 8500000 0 0, .CreateProduct "Z" "обувь")] rfl rfl).2
      (by decide) (by decide) (by decide)⟩

/-! ## A closed reception is never touched again -/

theorem createPVZ_products (e : Env) (s : Store) (city : City) :
    (CreatePVZ e s city).store.products = s.products := by
  unfold CreatePVZ
  cases e.execErr <;> rfl

theorem createReception_products (e : Env) (s : Store) (pvzID : String) :
    (CreateReception e s pvzID).store.products = s.products := by
  unfold CreateReception
  cases e.queryErr <;> cases e.queryErr2 <;> cases e.execErr <;>
    cases s.pvz.any (fun p => decide (p.ID = pvzID)) <;>
    cases (receptionsWhere s pvzID StatusInProgress).isEmpty <;> rfl

theorem closeLastReception_products (e : Env) (s : Store) (pvzID : String) :
    (CloseLastReception e s pvzID).store.products = s.products := by
  unfold CloseLastReception
  cases e.beginErr <;> cases e.queryErr <;> cases e.execErr <;> cases e.commitErr <;>
    cases orderByDescLimit1 Reception.DateTime e.tie
      (receptionsWhere s pvzID StatusInProgress) <;> rfl

theorem createProduct_products (e : Env) (s : Store) (pvzID : String)
    (productType : ProductType) :
    (CreateProduct e s pvzID productType).store.products = s.products ∨
      ∃ row ∈ s.receptions, row.PvzID = pvzID ∧ row.Status = StatusInProgress ∧
        (CreateProduct e s pvzID productType).store.products
          = s.products ++ [⟨e.uuid, Round e.now Millisecond, productType, row.ID⟩] := by
  unfold CreateProduct
  cases e.beginErr
  · cases e.queryErr
    · cases hsel : orderByDescLimit1 Reception.DateTime e.tie
          (receptionsWhere s pvzID StatusInProgress) with
      | none => exact Or.inl rfl
      | some row =>
        have hmem := (orderByDescLimit1_some _ _ _ _ hsel).1
        rw [mem_receptionsWhere] at hmem
        cases e.execErr
        · cases e.commitErr
          · exact Or.inr ⟨row, hmem.1, hmem.2.1, hmem.2.2, rfl⟩
          · exact Or.inl rfl
        · exact Or.inl rfl
    · exact Or.inl rfl
  · exact Or.inl rfl

theorem deleteLastProduct_products (e : Env) (s : Store) (pvzID : String) :
    (DeleteLastProduct e s pvzID).store.products = s.products ∨
      ∃ row ∈ s.receptions, ∃ prow ∈ s.products,
        row.PvzID = pvzID ∧ row.Status = StatusInProgress ∧ prow.ReceptionID = row.ID ∧
        (DeleteLastProduct e s pvzID).store.products
          = s.products.filter (fun p => !decide (p.ID = prow.ID)) := by
  unfold DeleteLastProduct
  cases e.beginErr
  · cases e.queryErr
    · cases hsel : orderByDescLimit1 Reception.DateTime e.tie
          (receptionsWhere s pvzID StatusInProgress) with
      | none => exact Or.inl rfl
      | some row =>
        have hmem := (orderByDescLimit1_some _ _ _ _ hsel).1
        rw [mem_receptionsWhere] at hmem
        cases e.queryErr2
        · dsimp only
          cases hpsel : orderByDescLimit1 Product.DateTime e.tie2 (productsWhere s row.ID) with
          | none => exact Or.inl rfl
          | some prow =>
            have hpmem := (orderByDescLimit1_some _ _ _ _ hpsel).1
            rw [mem_productsWhere] at hpmem
            cases e.execErr
            · cases e.commitErr
              · exact Or.inr ⟨row, hmem.1, prow, hpmem.1, hmem.2.1, hmem.2.2, hpmem.2, rfl⟩
              · exact Or.inl rfl
            · exact Or.inl rfl
        · exact Or.inl rfl
    · exact Or.inl rfl
  · exact Or.inl rfl

theorem closeLastReception_receptions_row (e : Env) (s : Store) (pvzID : String) :
    (CloseLastReception e s pvzID).store.receptions = s.receptions ∨
      ∃ row ∈ s.receptions, row.PvzID = pvzID ∧ row.Status = StatusInProgress ∧
        (CloseLastReception e s pvzID).store.receptions
          = s.receptions.map (fun r =>
              if r.ID = row.ID then ⟨r.ID, r.DateTime, r.PvzID, StatusClose⟩ else r) := by
  unfold CloseLastReception
  cases e.beginErr
  · cases e.queryErr
    · cases hsel : orderByDescLimit1 Reception.DateTime e.tie
          (receptionsWhere s pvzID StatusInProgress) with
      | none => exact Or.inl rfl
      | some row =>
        have hmem := (orderByDescLimit1_some _ _ _ _ hsel).1
        rw [mem_receptionsWhere] at hmem
        cases e.execErr
        · cases e.commitErr
          · exact Or.inr ⟨row, hmem.1, hmem.2.1, hmem.2.2, rfl⟩
          · exact Or.inl rfl
        · exact Or.inl rfl
    · exact Or.inl rfl
  · exact Or.inl rfl

theorem closedFrame_append_reception (r : Reception) (i : Nat) (P : List Product)
    (recs : List Reception) (prods : List Product) (new : Reception)
    (hnew : new.ID ≠ r.ID) (h : ClosedFrame r i P recs prods) :
    ClosedFrame r i P (recs ++ [new]) prods := by
  obtain ⟨ha, hb, hc, hd⟩ := h
  refine ⟨?_, ?_, hc, hd⟩
  · have hlt : i < recs.length := by
      by_contra hge
      rw [List.getElem?_eq_none (by omega)] at ha
      cases ha
    rw [List.getElem?_append_left hlt]
    exact ha
  · intro r' hr' hid
    rcases List.mem_append.mp hr' with hmem | hmem
    · exact hb r' hmem hid
    · rw [List.mem_singleton] at hmem
      subst hmem
      exact absurd hid hnew

theorem closedFrame_close (r : Reception) (i : Nat) (P : List Product)
    (recs : List Reception) (prods : List Product) (id : String)
    (hclosed : r.Status = StatusClose) (h : ClosedFrame r i P recs prods) :
    ClosedFrame r i P
      (recs.map (fun x => if x.ID = id then ⟨x.ID, x.DateTime, x.PvzID, StatusClose⟩ else x))
      prods := by
  obtain ⟨ha, hb, hc, hd⟩ := h
  refine ⟨?_, ?_, hc, hd⟩
  · rw [List.getElem?_map, ha]
    show some (if r.ID = id then (⟨r.ID, r.DateTime, r.PvzID, StatusClose⟩ : Reception) else r)
      = some r
    by_cases hid : r.ID = id
    · rw [if_pos hid, ← hclosed]
    · rw [if_neg hid]
  · intro r' hr' hid hst
    obtain ⟨r0, hr0, hfr⟩ := List.mem_map.mp hr'
    by_cases h0 : r0.ID = id
    · rw [if_pos h0] at hfr
      rw [← hfr] at hst
      simp [StatusClose, StatusInProgress] at hst
    · rw [if_neg h0] at hfr
      subst hfr
      exact hb r0 hr0 hid hst

theorem closedFrame_append_product (r : Reception) (i : Nat) (P : List Product)
    (recs : List Reception) (prods : List Product) (row : Reception) (new : Product)
    (hrow : row ∈ recs) (hst : row.Status = StatusInProgress)
    (hnew : new.ReceptionID = row.ID) (hfresh : ∀ p ∈ P, new.ID ≠ p.ID)
    (h : ClosedFrame r i P recs prods) :
    ClosedFrame r i P recs (prods ++ [new]) := by
  obtain ⟨ha, hb, hc, hd⟩ := h
  have hne : new.ReceptionID ≠ r.ID := by
    intro heq
    exact hb row hrow (by rw [← hnew, heq]) hst
  refine ⟨ha, hb, ?_, ?_⟩
  · rw [List.filter_append, hc]
    simp [List.filter_cons, hne]
  · intro q hq hqr
    rcases List.mem_append.mp hq with hmem | hmem
    · exact hd q hmem hqr
    · rw [List.mem_singleton] at hmem
      subst hmem
      exact hfresh

theorem closedFrame_delete_product (r : Reception) (i : Nat) (P : List Product)
    (recs : List Reception) (prods : List Product) (row : Reception) (prow : Product)
    (hrow : row ∈ recs) (hst : row.Status = StatusInProgress)
    (hprow : prow ∈ prods) (hpr : prow.ReceptionID = row.ID)
    (h : ClosedFrame r i P recs prods) :
    ClosedFrame r i P recs (prods.filter (fun p => !decide (p.ID = prow.ID))) := by
  obtain ⟨ha, hb, hc, hd⟩ := h
  have hne : prow.ReceptionID ≠ r.ID := by
    intro heq
    exact hb row hrow (by rw [← hpr, heq]) hst
  refine ⟨ha, hb, ?_, ?_⟩
  · rw [List.filter_filter]
    rw [← hc]
    apply List.filter_congr
    intro p hp
    by_cases hpr' : p.ReceptionID = r.ID
    · have hpP : p ∈ P := by
        rw [← hc, List.mem_filter]
        exact ⟨hp, by simpa using hpr'⟩
      have := hd prow hprow hne p hpP
      have hpid : p.ID ≠ prow.ID := fun h' => this h'.symm
      simp [hpr', hpid]
    · simp [hpr']
  · intro q hq hqr
    exact hd q (List.mem_of_mem_filter hq) hqr

theorem step_closedFrame (r : Reception) (i : Nat) (P : List Product) (s : Store)
    (c : Env × Call) (hclosed : r.Status = StatusClose)
    (hfresh : c.1.uuid ≠ r.ID ∧ ∀ p ∈ P, c.1.uuid ≠ p.ID)
    (h : ClosedFrame r i P s.receptions s.products) :
    ClosedFrame r i P (step s c).receptions (step s c).products := by
  obtain ⟨e, call⟩ := c
  cases call with
  | CreatePVZ city =>
    show ClosedFrame r i P (CreatePVZ e s city).store.receptions
      (CreatePVZ e s city).store.products
    rw [createPVZ_receptions, createPVZ_products]; exact h
  | CreateReception id =>
    show ClosedFrame r i P (CreateReception e s id).store.receptions
      (CreateReception e s id).store.products
    rw [createReception_products]
    rcases createReception_receptions e s id with hEq | ⟨_, hEq⟩
    · rw [hEq]; exact h
    · rw [hEq]
      exact closedFrame_append_reception r i P _ _ _ hfresh.1 h
  | CreateProduct id productType =>
    show ClosedFrame r i P (CreateProduct e s id productType).store.receptions
      (CreateProduct e s id productType).store.products
    rw [createProduct_receptions]
    rcases createProduct_products e s id productType with hEq | ⟨row, hrow, _, hst, hEq⟩
    · rw [hEq]; exact h
    · rw [hEq]
      exact closedFrame_append_product r i P _ _ row _ hrow hst rfl hfresh.2 h
  | DeleteLastProduct id =>
    show ClosedFrame r i P (DeleteLastProduct e s id).store.receptions
      (DeleteLastProduct e s id).store.products
    rw [deleteLastProduct_receptions]
    rcases deleteLastProduct_products e s id with
      hEq | ⟨row, hrow, prow, hprow, _, hst, hpr, hEq⟩
    · rw [hEq]; exact h
    · rw [hEq]
      exact closedFrame_delete_product r i P _ _ row prow hrow hst hprow hpr h
  | CloseLastReception id =>
    show ClosedFrame r i P (CloseLastReception e s id).store.receptions
      (CloseLastReception e s id).store.products
    rw [closeLastReception_products]
    rcases closeLastReception_receptions e s id with hEq | ⟨rid, hEq⟩
    · rw [hEq]; exact h
    · rw [hEq]
      exact closedFrame_close r i P _ _ rid hclosed h

theorem run_closedFrame (r : Reception) (i : Nat) (P : List Product)
    (hclosed : r.Status = StatusClose) (cs : List (Env × Call))
    (hfresh : ∀ c ∈ cs, c.1.uuid ≠ r.ID ∧ ∀ p ∈ P, c.1.uuid ≠ p.ID) :
    ∀ s : Store, ClosedFrame r i P s.receptions s.products →
      ClosedFrame r i P (run s cs).receptions (run s cs).products := by
  induction cs with
  | nil => intro s hs; exact hs
  | cons c cs ih =>
    intro s hs
    exact ih (fun c' hc' => hfresh c' (List.mem_cons_of_mem _ hc')) (step s c)
      (step_closedFrame r i P s c hclosed (hfresh c (List.mem_cons_self _ _)) hs)

/-- C12: let `r` be a reception row with status `close`, stored at position `i` of
a store whose reception ids and product ids are pairwise distinct. After any
sequence of `CreatePVZ`, `CreateReception`, `CreateProduct`, `DeleteLastProduct`
and `CloseLastReception` calls (on any pickup point, with any database failures)
whose generated identifiers differ from `r.ID` and from the ids of the products
referencing `r`, the row at position `i` is still `r` (same id, creation time,
pvz id, status `close`; not deleted), and the products referencing `r` are
exactly the same rows in the same order (none added, none removed). -/
theorem closed_reception_is_terminal (s : Store) (cs : List (Env × Call)) (i : Nat)
    (r : Reception)
    (hr : s.receptions[i]? = some r) (hclosed : r.Status = StatusClose)
    (hrid : (s.receptions.map Reception.ID).Nodup)
    (hpid : (s.products.map Product.ID).Nodup)
    (hfresh : ∀ c ∈ cs, c.1.uuid ≠ r.ID ∧ ∀ p ∈ productsWhere s r.ID, c.1.uuid ≠ p.ID) :
    (run s cs).receptions[i]? = some r ∧
      productsWhere (run s cs) r.ID = productsWhere s r.ID := by
  have hmem : r ∈ s.receptions := List.getElem?_mem hr
  have h0 : ClosedFrame r i (productsWhere s r.ID) s.receptions s.products := by
    refine ⟨hr, ?_, rfl, ?_⟩
    · intro r' hr' hid hst
      have := List.inj_on_of_nodup_map hrid hr' hmem hid
      rw [this, hclosed] at hst
      simp [StatusClose, StatusInProgress] at hst
    · intro q hq hqr p hp hid
      rw [mem_productsWhere] at hp
      have := List.inj_on_of_nodup_map hpid hq hp.1 hid
      exact hqr (by rw [this]; exact hp.2)
  have h := run_closedFrame r i (productsWhere s r.ID) hclosed cs hfresh s h0
  exact ⟨h.1, h.2.2.1⟩

theorem closed_reception_is_terminal_witness :
    (run (CloseLastReception (Env.ok "" 4000000 0 0) sampleTwo "Z").store
        [(Env.ok "R2" 5000000 0 0, .CreateReception "Z"),
         (Env.ok "P3" 6000000 0 0, .CreateProduct "Z" "обувь"),
         (Env.ok "P4" 7000000 0 0, .CreateProduct "Z" "одежда"),
         (Env.ok "" 8000000 0 0, .DeleteLastProduct "Z"),
         (Env.ok "" 9000000 0 0, .CloseLastReception "Z")]).receptions[0]?
        = some ⟨"R1", 1000000, "Z", StatusClose⟩ ∧
      productsWhere
        (run (CloseLastReception (Env.ok "" 4000000 0 0) sampleTwo "Z").store
          [(Env.ok "R2" 5000000 0 0, .CreateReception "Z"),
           (Env.ok "P3" 6000000 0 0, .CreateProduct "Z" "обувь"),
           (Env.ok "P4" 7000000 0 0, .CreateProduct "Z" "одежда"),
           (Env.ok "" 8000000 0 0, .DeleteLastProduct "Z"),
           (Env.ok "" 9000000 0 0, .CloseLastReception "Z")])
        (⟨"R1", 1000000, "Z", StatusClose⟩ : Reception).ID
        = productsWhere (CloseLastReception (Env.ok "" 4000000 0 0) sampleTwo "Z").store
            (⟨"R1", 1000000, "Z", StatusClose⟩ : Reception).ID :=
  closed_reception_is_terminal (CloseLastReception (Env.ok "" 4000000 0 0) sampleTwo "Z").store
    [(Env.ok "R2" 5000000 0 0, .CreateReception "Z"),
     (Env.ok "P3" 6000000 0 0, .CreateProduct "Z" "обувь"),
     (Env.ok "P4" 7000000 0 0, .CreateProduct "Z" "одежда"),
     (Env.ok "" 8000000 0 0, .DeleteLastProduct "Z"),
     (Env.ok "" 9000000 0 0, .CloseLastReception "Z")]
    0 ⟨"R1", 1000000, "Z", StatusClose⟩ (by decide) rfl (by decide) (by decide) (by decide)

/-! ## Transaction failures -/

theorem createReception_fail_store (e : Env) (s : Store) (pvzID : String) (err : Err)
    (h : (CreateReception e s pvzID).res = .fail err) :
    (CreateReception e s pvzID).store = s := by
  revert h
  unfold CreateReception
  cases e.queryErr <;> cases e.queryErr2 <;> cases e.execErr <;>
    cases s.pvz.any (fun p => decide (p.ID = pvzID)) <;>
    cases (receptionsWhere s pvzID StatusInProgress).isEmpty <;> simp

/-- The result of `CreateReception` does not depend on what `Begin` and `Commit`
would return: it calls neither. -/
theorem createReception_ignores_transaction_failures :
    envNoTx.beginErr = true ∧ envNoTx.commitErr = true ∧
    (CreateReception envNoTx sampleClosed "Z").res
      = .ok ⟨"R2", 5000000, "Z", StatusInProgress⟩ ∧
    (CreateReception envNoTx sampleClosed "Z").store ≠ sampleClosed ∧
    DBCall.Begin ∉ (CreateReception envNoTx sampleClosed "Z").log ∧
    DBCall.Commit ∉ (CreateReception envNoTx sampleClosed "Z").log := by
  decide

theorem rowLE_total {α : Type} (key rank : α → Nat) (a b : α) :
    rowLE key rank a b ∨ rowLE key rank b a := by
  unfold rowLE
  omega

theorem rowLE_trans {α : Type} (key rank : α → Nat) (a b c : α)
    (hab : rowLE key rank a b) (hbc : rowLE key rank b c) : rowLE key rank a c := by
  unfold rowLE at *
  omega

theorem orderBy_perm {α : Type} (key rank : α → Nat) (rows : List α) :
    (orderBy key rank rows).Perm rows :=
  List.perm_insertionSort _ rows

theorem orderBy_sorted {α : Type} (key rank : α → Nat) (rows : List α) :
    (orderBy key rank rows).Pairwise (fun a b => key a ≤ key b) := by
  haveI : IsTotal α (rowLE key rank) := ⟨rowLE_total key rank⟩
  haveI : IsTrans α (rowLE key rank) := ⟨rowLE_trans key rank⟩
  have h : (orderBy key rank rows).Pairwise (rowLE key rank) :=
    List.sorted_insertionSort (rowLE key rank) rows
  refine h.imp ?_
  intro a b hab
  unfold rowLE at hab
  omega

theorem mem_orderBy {α : Type} (key rank : α → Nat) (rows : List α) (x : α) :
    x ∈ orderBy key rank rows ↔ x ∈ rows :=
  (orderBy_perm key rank rows).mem_iff

/-! ## The stitch -/

theorem foldl_productsMap (prods : List Product) (id : String) :
    ∀ m : GoMap (List Product),
      (prods.foldl (fun m p => m.set p.ReceptionID ((m p.ReceptionID).getD [] ++ [p])) m id).getD []
        = (m id).getD [] ++ prods.filter (fun p => decide (p.ReceptionID = id)) := by
  induction prods with
  | nil => intro m; simp
  | cons p rest ih =>
    intro m
    rw [List.foldl_cons, ih, List.filter_cons]
    by_cases hp : p.ReceptionID = id
    · simp [GoMap.set, hp]
    · have hne : ¬ id = p.ReceptionID := fun h => hp h.symm
      simp [GoMap.set, hp, hne]

theorem buildProductsMap_getD (prods : List Product) (id : String) :
    (buildProductsMap prods id).getD [] = prods.filter (fun p => decide (p.ReceptionID = id)) := by
  unfold buildProductsMap
  rw [foldl_productsMap]
  simp [GoMap.empty]

theorem buildPvzMap_not_mem (id : String) :
    ∀ (infos : List PVZInfo) (k : Nat) (m : GoMap Nat),
      id ∉ infos.map (fun info => info.Pvz.ID) → buildPvzMap k infos m id = m id := by
  intro infos
  induction infos with
  | nil => intro k m _; rfl
  | cons info rest ih =>
    intro k m hnot
    rw [List.map_cons, List.mem_cons, not_or] at hnot
    rw [buildPvzMap, ih (k + 1) _ hnot.2]
    simp [GoMap.set, hnot.1]

theorem buildPvzMap_mem (id : String) :
    ∀ (infos : List PVZInfo) (k : Nat) (m : GoMap Nat),
      id ∈ infos.map (fun info => info.Pvz.ID) →
      ∃ j info, buildPvzMap k infos m id = some (k + j) ∧ infos[j]? = some info ∧
        info.Pvz.ID = id := by
  intro infos
  induction infos with
  | nil => intro k m h; simp at h
  | cons info rest ih =>
    intro k m hmem
    by_cases hrest : id ∈ rest.map (fun info => info.Pvz.ID)
    · obtain ⟨j, info', h1, h2, h3⟩ := ih (k + 1) (m.set info.Pvz.ID k) hrest
      refine ⟨j + 1, info', ?_, ?_, h3⟩
      · rw [buildPvzMap, h1]; congr 1; omega
      · simpa using h2
    · rw [List.map_cons, List.mem_cons] at hmem
      have hid : id = info.Pvz.ID := hmem.resolve_right hrest
      refine ⟨0, info, ?_, by simp, hid.symm⟩
      rw [buildPvzMap, buildPvzMap_not_mem id rest (k + 1) _ hrest]
      simp [GoMap.set, hid]

theorem modifyAt_length {α : Type} (g : α → α) :
    ∀ (l : List α) (i : Nat), (modifyAt g i l).length = l.length := by
  intro l
  induction l with
  | nil => intro i; cases i <;> rfl
  | cons x xs ih =>
    intro i
    cases i with
    | zero => rfl
    | succ i => simp [modifyAt, ih i]

theorem mem_modifyAt {α : Type} (g : α → α) :
    ∀ (l : List α) (i : Nat) (x : α), x ∈ modifyAt g i l → x ∈ l ∨ ∃ y ∈ l, x = g y := by
  intro l
  induction l with
  | nil => intro i x h; cases i <;> simp [modifyAt] at h
  | cons a xs ih =>
    intro i x h
    cases i with
    | zero =>
      simp only [modifyAt, List.mem_cons] at h
      rcases h with h | h
      · exact Or.inr ⟨a, List.mem_cons_self _ _, h⟩
      · exact Or.inl (List.mem_cons_of_mem _ h)
    | succ i =>
      simp only [modifyAt, List.mem_cons] at h
      rcases h with h | h
      · exact Or.inl (by rw [h]; exact List.mem_cons_self _ _)
      · rcases ih i x h with h' | ⟨y, hy, hxy⟩
        · exact Or.inl (List.mem_cons_of_mem _ h')
        · exact Or.inr ⟨y, List.mem_cons_of_mem _ hy, hxy⟩

theorem modifyAt_map_key {α β : Type} (f : α → β) (g : α → α) (hg : ∀ x, f (g x) = f x) :
    ∀ (l : List α) (i : Nat), (modifyAt g i l).map f = l.map f := by
  intro l
  induction l with
  | nil => intro i; cases i <;> rfl
  | cons x xs ih =>
    intro i
    cases i with
    | zero => simp [modifyAt, hg]
    | succ i => simp [modifyAt, ih i]

theorem foldl_stitchStep_none (productsMap : GoMap (List Product)) (pvzMap : GoMap Nat) :
    ∀ recList : List ReceptionWithProducts,
      recList.foldl (stitchStep productsMap pvzMap) none = none := by
  intro recList
  induction recList with
  | nil => rfl
  | cons rwp rest ih => rw [List.foldl_cons]; exact ih

theorem foldl_stitchStep_inv (productsMap : GoMap (List Product)) (pvzMap : GoMap Nat)
    (Q : List PVZInfo → Prop)
    (hstep : ∀ infos rwp out, Q infos →
      stitchStep productsMap pvzMap (some infos) rwp = some out → Q out) :
    ∀ (recList : List ReceptionWithProducts) (infos out : List PVZInfo), Q infos →
      recList.foldl (stitchStep productsMap pvzMap) (some infos) = some out → Q out := by
  intro recList
  induction recList with
  | nil =>
    intro infos out hQ h
    simp only [List.foldl_nil, Option.some.injEq] at h
    rw [← h]; exact hQ
  | cons rwp rest ih =>
    intro infos out hQ h
    rw [List.foldl_cons] at h
    cases hs : stitchStep productsMap pvzMap (some infos) rwp with
    | none => rw [hs, foldl_stitchStep_none] at h; cases h
    | some mid =>
      rw [hs] at h
      exact ih mid out (hstep infos rwp mid hQ hs) h

theorem stitchStep_some (productsMap : GoMap (List Product)) (pvzMap : GoMap Nat)
    (infos out : List PVZInfo) (rwp : ReceptionWithProducts)
    (h : stitchStep productsMap pvzMap (some infos) rwp = some out) :
    ∃ i, pvzMap rwp.Reception.PvzID = some i ∧
      out = modifyAt (fun info => ⟨info.Pvz, some (info.Receptions.getD [] ++
        [⟨rwp.Reception, some ((productsMap rwp.Reception.ID).getD [])⟩])⟩) i infos := by
  unfold stitchStep at h
  cases hm : pvzMap rwp.Reception.PvzID with
  | none => simp [hm] at h
  | some i =>
    refine ⟨i, rfl, ?_⟩
    simp only [hm, Option.some.injEq] at h
    exact h.symm

theorem stitch_map_pvz (pvzInfoList : List PVZInfo) (recList : List ReceptionWithProducts)
    (productsMap : GoMap (List Product)) (out : List PVZInfo)
    (h : stitch pvzInfoList recList productsMap = some out) :
    out.map PVZInfo.Pvz = pvzInfoList.map PVZInfo.Pvz := by
  unfold stitch at h
  refine foldl_stitchStep_inv productsMap _
    (fun l => l.map PVZInfo.Pvz = pvzInfoList.map PVZInfo.Pvz) ?_ recList _ out ?_ h
  · intro infos rwp mid hQ hs
    obtain ⟨i, _, hmid⟩ := stitchStep_some _ _ _ _ _ hs
    rw [hmid, modifyAt_map_key]
    · exact hQ
    · intro x; rfl
  · simp [List.map_map, Function.comp_def]

theorem stitch_non_nil (pvzInfoList : List PVZInfo) (recList : List ReceptionWithProducts)
    (productsMap : GoMap (List Product)) (out : List PVZInfo)
    (h : stitch pvzInfoList recList productsMap = some out) :
    ∀ info ∈ out, ∃ recs, info.Receptions = some recs ∧
      ∀ rwp ∈ recs, ∃ ps, rwp.Products = some ps := by
  unfold stitch at h
  refine foldl_stitchStep_inv productsMap _
    (fun l => ∀ info ∈ l, ∃ recs, info.Receptions = some recs ∧
      ∀ rwp ∈ recs, ∃ ps, rwp.Products = some ps) ?_ recList _ out ?_ h
  · intro infos rwp mid hQ hs info hinfo
    obtain ⟨i, _, hmid⟩ := stitchStep_some _ _ _ _ _ hs
    rw [hmid] at hinfo
    rcases mem_modifyAt _ _ _ _ hinfo with hmem | ⟨y, hy, hxy⟩
    · exact hQ info hmem
    · obtain ⟨recs, hrecs, hall⟩ := hQ y hy
      refine ⟨recs ++ [⟨rwp.Reception, some ((productsMap rwp.Reception.ID).getD [])⟩], ?_, ?_⟩
      · rw [hxy]; simp [hrecs]
      · intro r hr
        rcases List.mem_append.mp hr with h1 | h1
        · exact hall r h1
        · rw [List.mem_singleton] at h1
          exact ⟨_, by rw [h1]⟩
  · intro info hinfo
    obtain ⟨x, _, hx⟩ := List.mem_map.mp hinfo
    exact ⟨[], by rw [← hx], by simp⟩

theorem stitch_isSome (pvzInfoList : List PVZInfo) (recList : List ReceptionWithProducts)
    (productsMap : GoMap (List Product))
    (hkeys : ∀ rwp ∈ recList,
      rwp.Reception.PvzID ∈ pvzInfoList.map (fun info => info.Pvz.ID)) :
    ∃ out, stitch pvzInfoList recList productsMap = some out := by
  unfold stitch
  generalize (pvzInfoList.map (fun info => (⟨info.Pvz, some []⟩ : PVZInfo))) = infos
  induction recList generalizing infos with
  | nil => exact ⟨infos, rfl⟩
  | cons rwp rest ih =>
    obtain ⟨j, _, hj, _, _⟩ := buildPvzMap_mem rwp.Reception.PvzID pvzInfoList 0 GoMap.empty
      (hkeys rwp (List.mem_cons_self _ _))
    rw [List.foldl_cons]
    have hs : ∃ mid, stitchStep productsMap (buildPvzMap 0 pvzInfoList GoMap.empty)
        (some infos) rwp = some mid := by
      unfold stitchStep
      simp only [hj]
      exact ⟨_, rfl⟩
    obtain ⟨mid, hmid⟩ := hs
    rw [hmid]
    exact ih (fun r hr => hkeys r (List.mem_cons_of_mem _ hr)) mid

theorem modifyAt_map_of_nodup {α β : Type} (key : α → String) (f : α → β) (g : β → β) :
    ∀ (l : List α) (i : Nat) (x : α), (l.map key).Nodup → l[i]? = some x →
      modifyAt g i (l.map f) = l.map (fun y => if key y = key x then g (f y) else f y) := by
  intro l
  induction l with
  | nil => intro i x _ h; simp at h
  | cons a xs ih =>
    intro i x hnd hx
    rw [List.map_cons, List.nodup_cons] at hnd
    cases i with
    | zero =>
      simp only [List.getElem?_cons_zero, Option.some.injEq] at hx
      subst hx
      simp only [List.map_cons, modifyAt, if_true]
      congr 1
      apply List.map_congr_left
      intro y hy
      have hne : key y ≠ key a := by
        intro heq
        exact hnd.1 (by rw [← heq]; exact List.mem_map_of_mem key hy)
      simp [hne]
    | succ i =>
      simp only [List.getElem?_cons_succ] at hx
      have hxmem : x ∈ xs := List.getElem?_mem hx
      have hne : key a ≠ key x := by
        intro heq
        exact hnd.1 (by rw [heq]; exact List.mem_map_of_mem key hxmem)
      simp only [List.map_cons, modifyAt, if_neg hne]
      rw [ih i x hnd.2 hx]

theorem stitch_fold_of_nodup (pvzRows : List PVZ) (productsMap : GoMap (List Product))
    (hnd : (pvzRows.map PVZ.ID).Nodup) :
    ∀ (recRows done : List Reception), (∀ r ∈ recRows, r.PvzID ∈ pvzRows.map PVZ.ID) →
      (recRows.map (fun r => (⟨r, none⟩ : ReceptionWithProducts))).foldl
        (stitchStep productsMap
          (buildPvzMap 0 (pvzRows.map (fun p => (⟨p, none⟩ : PVZInfo))) GoMap.empty))
        (some (pvzRows.map (fun p => (⟨p, some ((done.filter
          (fun r => decide (r.PvzID = p.ID))).map
            (fun r => ⟨r, some ((productsMap r.ID).getD [])⟩))⟩ : PVZInfo))))
      = some (pvzRows.map (fun p => (⟨p, some (((done ++ recRows).filter
          (fun r => decide (r.PvzID = p.ID))).map
            (fun r => ⟨r, some ((productsMap r.ID).getD [])⟩))⟩ : PVZInfo))) := by
  intro recRows
  induction recRows with
  | nil => intro done _; simp
  | cons r rest ih =>
    intro done hkeys
    have hr : r.PvzID ∈ (pvzRows.map (fun p => (⟨p, none⟩ : PVZInfo))).map
        (fun info => info.Pvz.ID) := by
      have := hkeys r (List.mem_cons_self _ _)
      simpa [List.map_map, Function.comp_def] using this
    obtain ⟨j, info, hj, hinfo, hid⟩ := buildPvzMap_mem r.PvzID _ 0 GoMap.empty hr
    rw [List.getElem?_map] at hinfo
    cases hx : pvzRows[j]? with
    | none => rw [hx] at hinfo; cases hinfo
    | some x =>
      rw [hx] at hinfo
      simp only [Option.map_some', Option.some.injEq] at hinfo
      have hxid : x.ID = r.PvzID := by rw [← hid, ← hinfo]
      rw [List.map_cons, List.foldl_cons]
      have hstep : stitchStep productsMap
          (buildPvzMap 0 (pvzRows.map (fun p => (⟨p, none⟩ : PVZInfo))) GoMap.empty)
          (some (pvzRows.map (fun p => (⟨p, some ((done.filter
            (fun r => decide (r.PvzID = p.ID))).map
              (fun r => ⟨r, some ((productsMap r.ID).getD [])⟩))⟩ : PVZInfo))))
          ⟨r, none⟩
          = some (pvzRows.map (fun p => (⟨p, some (((done ++ [r]).filter
            (fun r => decide (r.PvzID = p.ID))).map
              (fun r => ⟨r, some ((productsMap r.ID).getD [])⟩))⟩ : PVZInfo))) := by
        unfold stitchStep
        simp only [hj, Nat.zero_add]
        rw [modifyAt_map_of_nodup PVZ.ID _ _ pvzRows j x hnd hx]
        congr 1
        apply List.map_congr_left
        intro y _
        by_cases hy : y.ID = x.ID
        · have hry : r.PvzID = y.ID := by rw [hy, hxid]
          simp [hy, List.filter_append, List.filter_cons, hxid]
        · have hry : ¬ r.PvzID = y.ID := by
            intro h'
            exact hy (by rw [← h', hxid])
          simp [hy, List.filter_append, List.filter_cons, hry]
      rw [hstep]
      have := ih (done ++ [r]) (fun r' hr' => hkeys r' (List.mem_cons_of_mem _ hr'))
      rw [this]
      simp [List.append_assoc]

theorem stitch_eq_of_nodup (pvzRows : List PVZ) (recRows : List Reception)
    (productsMap : GoMap (List Product))
    (hnd : (pvzRows.map PVZ.ID).Nodup)
    (hkeys : ∀ r ∈ recRows, r.PvzID ∈ pvzRows.map PVZ.ID) :
    stitch (pvzRows.map (fun p => ⟨p, none⟩)) (recRows.map (fun r => ⟨r, none⟩)) productsMap
      = some (pvzRows.map (fun p => (⟨p, some ((recRows.filter
          (fun r => decide (r.PvzID = p.ID))).map
            (fun r => ⟨r, some ((productsMap r.ID).getD [])⟩))⟩ : PVZInfo))) := by
  unfold stitch
  have := stitch_fold_of_nodup pvzRows productsMap hnd recRows [] hkeys
  simpa [List.map_map, Function.comp_def] using this

/-! ## `GetPVZInfo` -/

theorem makeslice_eq_true (elemSize : Nat) (cap : Int) :
    makeslice elemSize cap = true ↔ 0 ≤ cap ∧ cap * elemSize ≤ 2 ^ 48 := by
  unfold makeslice maxAlloc
  rw [Bool.and_eq_true, decide_eq_true_iff, decide_eq_true_iff]
  constructor
  · rintro ⟨h0, h1⟩
    refine ⟨h0, ?_⟩
    have : ((cap.toNat * elemSize : Nat) : Int) ≤ ((2 ^ 48 : Nat) : Int) := by exact_mod_cast h1
    rw [Nat.cast_mul, Int.toNat_of_nonneg h0] at this
    simpa using this
  · rintro ⟨h0, h1⟩
    refine ⟨h0, ?_⟩
    have : ((cap.toNat * elemSize : Nat) : Int) ≤ ((2 ^ 48 : Nat) : Int) := by
      rw [Nat.cast_mul, Int.toNat_of_nonneg h0]
      simpa using h1
    exact_mod_cast this

theorem makeslice_not_false (limit : Int) (hmk : makeslice sizeofPVZInfo limit = true) :
    ¬ (makeslice sizeofPVZInfo limit = false ∨ makeslice sizeofString limit = false) := by
  obtain ⟨h0, hcap⟩ := (makeslice_eq_true _ _).mp hmk
  have h2 : makeslice sizeofString limit = true :=
    (makeslice_eq_true _ _).mpr ⟨h0, by
      simp only [sizeofPVZInfo] at hcap
      simp only [sizeofString]
      push_cast at hcap ⊢
      omega⟩
  rw [hmk, h2]
  simp

theorem getPVZInfo_ok_inv (e : ReadEnv) (s : Store) (start end_ : Nat) (page limit : Int)
    (v : Option (List PVZInfo))
    (h : (GetPVZInfo e s start end_ page limit).res = .ok v) :
    0 ≤ limit ∧ 0 ≤ wrapInt64 ((page - 1) * limit) ∧
    ((selectPVZList e.pvzRank s start end_ limit.toNat
        (wrapInt64 ((page - 1) * limit)).toNat = [] ∧ v = some []) ∨
     (selectPVZList e.pvzRank s start end_ limit.toNat
        (wrapInt64 ((page - 1) * limit)).toNat ≠ [] ∧
      ∃ out, v = some out ∧
        stitch
          ((selectPVZList e.pvzRank s start end_ limit.toNat
            (wrapInt64 ((page - 1) * limit)).toNat).map (fun p => ⟨p, none⟩))
          ((selectRecList e.recRank s
            ((selectPVZList e.pvzRank s start end_ limit.toNat
              (wrapInt64 ((page - 1) * limit)).toNat).map PVZ.ID) start end_).map
            (fun r => ⟨r, none⟩))
          (buildProductsMap (selectProductList e.prodRank s
            ((selectRecList e.recRank s
              ((selectPVZList e.pvzRank s start end_ limit.toNat
                (wrapInt64 ((page - 1) * limit)).toNat).map PVZ.ID) start end_).map
              Reception.ID))) = some out)) := by
  unfold GetPVZInfo at h
  dsimp only at h
  by_cases h1 : e.pvzFetch = Fetch.queryErr ∨ limit < 0 ∨ wrapInt64 ((page - 1) * limit) < 0
  · rw [if_pos h1] at h; exact Res.noConfusion h
  rw [if_neg h1] at h
  push_neg at h1
  refine ⟨by omega, by omega, ?_⟩
  by_cases hm : makeslice sizeofPVZInfo limit = false ∨ makeslice sizeofString limit = false
  · rw [if_pos hm] at h; exact Res.noConfusion h
  rw [if_neg hm] at h
  by_cases hm1 : e.pvzFetch = Fetch.noMemory
  · rw [if_pos hm1] at h; exact Res.noConfusion h
  rw [if_neg hm1] at h
  by_cases h2 : e.pvzFetch = Fetch.scanErr ∧
      selectPVZList e.pvzRank s start end_ limit.toNat
        (wrapInt64 ((page - 1) * limit)).toNat ≠ []
  · rw [if_pos h2] at h; exact Res.noConfusion h
  rw [if_neg h2] at h
  by_cases h3 : e.pvzFetch = Fetch.rowsErr
  · rw [if_pos h3] at h; exact Res.noConfusion h
  rw [if_neg h3] at h
  by_cases h4 : ((selectPVZList e.pvzRank s start end_ limit.toNat
      (wrapInt64 ((page - 1) * limit)).toNat).map PVZ.ID).length = 0
  · rw [if_pos h4] at h
    simp only [List.length_map, List.length_eq_zero] at h4
    simp only [h4, List.map_nil, Res.ok.injEq] at h
    exact Or.inl ⟨h4, h.symm⟩
  rw [if_neg h4] at h
  simp only [List.length_map, List.length_eq_zero] at h4
  refine Or.inr ⟨h4, ?_⟩
  by_cases h5 : e.recFetch = Fetch.queryErr
  · rw [if_pos h5] at h; exact Res.noConfusion h
  rw [if_neg h5] at h
  by_cases hm2 : e.recFetch = Fetch.noMemory
  · rw [if_pos hm2] at h; exact Res.noConfusion h
  rw [if_neg hm2] at h
  by_cases h6 : e.recFetch = Fetch.scanErr ∧
      selectRecList e.recRank s
        ((selectPVZList e.pvzRank s start end_ limit.toNat
          (wrapInt64 ((page - 1) * limit)).toNat).map PVZ.ID) start end_ ≠ []
  · rw [if_pos h6] at h; exact Res.noConfusion h
  rw [if_neg h6] at h
  by_cases h7 : e.recFetch = Fetch.rowsErr
  · rw [if_pos h7] at h; exact Res.noConfusion h
  rw [if_neg h7] at h
  by_cases h8 : e.prodFetch = Fetch.queryErr
  · rw [if_pos h8] at h; exact Res.noConfusion h
  rw [if_neg h8] at h
  by_cases hm3 : e.prodFetch = Fetch.noMemory
  · rw [if_pos hm3] at h; exact Res.noConfusion h
  rw [if_neg hm3] at h
  by_cases h9 : e.prodFetch = Fetch.scanErr ∧
      selectProductList e.prodRank s
        ((selectRecList e.recRank s
          ((selectPVZList e.pvzRank s start end_ limit.toNat
            (wrapInt64 ((page - 1) * limit)).toNat).map PVZ.ID) start end_).map
          Reception.ID) ≠ []
  · rw [if_pos h9] at h; exact Res.noConfusion h
  rw [if_neg h9] at h
  by_cases h10 : e.prodFetch = Fetch.rowsErr
  · rw [if_pos h10] at h; exact Res.noConfusion h
  rw [if_neg h10] at h
  split at h
  · exact Res.noConfusion h
  · rename_i out hst
    simp only [Res.ok.injEq] at h
    exact ⟨out, h.symm, hst⟩

theorem selectRecList_keys (rank : Reception → Nat) (s : Store) (pvzIDList : List String)
    (start end_ : Nat) :
    ∀ r ∈ selectRecList rank s pvzIDList start end_,
      r ∈ s.receptions ∧ r.PvzID ∈ pvzIDList ∧ start ≤ r.DateTime ∧ r.DateTime ≤ end_ := by
  intro r hr
  unfold selectRecList at hr
  rw [mem_orderBy, List.mem_filter] at hr
  simpa [inWindow, and_assoc] using hr

theorem getPVZInfo_ok_of_fine (e : ReadEnv) (s : Store) (start end_ : Nat) (page limit : Int)
    (hp : e.pvzFetch = .fine) (hr : e.recFetch = .fine) (hpr : e.prodFetch = .fine)
    (hlimit : 0 ≤ limit) (hoffset : 0 ≤ wrapInt64 ((page - 1) * limit))
    (hmk : makeslice sizeofPVZInfo limit = true) :
    ∃ out, (GetPVZInfo e s start end_ page limit).res = .ok (some out) := by
  unfold GetPVZInfo
  dsimp only
  have h1 : ¬ (e.pvzFetch = Fetch.queryErr ∨ limit < 0 ∨
      wrapInt64 ((page - 1) * limit) < 0) := by
    rw [hp]
    intro h
    rcases h with h | h | h
    · cases h
    · omega
    · omega
  rw [if_neg h1]
  rw [if_neg (makeslice_not_false limit hmk)]
  have hm1 : ¬ e.pvzFetch = Fetch.noMemory := by rw [hp]; intro h; cases h
  rw [if_neg hm1]
  have h2 : ¬ (e.pvzFetch = Fetch.scanErr ∧
      selectPVZList e.pvzRank s start end_ limit.toNat
        (wrapInt64 ((page - 1) * limit)).toNat ≠ []) := by
    rw [hp]; intro h; cases h.1
  rw [if_neg h2]
  have h3 : ¬ e.pvzFetch = Fetch.rowsErr := by rw [hp]; intro h; cases h
  rw [if_neg h3]
  by_cases h4 : ((selectPVZList e.pvzRank s start end_ limit.toNat
      (wrapInt64 ((page - 1) * limit)).toNat).map PVZ.ID).length = 0
  · rw [if_pos h4]; exact ⟨_, rfl⟩
  rw [if_neg h4]
  have h5 : ¬ e.recFetch = Fetch.queryErr := by rw [hr]; intro h; cases h
  rw [if_neg h5]
  have hm2 : ¬ e.recFetch = Fetch.noMemory := by rw [hr]; intro h; cases h
  rw [if_neg hm2]
  have h6 : ¬ (e.recFetch = Fetch.scanErr ∧
      selectRecList e.recRank s
        ((selectPVZList e.pvzRank s start end_ limit.toNat
          (wrapInt64 ((page - 1) * limit)).toNat).map PVZ.ID) start end_ ≠ []) := by
    rw [hr]; intro h; cases h.1
  rw [if_neg h6]
  have h7 : ¬ e.recFetch = Fetch.rowsErr := by rw [hr]; intro h; cases h
  rw [if_neg h7]
  have h8 : ¬ e.prodFetch = Fetch.queryErr := by rw [hpr]; intro h; cases h
  rw [if_neg h8]
  have hm3 : ¬ e.prodFetch = Fetch.noMemory := by rw [hpr]; intro h; cases h
  rw [if_neg hm3]
  have h9 : ¬ (e.prodFetch = Fetch.scanErr ∧
      selectProductList e.prodRank s
        ((selectRecList e.recRank s
          ((selectPVZList e.pvzRank s start end_ limit.toNat
            (wrapInt64 ((page - 1) * limit)).toNat).map PVZ.ID) start end_).map
          Reception.ID) ≠ []) := by
    rw [hpr]; intro h; cases h.1
  rw [if_neg h9]
  have h10 : ¬ e.prodFetch = Fetch.rowsErr := by rw [hpr]; intro h; cases h
  rw [if_neg h10]
  obtain ⟨out, hout⟩ := stitch_isSome
    ((selectPVZList e.pvzRank s start end_ limit.toNat
      (wrapInt64 ((page - 1) * limit)).toNat).map (fun p => (⟨p, none⟩ : PVZInfo)))
    ((selectRecList e.recRank s
      ((selectPVZList e.pvzRank s start end_ limit.toNat
        (wrapInt64 ((page - 1) * limit)).toNat).map PVZ.ID) start end_).map
      (fun r => (⟨r, none⟩ : ReceptionWithProducts)))
    (buildProductsMap (selectProductList e.prodRank s
      ((selectRecList e.recRank s
        ((selectPVZList e.pvzRank s start end_ limit.toNat
          (wrapInt64 ((page - 1) * limit)).toNat).map PVZ.ID) start end_).map
        Reception.ID)))
    (by
      intro rwp hrwp
      obtain ⟨r, hrmem, hrw⟩ := List.mem_map.mp hrwp
      have := (selectRecList_keys _ _ _ _ _ r hrmem).2.1
      rw [← hrw]
      simpa [List.map_map, Function.comp_def] using this)
  rw [hout]
  exact ⟨out, rfl⟩

theorem wrapInt64_eq (x : Int) (h0 : 0 ≤ x) (h1 : x < 2 ^ 63) : wrapInt64 x = x := by
  unfold wrapInt64
  rw [Int.emod_eq_of_lt (by omega) (by omega)]
  omega

theorem getPVZInfo_ok_pvz (e : ReadEnv) (s : Store) (start end_ : Nat) (page limit : Int)
    (v : Option (List PVZInfo))
    (h : (GetPVZInfo e s start end_ page limit).res = .ok v) :
    ∃ out, v = some out ∧
      out.map PVZInfo.Pvz = selectPVZList e.pvzRank s start end_ limit.toNat
        (wrapInt64 ((page - 1) * limit)).toNat := by
  obtain ⟨_, _, h' | h'⟩ := getPVZInfo_ok_inv e s start end_ page limit v h
  · exact ⟨[], h'.2, by rw [h'.1]; rfl⟩
  · obtain ⟨_, out, hv, hst⟩ := h'
    refine ⟨out, hv, ?_⟩
    rw [stitch_map_pvz _ _ _ _ hst]
    simp [List.map_map, Function.comp_def]

theorem mem_pvzInWindow (s : Store) (start end_ : Nat) (p : PVZ) :
    p ∈ pvzInWindow s start end_ ↔
      p ∈ s.pvz ∧ ∃ r ∈ s.receptions, r.PvzID = p.ID ∧ start ≤ r.DateTime ∧
        r.DateTime ≤ end_ := by
  unfold pvzInWindow
  rw [List.mem_dedup, List.mem_filter]
  simp [inWindow, List.any_eq_true, and_assoc]

/-- C14 (as stated, refuted): with `page = 2 ^ 62 + 1` and `limit = 4` the product
`(page - 1) * limit` is `2 ^ 64`, which a Go `int` holds as `0`. `GetPVZInfo`
returns the first page (pickup point `Z`), whereas no list of the pickup points
in the window has an element at position `2 ^ 64` or later. -/
theorem getPVZInfo_offset_overflow :
    (1 : Int) ≤ 2 ^ 62 + 1 ∧ (1 : Int) ≤ 4 ∧
    (((2 : Int) ^ 62 + 1 - 1) * 4).toNat = 18446744073709551616 ∧
    (GetPVZInfo ReadEnv.ok sampleHistory 0 5000000 (2 ^ 62 + 1) 4).res =
      .ok (some [⟨⟨"Z", 0, "Казань"⟩,
        some [⟨⟨"R1", 1000000, "Z", StatusClose⟩,
          some [⟨"P1", 2000000, "обувь", "R1"⟩, ⟨"P2", 3000000, "обувь", "R1"⟩]⟩]⟩]) ∧
    ∀ sorted : List PVZ, sorted.Perm (pvzInWindow sampleHistory 0 5000000) →
      (sorted.drop 18446744073709551616).take 4 = [] := by
  refine ⟨by decide, by decide, by decide, by decide, ?_⟩
  intro sorted hperm
  have hlen : sorted.length = 1 := by
    rw [hperm.length_eq]; decide
  rw [List.drop_eq_nil_of_le (by omega)]
  rfl

theorem pvzInWindow_nodup (s : Store) (start end_ : Nat) : (pvzInWindow s start end_).Nodup :=
  List.nodup_dedup _

theorem selectPVZList_sublist (rank : PVZ → Nat) (s : Store) (start end_ limit offset : Nat) :
    (selectPVZList rank s start end_ limit offset).Sublist
      (orderBy PVZ.RegistrationDate rank (pvzInWindow s start end_)) :=
  (List.take_sublist _ _).trans (List.drop_sublist _ _)

theorem selectPVZList_nodup_ids (rank : PVZ → Nat) (s : Store) (start end_ limit offset : Nat)
    (hnd : (s.pvz.map PVZ.ID).Nodup) :
    ((selectPVZList rank s start end_ limit offset).map PVZ.ID).Nodup := by
  have h1 : ((pvzInWindow s start end_).map PVZ.ID).Nodup := by
    refine hnd.sublist (List.Sublist.map _ ?_)
    exact (List.dedup_sublist _).trans (List.filter_sublist _)
  have h2 : ((orderBy PVZ.RegistrationDate rank (pvzInWindow s start end_)).map PVZ.ID).Nodup :=
    ((orderBy_perm _ _ _).map PVZ.ID).nodup_iff.mpr h1
  exact h2.sublist (List.Sublist.map _ (selectPVZList_sublist rank s start end_ limit offset))

/-- C14 (amended): for `page ≥ 1` and `limit ≥ 1` whose offset `(page - 1) * limit`
fits a Go `int`, `GetPVZInfo` succeeds when the three fetches go without error and
`make([]models.PVZInfo, 0, limit)` returns,
and the pickup points of every successful result are the elements at positions
`(page - 1) * limit` up to `page * limit - 1` of a list of the distinct pickup
points having at least one reception with `start ≤ creation time ≤ end`, sorted
by the pickup point's own creation time ascending; the result has at most `limit`
entries and no pickup point appears twice. -/
theorem getPVZInfo_page (e : ReadEnv) (s : Store) (start end_ : Nat) (page limit : Int)
    (hpage : 1 ≤ page) (hlimit : 1 ≤ limit) (hfit : (page - 1) * limit < 2 ^ 63) :
    (e.pvzFetch = .fine → e.recFetch = .fine → e.prodFetch = .fine →
      makeslice sizeofPVZInfo limit = true →
      ∃ out, (GetPVZInfo e s start end_ page limit).res = .ok (some out)) ∧
    ∀ v, (GetPVZInfo e s start end_ page limit).res = .ok v →
      ∃ (out : List PVZInfo) (sorted : List PVZ), v = some out ∧
        sorted.Nodup ∧
        (∀ p, p ∈ sorted ↔ p ∈ s.pvz ∧ ∃ r ∈ s.receptions, r.PvzID = p.ID ∧
          start ≤ r.DateTime ∧ r.DateTime ≤ end_) ∧
        sorted.Pairwise (fun a b => a.RegistrationDate ≤ b.RegistrationDate) ∧
        out.map PVZInfo.Pvz = (sorted.drop ((page - 1) * limit).toNat).take limit.toNat ∧
        out.length ≤ limit.toNat ∧ (out.map PVZInfo.Pvz).Nodup := by
  have hmul : 0 ≤ (page - 1) * limit := Int.mul_nonneg (by omega) (by omega)
  have hwrap : wrapInt64 ((page - 1) * limit) = (page - 1) * limit :=
    wrapInt64_eq _ hmul hfit
  constructor
  · intro hp hr hpr hmk
    exact getPVZInfo_ok_of_fine e s start end_ page limit hp hr hpr (by omega)
      (by rw [hwrap]; exact hmul) hmk
  · intro v hv
    obtain ⟨out, hout, hpvz⟩ := getPVZInfo_ok_pvz e s start end_ page limit v hv
    rw [hwrap] at hpvz
    have hsortedNodup : (orderBy PVZ.RegistrationDate e.pvzRank (pvzInWindow s start end_)).Nodup :=
      (orderBy_perm _ _ _).nodup_iff.mpr (pvzInWindow_nodup s start end_)
    refine ⟨out, orderBy PVZ.RegistrationDate e.pvzRank (pvzInWindow s start end_), hout,
      hsortedNodup, ?_, orderBy_sorted _ _ _, hpvz, ?_, ?_⟩
    · intro p
      rw [mem_orderBy, mem_pvzInWindow]
    · have := congrArg List.length hpvz
      rw [List.length_map] at this
      rw [this]
      exact List.length_take_le _ _
    · rw [hpvz]
      exact hsortedNodup.sublist (selectPVZList_sublist _ _ _ _ _ _)

theorem getPVZInfo_page_witness :
    ∃ (out : List PVZInfo) (sorted : List PVZ),
      some [(⟨⟨"Z", 0, "Казань"⟩,
        some [⟨⟨"R1", 1000000, "Z", StatusClose⟩,
          some [⟨"P1", 2000000, "обувь", "R1"⟩, ⟨"P2", 3000000, "обувь", "R1"⟩]⟩]⟩ : PVZInfo)]
        = some out ∧
      sorted.Nodup ∧
      (∀ p, p ∈ sorted ↔ p ∈ sampleHistory.pvz ∧ ∃ r ∈ sampleHistory.receptions,
        r.PvzID = p.ID ∧ 0 ≤ r.DateTime ∧ r.DateTime ≤ 5000000) ∧
      sorted.Pairwise (fun a b => a.RegistrationDate ≤ b.RegistrationDate) ∧
      out.map PVZInfo.Pvz = (sorted.drop (((1 : Int) - 1) * 10).toNat).take (10 : Int).toNat ∧
      out.length ≤ (10 : Int).toNat ∧ (out.map PVZInfo.Pvz).Nodup :=
  (getPVZInfo_page ReadEnv.ok sampleHistory 0 5000000 1 10 (by decide) (by decide)
    (by decide)).2 _ (by decide)

/-- C17: in every successful result of `GetPVZInfo` the result is a non-nil
sequence (empty when no pickup point has a reception in the window), the
`Receptions` field of every entry is a non-nil sequence, and the `Products` field
of every nested reception is a non-nil sequence. -/
theorem getPVZInfo_non_nil (e : ReadEnv) (s : Store) (start end_ : Nat) (page limit : Int)
    (v : Option (List PVZInfo))
    (h : (GetPVZInfo e s start end_ page limit).res = .ok v) :
    ∃ out, v = some out ∧
      ((∀ p ∈ s.pvz, ∀ r ∈ s.receptions, r.PvzID = p.ID →
        ¬ (start ≤ r.DateTime ∧ r.DateTime ≤ end_)) → out = []) ∧
      ∀ info ∈ out, ∃ recs, info.Receptions = some recs ∧
        ∀ rwp ∈ recs, ∃ ps, rwp.Products = some ps := by
  obtain ⟨_, _, h' | h'⟩ := getPVZInfo_ok_inv e s start end_ page limit v h
  · exact ⟨[], h'.2, fun _ => rfl, by simp⟩
  · obtain ⟨hne, out, hv, hst⟩ := h'
    refine ⟨out, hv, ?_, stitch_non_nil _ _ _ _ hst⟩
    intro hnone
    exfalso
    apply hne
    have hempty : pvzInWindow s start end_ = [] := by
      rw [List.eq_nil_iff_forall_not_mem]
      intro p hp
      rw [mem_pvzInWindow] at hp
      obtain ⟨hp1, r, hr, h1, h2⟩ := hp
      exact hnone p hp1 r hr h1 h2
    unfold selectPVZList orderBy
    rw [hempty]
    simp

theorem getPVZInfo_non_nil_witness :
    ∃ out,
      some [(⟨⟨"Z", 0, "Казань"⟩,
        some [⟨⟨"R1", 1000000, "Z", StatusClose⟩, some [⟨"P1", 2000000, "обувь", "R1"⟩]⟩,
          ⟨⟨"R2", 4000000, "Z", StatusInProgress⟩, some []⟩]⟩ : PVZInfo)] = some out ∧
      ((∀ p ∈ sampleMixed.pvz, ∀ r ∈ sampleMixed.receptions, r.PvzID = p.ID →
        ¬ (0 ≤ r.DateTime ∧ r.DateTime ≤ 5000000)) → out = []) ∧
      ∀ info ∈ out, ∃ recs, info.Receptions = some recs ∧
        ∀ rwp ∈ recs, ∃ ps, rwp.Products = some ps :=
  getPVZInfo_non_nil ReadEnv.ok sampleMixed 0 5000000 1 10
    (some [⟨⟨"Z", 0, "Казань"⟩,
      some [⟨⟨"R1", 1000000, "Z", StatusClose⟩, some [⟨"P1", 2000000, "обувь", "R1"⟩]⟩,
        ⟨⟨"R2", 4000000, "Z", StatusInProgress⟩, some []⟩]⟩])
    (by decide)

theorem selectProductList_filter (rank : Product → Nat) (s : Store) (recIDList : List String)
    (id : String) (hid : id ∈ recIDList) :
    ((selectProductList rank s recIDList).filter (fun p => decide (p.ReceptionID = id))).Perm
        (s.products.filter (fun p => decide (p.ReceptionID = id))) ∧
      ((selectProductList rank s recIDList).filter
        (fun p => decide (p.ReceptionID = id))).Pairwise
          (fun a b => a.DateTime ≤ b.DateTime) := by
  unfold selectProductList
  constructor
  · refine ((orderBy_perm _ _ _).filter _).trans ?_
    rw [List.filter_filter]
    apply List.Perm.of_eq
    apply List.filter_congr
    intro p _
    by_cases hp : p.ReceptionID = id
    · simp [hp, hid]
    · simp [hp]
  · exact (orderBy_sorted _ _ _).sublist (List.filter_sublist _)

theorem selectRecList_filter (rank : Reception → Nat) (s : Store) (pvzIDList : List String)
    (start end_ : Nat) (id : String) (hid : id ∈ pvzIDList) :
    ((selectRecList rank s pvzIDList start end_).filter
        (fun r => decide (r.PvzID = id))).Perm
        (s.receptions.filter (fun r => decide (r.PvzID = id) &&
          (decide (start ≤ r.DateTime) && decide (r.DateTime ≤ end_)))) ∧
      ((selectRecList rank s pvzIDList start end_).filter
        (fun r => decide (r.PvzID = id))).Pairwise
          (fun a b => a.DateTime ≤ b.DateTime) := by
  unfold selectRecList
  constructor
  · refine ((orderBy_perm _ _ _).filter _).trans ?_
    rw [List.filter_filter]
    apply List.Perm.of_eq
    apply List.filter_congr
    intro r _
    by_cases hr : r.PvzID = id
    · simp [hr, hid, inWindow]
    · simp [hr]
  · exact (orderBy_sorted _ _ _).sublist (List.filter_sublist _)

/-- C15: in a store whose pickup-point ids are pairwise distinct, for every entry
of a successful result of `GetPVZInfo` the nested receptions are exactly the
receptions of that pickup point with `start ≤ creation time ≤ end` (a reception
outside the window is left out whatever other receptions the pickup point has),
in creation-time ascending order; and the products of every nested reception
are exactly the products referencing it, whatever their own timestamps, in
creation-time ascending order. -/
theorem getPVZInfo_window (e : ReadEnv) (s : Store) (start end_ : Nat) (page limit : Int)
    (v : Option (List PVZInfo))
    (hnd : (s.pvz.map PVZ.ID).Nodup)
    (h : (GetPVZInfo e s start end_ page limit).res = .ok v) :
    ∃ out, v = some out ∧
      ∀ info ∈ out, ∃ recs, info.Receptions = some recs ∧
        (recs.map ReceptionWithProducts.Reception).Perm
          (s.receptions.filter (fun r => decide (r.PvzID = info.Pvz.ID) &&
            (decide (start ≤ r.DateTime) && decide (r.DateTime ≤ end_)))) ∧
        (recs.map ReceptionWithProducts.Reception).Pairwise
          (fun a b => a.DateTime ≤ b.DateTime) ∧
        ∀ rwp ∈ recs, ∃ ps, rwp.Products = some ps ∧
          ps.Perm (s.products.filter (fun p => decide (p.ReceptionID = rwp.Reception.ID))) ∧
          ps.Pairwise (fun a b => a.DateTime ≤ b.DateTime) := by
  obtain ⟨_, _, h' | h'⟩ := getPVZInfo_ok_inv e s start end_ page limit v h
  · exact ⟨[], h'.2, by simp⟩
  · obtain ⟨_, out, hv, hst⟩ := h'
    refine ⟨out, hv, ?_⟩
    have hkeys := fun r hr => (selectRecList_keys e.recRank s
      ((selectPVZList e.pvzRank s start end_ limit.toNat
        (wrapInt64 ((page - 1) * limit)).toNat).map PVZ.ID) start end_ r hr).2.1
    rw [stitch_eq_of_nodup _ _ _ (selectPVZList_nodup_ids _ _ _ _ _ _ hnd) hkeys] at hst
    simp only [Option.some.injEq] at hst
    intro info hinfo
    rw [← hst] at hinfo
    obtain ⟨p, hp, hpi⟩ := List.mem_map.mp hinfo
    have hpid : p.ID ∈ (selectPVZList e.pvzRank s start end_ limit.toNat
        (wrapInt64 ((page - 1) * limit)).toNat).map PVZ.ID := List.mem_map_of_mem _ hp
    obtain ⟨hperm, hsorted⟩ := selectRecList_filter e.recRank s _ start end_ p.ID hpid
    refine ⟨_, by rw [← hpi], ?_, ?_, ?_⟩
    · rw [← hpi]
      simpa [List.map_map, Function.comp_def] using hperm
    · simpa [List.map_map, Function.comp_def] using hsorted
    · intro rwp hrwp
      obtain ⟨r, hr, hrw⟩ := List.mem_map.mp hrwp
      have hrmem := (List.mem_filter.mp hr).1
      have hrid : r.ID ∈ (selectRecList e.recRank s
          ((selectPVZList e.pvzRank s start end_ limit.toNat
            (wrapInt64 ((page - 1) * limit)).toNat).map PVZ.ID) start end_).map Reception.ID :=
        List.mem_map_of_mem _ hrmem
      obtain ⟨hpp, hps⟩ := selectProductList_filter e.prodRank s _ r.ID hrid
      refine ⟨_, by rw [← hrw], ?_, ?_⟩
      · rw [← hrw, buildProductsMap_getD]; exact hpp
      · rw [buildProductsMap_getD]; exact hps

theorem getPVZInfo_window_witness :
    ∃ out, some [(⟨⟨"Z", 0, "Казань"⟩,
        some [⟨⟨"R1", 1000000, "Z", StatusClose⟩,
          some [⟨"P1", 2000000, "обувь", "R1"⟩, ⟨"P2", 3000000, "обувь", "R1"⟩]⟩]⟩ : PVZInfo)]
        = some out ∧
      ∀ info ∈ out, ∃ recs, info.Receptions = some recs ∧
        (recs.map ReceptionWithProducts.Reception).Perm
          (sampleHistory.receptions.filter (fun r => decide (r.PvzID = info.Pvz.ID) &&
            (decide (0 ≤ r.DateTime) && decide (r.DateTime ≤ 1500000)))) ∧
        (recs.map ReceptionWithProducts.Reception).Pairwise
          (fun a b => a.DateTime ≤ b.DateTime) ∧
        ∀ rwp ∈ recs, ∃ ps, rwp.Products = some ps ∧
          ps.Perm (sampleHistory.products.filter
            (fun p => decide (p.ReceptionID = rwp.Reception.ID))) ∧
          ps.Pairwise (fun a b => a.DateTime ≤ b.DateTime) :=
  getPVZInfo_window ReadEnv.ok sampleHistory 0 1500000 1 10 _ (by decide) (by decide)

/-- C16 (as stated, refuted): on fifteen pickup points with distinct creation
times, each with one reception in the window, page 2 with limit 10 holds five
pickup points, and they are the 11th through 15th in creation-time order, not the
6th through 10th. -/
theorem getPVZInfo_page_two_of_fifteen :
    fifteen.pvz.length = 15 ∧
    fifteen.pvz.Pairwise (fun a b => a.RegistrationDate < b.RegistrationDate) ∧
    (∀ p ∈ fifteen.pvz, ∃ r ∈ fifteen.receptions, r.PvzID = p.ID ∧
      0 ≤ r.DateTime ∧ r.DateTime ≤ 200000000) ∧
    ((fifteen.pvz.drop 5).take 5).map PVZ.ID = ["p06", "p07", "p08", "p09", "p10"] ∧
    ∃ out, (GetPVZInfo ReadEnv.ok fifteen 0 200000000 2 10).res = .ok (some out) ∧
      out.map (fun info => info.Pvz.ID) = ["p11", "p12", "p13", "p14", "p15"] ∧
      out.map (fun info => info.Pvz.ID) ≠ ["p06", "p07", "p08", "p09", "p10"] := by
  refine ⟨by decide, by decide, by decide, by decide, ?_⟩
  obtain ⟨out, hout⟩ := getPVZInfo_ok_of_fine ReadEnv.ok fifteen 0 200000000 2 10 rfl rfl rfl
    (by decide) (by decide) (by decide)
  obtain ⟨out', hout', hpvz⟩ := getPVZInfo_ok_pvz _ _ _ _ _ _ _ hout
  simp only [Option.some.injEq] at hout'
  subst hout'
  have hsel : selectPVZList ReadEnv.ok.pvzRank fifteen 0 200000000 (10 : Int).toNat
      (wrapInt64 ((2 - 1) * 10)).toNat = fifteen.pvz.drop 10 := by decide
  have hids : out.map (fun info => info.Pvz.ID) = ["p11", "p12", "p13", "p14", "p15"] := by
    have : out.map (fun info => info.Pvz.ID) = (out.map PVZInfo.Pvz).map PVZ.ID := by
      simp [List.map_map, Function.comp_def]
    rw [this, hpvz, hsel]
    decide
  exact ⟨out, hout, hids, by rw [hids]; decide⟩

theorem pvzInWindow_eq_self (s : Store) (start end_ : Nat)
    (hdist : (s.pvz.map PVZ.RegistrationDate).Nodup)
    (hrec : ∀ p ∈ s.pvz, ∃ r ∈ s.receptions, r.PvzID = p.ID ∧
      start ≤ r.DateTime ∧ r.DateTime ≤ end_) :
    pvzInWindow s start end_ = s.pvz := by
  unfold pvzInWindow
  have hfilter : s.pvz.filter (fun p => s.receptions.any (fun r =>
      decide (r.PvzID = p.ID) && inWindow start end_ r.DateTime)) = s.pvz := by
    rw [List.filter_eq_self]
    intro p hp
    obtain ⟨r, hr, h1, h2, h3⟩ := hrec p hp
    rw [List.any_eq_true]
    exact ⟨r, hr, by simp [inWindow, h1, h2, h3]⟩
  rw [hfilter]
  exact (List.Nodup.of_map _ hdist).dedup

/-- C16 (amended): in a store with exactly 15 pickup points with pairwise distinct
creation times, each with a reception inside the window, `GetPVZInfo` with
`page = 2` and `limit = 10` (fetches going without error) returns exactly 5
pickup points: the 11th through 15th in creation-time ascending order. -/
theorem getPVZInfo_page_two_is_last_five (e : ReadEnv) (s : Store) (start end_ : Nat)
    (hp : e.pvzFetch = .fine) (hr : e.recFetch = .fine) (hpr : e.prodFetch = .fine)
    (hlen : s.pvz.length = 15)
    (hdist : (s.pvz.map PVZ.RegistrationDate).Nodup)
    (hrec : ∀ p ∈ s.pvz, ∃ r ∈ s.receptions, r.PvzID = p.ID ∧
      start ≤ r.DateTime ∧ r.DateTime ≤ end_) :
    ∃ (out : List PVZInfo) (sorted : List PVZ),
      (GetPVZInfo e s start end_ 2 10).res = .ok (some out) ∧
      sorted.Perm s.pvz ∧
      sorted.Pairwise (fun a b => a.RegistrationDate < b.RegistrationDate) ∧
      out.map PVZInfo.Pvz = sorted.drop 10 ∧ out.length = 5 := by
  obtain ⟨out, hout⟩ := getPVZInfo_ok_of_fine e s start end_ 2 10 hp hr hpr
    (by decide) (by decide) (by decide)
  obtain ⟨out', hout', hpvz⟩ := getPVZInfo_ok_pvz _ _ _ _ _ _ _ hout
  simp only [Option.some.injEq] at hout'
  subst hout'
  have hoff : (wrapInt64 ((2 - 1) * 10)).toNat = 10 := by decide
  have hlim : (10 : Int).toNat = 10 := by decide
  rw [hoff, hlim] at hpvz
  unfold selectPVZList at hpvz
  rw [pvzInWindow_eq_self s start end_ hdist hrec] at hpvz
  have hperm := orderBy_perm PVZ.RegistrationDate e.pvzRank s.pvz
  have hsl : (orderBy PVZ.RegistrationDate e.pvzRank s.pvz).length = 15 := by
    rw [hperm.length_eq, hlen]
  have hdrop : ((orderBy PVZ.RegistrationDate e.pvzRank s.pvz).drop 10).length = 5 := by
    rw [List.length_drop, hsl]
  rw [List.take_of_length_le (by omega)] at hpvz
  refine ⟨out, orderBy PVZ.RegistrationDate e.pvzRank s.pvz, hout, hperm, ?_, hpvz, ?_⟩
  · have hnd : ((orderBy PVZ.RegistrationDate e.pvzRank s.pvz).map
        PVZ.RegistrationDate).Nodup := (hperm.map _).nodup_iff.mpr hdist
    have hne : (orderBy PVZ.RegistrationDate e.pvzRank s.pvz).Pairwise
        (fun a b => a.RegistrationDate ≠ b.RegistrationDate) := by
      unfold List.Nodup at hnd
      rw [List.pairwise_map] at hnd
      exact hnd
    refine ((orderBy_sorted PVZ.RegistrationDate e.pvzRank s.pvz).and hne).imp ?_
    intro a b hab
    omega
  · have := congrArg List.length hpvz
    rw [List.length_map, hdrop] at this
    exact this

theorem getPVZInfo_page_two_is_last_five_witness :
    ∃ (out : List PVZInfo) (sorted : List PVZ),
      (GetPVZInfo ReadEnv.ok fifteen 0 200000000 2 10).res = .ok (some out) ∧
      sorted.Perm fifteen.pvz ∧
      sorted.Pairwise (fun a b => a.RegistrationDate < b.RegistrationDate) ∧
      out.map PVZInfo.Pvz = sorted.drop 10 ∧ out.length = 5 :=
  getPVZInfo_page_two_is_last_five ReadEnv.ok fifteen 0 200000000 rfl rfl rfl
    (by decide) (by decide) (by decide)

/-! ## The scenario of one reception with two products -/

/-- C13 (evaluation at failing inputs): in the scenario, `P1` is appended before
`P2`. When the wall clock is set back between the two appends, or when both
appends fall into one millisecond and the database returns `P2` first among the
tied rows, `GetPVZInfo` lists the products of `R1` as `P2`, `P1`: not in append
order. -/
theorem getPVZInfo_products_not_in_append_order :
    (afterScenario 3000100 2000100).products =
      [⟨"P1", 3000000, "обувь", "R1"⟩, ⟨"P2", 2000000, "обувь", "R1"⟩] ∧
    (GetPVZInfo ReadEnv.ok (afterScenario 3000100 2000100) 0 5000000 1 10).res =
      .ok (some [⟨⟨"Z", 0, "Казань"⟩,
        some [⟨⟨"R1", 1000000, "Z", StatusClose⟩,
          some [⟨"P2", 2000000, "обувь", "R1"⟩, ⟨"P1", 3000000, "обувь", "R1"⟩]⟩]⟩]) ∧
    (afterScenario 2000100 2000300).products =
      [⟨"P1", 2000000, "обувь", "R1"⟩, ⟨"P2", 2000000, "обувь", "R1"⟩] ∧
    (GetPVZInfo readEnvP2First (afterScenario 2000100 2000300) 0 5000000 1 10).res =
      .ok (some [⟨⟨"Z", 0, "Казань"⟩,
        some [⟨⟨"R1", 1000000, "Z", StatusClose⟩,
          some [⟨"P2", 2000000, "обувь", "R1"⟩, ⟨"P1", 2000000, "обувь", "R1"⟩]⟩]⟩]) := by
  decide

/-- When the two appends are stamped with increasing milliseconds, the scenario
ends as described: a further `CreateProduct` fails with `ErrNoActiveReception`
for every product type, and `GetPVZInfo` over a window containing the creation
time of `R1` returns pickup point `Z` with the closed reception `R1` and its two
products in append order, whatever the database prefers among ties. -/
theorem scenario_with_spaced_appends (u : String) (n a b : Nat) (t : ProductType)
    (r1 : PVZ → Nat) (r2 : Reception → Nat) (r3 : Product → Nat) :
    (CreateProduct (Env.ok u n a b) (afterScenario 2000100 3000100) "Z" t).res
      = .fail .ErrNoActiveReception ∧
    (GetPVZInfo ⟨.fine, .fine, .fine, r1, r2, r3⟩ (afterScenario 2000100 3000100)
        1000000 1000000 1 10).res =
      .ok (some [⟨⟨"Z", 0, "Казань"⟩,
        some [⟨⟨"R1", 1000000, "Z", StatusClose⟩,
          some [⟨"P1", 2000000, "обувь", "R1"⟩, ⟨"P2", 3000000, "обувь", "R1"⟩]⟩]⟩]) :=
  ⟨rfl, rfl⟩

/-! ## The service -/

/-- C18: for every non-empty `start` that does not parse, `Service.GetPVZInfo`
fails with the error wrapping "invalid startDate", whose text starts with that
message, for every `end`, `page` and `limit`; for every `start` that is empty or
parses and every non-empty `end` that does not parse, it fails with the error
wrapping "invalid endDate". In both cases the repository is not called. -/
theorem service_getPVZInfo_invalid_dates {R : Type} (parse : String → Option Nat) (now : Nat)
    (repo : Nat → Nat → Int → Int → Res R) (start end_ : String) (page limit : Int) :
    (start ≠ "" → parse start = none →
      (Service.GetPVZInfo parse now repo start end_ page limit).res
        = .fail (.Wrap "invalid startDate") ∧
      (Service.GetPVZInfo parse now repo start end_ page limit).calls = [] ∧
      ∀ cause, ∃ tail,
        (Err.Wrap "invalid startDate").text cause = "invalid startDate" ++ tail) ∧
    ((start = "" ∨ ∃ t, parse start = some t) → end_ ≠ "" → parse end_ = none →
      (Service.GetPVZInfo parse now repo start end_ page limit).res
        = .fail (.Wrap "invalid endDate") ∧
      (Service.GetPVZInfo parse now repo start end_ page limit).calls = [] ∧
      ∀ cause, ∃ tail,
        (Err.Wrap "invalid endDate").text cause = "invalid endDate" ++ tail) := by
  constructor
  · intro hs hp
    refine ⟨?_, ?_, fun cause => ⟨": " ++ cause, by simp only [Err.text, String.append_assoc]⟩⟩
    · simp [Service.GetPVZInfo, hs, hp]
    · simp [Service.GetPVZInfo, hs, hp]
  · intro hs he hp
    refine ⟨?_, ?_, fun cause => ⟨": " ++ cause, by simp only [Err.text, String.append_assoc]⟩⟩
    · rcases hs with hs | ⟨t, ht⟩
      · simp [Service.GetPVZInfo, hs, he, hp]
      · by_cases h0 : start = ""
        · simp [Service.GetPVZInfo, h0, he, hp]
        · simp [Service.GetPVZInfo, h0, ht, he, hp]
    · rcases hs with hs | ⟨t, ht⟩
      · simp [Service.GetPVZInfo, hs, he, hp]
      · by_cases h0 : start = ""
        · simp [Service.GetPVZInfo, h0, he, hp]
        · simp [Service.GetPVZInfo, h0, ht, he, hp]

theorem service_getPVZInfo_invalid_dates_witness :
    ((Service.GetPVZInfo parseOne 77 repoEcho "bad-date" "" 0 0).res
        = .fail (.Wrap "invalid startDate") ∧
      (Service.GetPVZInfo parseOne 77 repoEcho "bad-date" "" 0 0).calls = [] ∧
      ∀ cause, ∃ tail,
        (Err.Wrap "invalid startDate").text cause = "invalid startDate" ++ tail) ∧
    ((Service.GetPVZInfo parseOne 77 repoEcho "2025-01-01T00:00:00Z" "bad-date" 0 0).res
        = .fail (.Wrap "invalid endDate") ∧
      (Service.GetPVZInfo parseOne 77 repoEcho "2025-01-01T00:00:00Z" "bad-date" 0 0).calls
        = [] ∧
      ∀ cause, ∃ tail,
        (Err.Wrap "invalid endDate").text cause = "invalid endDate" ++ tail) :=
  ⟨(service_getPVZInfo_invalid_dates parseOne 77 repoEcho "bad-date" "" 0 0).1
      (by decide) (by decide),
    (service_getPVZInfo_invalid_dates parseOne 77 repoEcho "2025-01-01T00:00:00Z"
      "bad-date" 0 0).2 (Or.inr ⟨63871286400000000000, by decide⟩) (by decide) (by decide)⟩

/-- C19: when the date strings are empty or parse, `Service.GetPVZInfo` calls the
repository exactly once, with page `1` if the given page is `0` and limit `10` if
the given limit is `0`, and the given values otherwise (no upper bound); with
the zero instant as start when the start string is empty and the current UTC
instant as end when the end string is empty, and the parsed timestamps
otherwise. What the repository returns is returned unchanged. -/
theorem service_getPVZInfo_defaults {R : Type} (parse : String → Option Nat) (now : Nat)
    (repo : Nat → Nat → Int → Int → Res R) (start end_ : String) (page limit : Int)
    (hstart : start = "" ∨ ∃ t, parse start = some t)
    (hend : end_ = "" ∨ ∃ t, parse end_ = some t) :
    ∃ startDate endDate : Nat,
      (start = "" → startDate = 0) ∧
      (start ≠ "" → parse start = some startDate) ∧
      (end_ = "" → endDate = now) ∧
      (end_ ≠ "" → parse end_ = some endDate) ∧
      (Service.GetPVZInfo parse now repo start end_ page limit).calls
        = [(startDate, endDate, if page = 0 then 1 else page,
            if limit = 0 then 10 else limit)] ∧
      (Service.GetPVZInfo parse now repo start end_ page limit).res
        = repo startDate endDate (if page = 0 then 1 else page)
            (if limit = 0 then 10 else limit) := by
  by_cases hs : start = ""
  · by_cases he : end_ = ""
    · exact ⟨0, now, fun _ => rfl, fun h => absurd hs h, fun _ => rfl, fun h => absurd he h,
        by simp [Service.GetPVZInfo, hs, he], by simp [Service.GetPVZInfo, hs, he]⟩
    · obtain ⟨t, ht⟩ := hend.resolve_left he
      exact ⟨0, t, fun _ => rfl, fun h => absurd hs h, fun h => absurd h he, fun _ => ht,
        by simp [Service.GetPVZInfo, hs, he, ht], by simp [Service.GetPVZInfo, hs, he, ht]⟩
  · obtain ⟨t0, ht0⟩ := hstart.resolve_left hs
    by_cases he : end_ = ""
    · exact ⟨t0, now, fun h => absurd h hs, fun _ => ht0, fun _ => rfl, fun h => absurd he h,
        by simp [Service.GetPVZInfo, hs, he, ht0], by simp [Service.GetPVZInfo, hs, he, ht0]⟩
    · obtain ⟨t, ht⟩ := hend.resolve_left he
      exact ⟨t0, t, fun h => absurd h hs, fun _ => ht0, fun h => absurd h he, fun _ => ht,
        by simp [Service.GetPVZInfo, hs, he, ht0, ht],
        by simp [Service.GetPVZInfo, hs, he, ht0, ht]⟩

theorem service_getPVZInfo_defaults_witness :
    ∃ startDate endDate : Nat,
      ("2025-01-01T00:00:00Z" = "" → startDate = 0) ∧
      ("2025-01-01T00:00:00Z" ≠ "" → parseOne "2025-01-01T00:00:00Z" = some startDate) ∧
      ("" = "" → endDate = 77) ∧
      ("" ≠ "" → parseOne "" = some endDate) ∧
      (Service.GetPVZInfo parseOne 77 repoEcho "2025-01-01T00:00:00Z" "" 0 5).calls
        = [(startDate, endDate, if (0 : Int) = 0 then 1 else 0,
            if (5 : Int) = 0 then 10 else 5)] ∧
      (Service.GetPVZInfo parseOne 77 repoEcho "2025-01-01T00:00:00Z" "" 0 5).res
        = repoEcho startDate endDate (if (0 : Int) = 0 then 1 else 0)
            (if (5 : Int) = 0 then 10 else 5) :=
  service_getPVZInfo_defaults parseOne 77 repoEcho "2025-01-01T00:00:00Z" "" 0 5
    (Or.inr ⟨63871286400000000000, by decide⟩) (Or.inl rfl)

/-! ## Validators -/

theorem check_eq_true_iff {T : Type} [DecidableEq T] (v : T) (set : List T) :
    check v set = true ↔ v ∈ set := by
  unfold check
  rw [List.any_eq_true]
  constructor
  · rintro ⟨x, hx, hxv⟩
    have : x = v := by simpa using hxv
    rw [← this]; exact hx
  · intro h
    exact ⟨v, h, by simp⟩

/-- C22: for every string `s`, the "role" validator accepts `s` iff `s` is
"employee" or "moderator"; the "city" validator accepts `s` iff `s` is Москва,
Санкт-Петербург or Казань; the "productType" validator accepts `s` iff `s` is
электроника, одежда or обувь. -/
theorem validators_closed_enumerations (s : String) :
    (validateRole s = true ↔ s = "employee" ∨ s = "moderator") ∧
    (validateCity s = true ↔ s = "Москва" ∨ s = "Санкт-Петербург" ∨ s = "Казань") ∧
    (validateProductType s = true ↔ s = "электроника" ∨ s = "одежда" ∨ s = "обувь") := by
  refine ⟨?_, ?_, ?_⟩
  · rw [validateRole, check_eq_true_iff]
    simp [Employee, Moderator]
  · rw [validateCity, check_eq_true_iff]
    simp [Moscow, SaintP, Kazan]
  · rw [validateProductType, check_eq_true_iff]
    simp [Electronic, Clothes, Shoes]

/-! ## Status codes of the handlers -/

/-- C23 (as stated, refuted): when the service returns `ErrBeginTransaction`,
`Handler.CreateProduct` answers 400, which is not a server-error status; when the
service returns the error wrapping "invalid startDate", `Handler.GetPVZ` answers
500, which is not a client-error status. -/
theorem handlers_status_not_by_kind :
    Handler.CreateProduct false false (.fail .ErrBeginTransaction) = 400 ∧
    ¬ (500 ≤ Handler.CreateProduct false false (.fail .ErrBeginTransaction)) ∧
    Handler.GetPVZ false false (.fail (.Wrap "invalid startDate") : Res Unit) = 500 ∧
    ¬ (Handler.GetPVZ false false (.fail (.Wrap "invalid startDate") : Res Unit) < 500) := by
  decide

/-- C23 (amended): for `Handler.CreateReception`, `Handler.CreateProduct`,
`Handler.CloseLastReception` and `Handler.DeleteLastProduct` every service error,
whatever its kind, produces the client-error status 400; for `Handler.GetPVZ`
every service error, whatever its kind, produces the server-error status 500. -/
theorem handlers_status_by_handler {R : Type} (err : Err) :
    Handler.CreateReception false false (.fail err) = 400 ∧
    Handler.CreateProduct false false (.fail err) = 400 ∧
    Handler.CloseLastReception true (.fail err) = 400 ∧
    Handler.DeleteLastProduct true (.fail err) = 400 ∧
    Handler.GetPVZ false false (.fail err : Res R) = 500 :=
  ⟨rfl, rfl, rfl, rfl, rfl⟩

/-! ## Transactions of the store operations -/

theorem createProduct_txDiscipline (e : Env) (s : Store) (pvzID : String)
    (productType : ProductType) :
    txDiscipline (CreateProduct e s pvzID productType).log
      (CreateProduct e s pvzID productType).res.isOk = true := by
  unfold CreateProduct
  cases e.beginErr <;> cases e.queryErr <;> cases e.execErr <;> cases e.commitErr <;>
    cases orderByDescLimit1 Reception.DateTime e.tie
      (receptionsWhere s pvzID StatusInProgress) <;> rfl

theorem closeLastReception_txDiscipline (e : Env) (s : Store) (pvzID : String) :
    txDiscipline (CloseLastReception e s pvzID).log
      (CloseLastReception e s pvzID).res.isOk = true := by
  unfold CloseLastReception
  cases e.beginErr <;> cases e.queryErr <;> cases e.execErr <;> cases e.commitErr <;>
    cases orderByDescLimit1 Reception.DateTime e.tie
      (receptionsWhere s pvzID StatusInProgress) <;> rfl

theorem deleteLastProduct_txDiscipline (e : Env) (s : Store) (pvzID : String) :
    txDiscipline (DeleteLastProduct e s pvzID).log
      (DeleteLastProduct e s pvzID).res.isOk = true := by
  unfold DeleteLastProduct
  cases e.beginErr
  · cases e.queryErr
    · cases orderByDescLimit1 Reception.DateTime e.tie
          (receptionsWhere s pvzID StatusInProgress) with
      | none => rfl
      | some row =>
        cases e.queryErr2
        · dsimp only
          cases orderByDescLimit1 Product.DateTime e.tie2 (productsWhere s row.ID) with
          | none => rfl
          | some prow => cases e.execErr <;> cases e.commitErr <;> rfl
        · rfl
    · rfl
  · rfl

theorem createReception_log_outsideTx (e : Env) (s : Store) (pvzID : String) :
    ∀ c ∈ (CreateReception e s pvzID).log, c.outsideTx = true := by
  unfold CreateReception
  cases e.queryErr <;> cases e.queryErr2 <;> cases e.execErr <;>
    cases s.pvz.any (fun p => decide (p.ID = pvzID)) <;>
    cases (receptionsWhere s pvzID StatusInProgress).isEmpty <;>
    simp [DBCall.outsideTx]

/-- C24 (evaluation at the failing input): `CreateReception` on a pickup point
without a reception in progress succeeds having sent exactly three statements,
all on `r.DB` outside any transaction: it calls neither `Begin` nor `Commit`, and
its check of the `in_progress` reception is a plain `SELECT EXISTS` without
`FOR UPDATE`. -/
theorem createReception_runs_outside_transaction :
    (CreateReception (Env.ok "R2" 5000000 0 0) sampleClosed "Z").res
      = .ok ⟨"R2", 5000000, "Z", StatusInProgress⟩ ∧
    (CreateReception (Env.ok "R2" 5000000 0 0) sampleClosed "Z").log
      = [.DBQueryRow .checkPvzQuery, .DBQueryRow .checkRecQuery, .DBExec .insertQuery] ∧
    DBCall.Begin ∉ (CreateReception (Env.ok "R2" 5000000 0 0) sampleClosed "Z").log ∧
    DBCall.Commit ∉ (CreateReception (Env.ok "R2" 5000000 0 0) sampleClosed "Z").log ∧
    Sql.checkRecQuery.forUpdate = false ∧
    txDiscipline (CreateReception (Env.ok "R2" 5000000 0 0) sampleClosed "Z").log true
      = false := by
  decide

/-! ## The empty page -/

/-- C25 (as stated, refuted): with `limit = 2 ^ 62` the page query is accepted
(the limit is a non-negative Go `int`, the offset is `0`) and returns zero rows,
but `GetPVZInfo` does not return an empty sequence: `make([]models.PVZInfo, 0,
limit)`, which runs before the rows are read, panics with "makeslice: cap out of
range". -/
theorem getPVZInfo_empty_page_huge_limit :
    (0 : Int) ≤ 2 ^ 62 ∧ (2 : Int) ^ 62 < 2 ^ 63 ∧
    wrapInt64 ((1 - 1) * 2 ^ 62) = 0 ∧
    selectPVZList ReadEnv.ok.pvzRank sampleHistory 2000000 5000000 ((2 : Int) ^ 62).toNat
      (wrapInt64 ((1 - 1) * 2 ^ 62)).toNat = [] ∧
    (GetPVZInfo ReadEnv.ok sampleHistory 2000000 5000000 1 (2 ^ 62)).res
      = .fail (.Panic "makeslice: cap out of range") ∧
    (GetPVZInfo ReadEnv.ok sampleHistory 2000000 5000000 1 (2 ^ 62)).log
      = [.DBQuery .selectPVZList] := by
  refine ⟨by decide, by decide, by decide, ?_, by decide, by decide⟩
  decide

/-- C25 (amended): when the pickup-point page query is answered (`Query` and
`rows.Err()` report no error), `make([]models.PVZInfo, 0, limit)` returns and
the query returns zero rows, `GetPVZInfo` returns the empty non-nil sequence
without error, and the page query is the only call it makes: neither the
receptions query nor the products query is issued. -/
theorem getPVZInfo_empty_page (e : ReadEnv) (s : Store) (start end_ : Nat) (page limit : Int)
    (hq : e.pvzFetch = .fine ∨ e.pvzFetch = .scanErr)
    (hoffset : 0 ≤ wrapInt64 ((page - 1) * limit))
    (hmk : makeslice sizeofPVZInfo limit = true)
    (hrows : selectPVZList e.pvzRank s start end_ limit.toNat
      (wrapInt64 ((page - 1) * limit)).toNat = []) :
    (GetPVZInfo e s start end_ page limit).res = .ok (some []) ∧
    (GetPVZInfo e s start end_ page limit).log = [.DBQuery .selectPVZList] ∧
    DBCall.DBQuery .selectRecList ∉ (GetPVZInfo e s start end_ page limit).log ∧
    DBCall.DBQuery .selectProductList ∉ (GetPVZInfo e s start end_ page limit).log := by
  have hlimit : 0 ≤ limit := ((makeslice_eq_true _ _).mp hmk).1
  have hEq : GetPVZInfo e s start end_ page limit
      = ⟨.ok (some []), s, [.DBQuery .selectPVZList]⟩ := by
    unfold GetPVZInfo
    dsimp only
    have h1 : ¬ (e.pvzFetch = Fetch.queryErr ∨ limit < 0 ∨
        wrapInt64 ((page - 1) * limit) < 0) := by
      intro h
      rcases h with h | h | h
      · rcases hq with hq | hq <;> rw [hq] at h <;> cases h
      · omega
      · omega
    rw [if_neg h1, if_neg (makeslice_not_false limit hmk)]
    have hm1 : ¬ e.pvzFetch = Fetch.noMemory := by
      intro h
      rcases hq with hq | hq <;> rw [hq] at h <;> cases h
    rw [if_neg hm1]
    have h2 : ¬ (e.pvzFetch = Fetch.scanErr ∧
        selectPVZList e.pvzRank s start end_ limit.toNat
          (wrapInt64 ((page - 1) * limit)).toNat ≠ []) := fun h => h.2 hrows
    rw [if_neg h2]
    have h3 : ¬ e.pvzFetch = Fetch.rowsErr := by
      intro h
      rcases hq with hq | hq <;> rw [hq] at h <;> cases h
    rw [if_neg h3]
    have h4 : ((selectPVZList e.pvzRank s start end_ limit.toNat
        (wrapInt64 ((page - 1) * limit)).toNat).map PVZ.ID).length = 0 := by
      rw [hrows]; rfl
    rw [if_pos h4, hrows]
    rfl
  rw [hEq]
  exact ⟨rfl, rfl, by simp, by simp⟩

theorem getPVZInfo_empty_page_witness :
    (GetPVZInfo ReadEnv.ok sampleHistory 2000000 5000000 1 10).res = .ok (some []) ∧
    (GetPVZInfo ReadEnv.ok sampleHistory 2000000 5000000 1 10).log
      = [.DBQuery .selectPVZList] ∧
    DBCall.DBQuery .selectRecList ∉
      (GetPVZInfo ReadEnv.ok sampleHistory 2000000 5000000 1 10).log ∧
    DBCall.DBQuery .selectProductList ∉
      (GetPVZInfo ReadEnv.ok sampleHistory 2000000 5000000 1 10).log :=
  getPVZInfo_empty_page ReadEnv.ok sampleHistory 2000000 5000000 1 10 (Or.inl rfl)
    (by decide) (by decide) (by decide)

/-! ## Referential integrity -/

theorem createPVZ_pvz (e : Env) (s : Store) (city : City) :
    (CreatePVZ e s city).store.pvz = s.pvz ∨
      (CreatePVZ e s city).store.pvz = s.pvz ++ [⟨e.uuid, Round e.now Millisecond, city⟩] := by
  unfold CreatePVZ
  cases e.execErr
  · exact Or.inr rfl
  · exact Or.inl rfl

theorem createReception_pvz (e : Env) (s : Store) (pvzID : String) :
    (CreateReception e s pvzID).store.pvz = s.pvz := by
  unfold CreateReception
  cases e.queryErr <;> cases e.queryErr2 <;> cases e.execErr <;>
    cases s.pvz.any (fun p => decide (p.ID = pvzID)) <;>
    cases (receptionsWhere s pvzID StatusInProgress).isEmpty <;> rfl

theorem createProduct_pvz (e : Env) (s : Store) (pvzID : String)
    (productType : ProductType) :
    (CreateProduct e s pvzID productType).store.pvz = s.pvz := by
  unfold CreateProduct
  cases e.beginErr <;> cases e.queryErr <;> cases e.execErr <;> cases e.commitErr <;>
    cases orderByDescLimit1 Reception.DateTime e.tie
      (receptionsWhere s pvzID StatusInProgress) <;> rfl

theorem closeLastReception_pvz (e : Env) (s : Store) (pvzID : String) :
    (CloseLastReception e s pvzID).store.pvz = s.pvz := by
  unfold CloseLastReception
  cases e.beginErr <;> cases e.queryErr <;> cases e.execErr <;> cases e.commitErr <;>
    cases orderByDescLimit1 Reception.DateTime e.tie
      (receptionsWhere s pvzID StatusInProgress) <;> rfl

theorem deleteLastProduct_pvz (e : Env) (s : Store) (pvzID : String) :
    (DeleteLastProduct e s pvzID).store.pvz = s.pvz := by
  unfold DeleteLastProduct
  cases e.beginErr
  · cases e.queryErr
    · cases orderByDescLimit1 Reception.DateTime e.tie
          (receptionsWhere s pvzID StatusInProgress) with
      | none => rfl
      | some row =>
        cases e.queryErr2
        · dsimp only
          cases orderByDescLimit1 Product.DateTime e.tie2 (productsWhere s row.ID) with
          | none => rfl
          | some prow => cases e.execErr <;> cases e.commitErr <;> rfl
        · rfl
    · rfl
  · rfl

theorem createReception_receptions_pvz (e : Env) (s : Store) (pvzID : String) :
    (CreateReception e s pvzID).store.receptions = s.receptions ∨
      ((∃ p ∈ s.pvz, p.ID = pvzID) ∧
        (CreateReception e s pvzID).store.receptions
          = s.receptions ++ [⟨e.uuid, Round e.now Millisecond, pvzID, StatusInProgress⟩]) := by
  unfold CreateReception
  cases e.queryErr
  · cases hany : s.pvz.any (fun p => decide (p.ID = pvzID))
    · exact Or.inl rfl
    · have hex : ∃ p ∈ s.pvz, p.ID = pvzID := by
        simpa [List.any_eq_true] using hany
      cases e.queryErr2
      · cases (receptionsWhere s pvzID StatusInProgress).isEmpty
        · exact Or.inl rfl
        · cases e.execErr
          · exact Or.inr ⟨hex, rfl⟩
          · exact Or.inl rfl
      · exact Or.inl rfl
  · exact Or.inl rfl

theorem refIntegrity_of_eq (s s' : Store) (hp : s'.pvz = s.pvz)
    (hr : s'.receptions = s.receptions) (hq : s'.products = s.products)
    (h : RefIntegrity s) : RefIntegrity s' := by
  unfold RefIntegrity at *
  rw [hp, hr, hq]
  exact h

theorem step_refIntegrity (s : Store) (c : Env × Call) (h : RefIntegrity s) :
    RefIntegrity (step s c) := by
  obtain ⟨e, call⟩ := c
  obtain ⟨h1, h2⟩ := h
  cases call with
  | CreatePVZ city =>
    show RefIntegrity (CreatePVZ e s city).store
    unfold RefIntegrity
    rw [createPVZ_receptions, createPVZ_products]
    refine ⟨?_, h2⟩
    intro r hr
    obtain ⟨p, hp, hid⟩ := h1 r hr
    rcases createPVZ_pvz e s city with hEq | hEq
    · rw [hEq]; exact ⟨p, hp, hid⟩
    · rw [hEq]; exact ⟨p, List.mem_append_left _ hp, hid⟩
  | CreateReception id =>
    show RefIntegrity (CreateReception e s id).store
    unfold RefIntegrity
    rw [createReception_pvz, createReception_products]
    rcases createReception_receptions_pvz e s id with hEq | ⟨hex, hEq⟩
    · rw [hEq]; exact ⟨h1, h2⟩
    · rw [hEq]
      constructor
      · intro r hr
        rcases List.mem_append.mp hr with hmem | hmem
        · exact h1 r hmem
        · rw [List.mem_singleton] at hmem
          subst hmem
          exact hex
      · intro q hq
        obtain ⟨r, hr, hid⟩ := h2 q hq
        exact ⟨r, List.mem_append_left _ hr, hid⟩
  | CreateProduct id productType =>
    show RefIntegrity (CreateProduct e s id productType).store
    unfold RefIntegrity
    rw [createProduct_pvz, createProduct_receptions]
    refine ⟨h1, ?_⟩
    rcases createProduct_products e s id productType with hEq | ⟨row, hrow, _, _, hEq⟩
    · rw [hEq]; exact h2
    · rw [hEq]
      intro q hq
      rcases List.mem_append.mp hq with hmem | hmem
      · exact h2 q hmem
      · rw [List.mem_singleton] at hmem
        subst hmem
        exact ⟨row, hrow, rfl⟩
  | DeleteLastProduct id =>
    show RefIntegrity (DeleteLastProduct e s id).store
    unfold RefIntegrity
    rw [deleteLastProduct_pvz, deleteLastProduct_receptions]
    refine ⟨h1, ?_⟩
    rcases deleteLastProduct_products e s id with hEq | ⟨_, _, prow, _, _, _, _, hEq⟩
    · rw [hEq]; exact h2
    · rw [hEq]
      intro q hq
      exact h2 q (List.mem_of_mem_filter hq)
  | CloseLastReception id =>
    show RefIntegrity (CloseLastReception e s id).store
    unfold RefIntegrity
    rw [closeLastReception_pvz, closeLastReception_products]
    rcases closeLastReception_receptions e s id with hEq | ⟨rid, hEq⟩
    · rw [hEq]; exact ⟨h1, h2⟩
    · rw [hEq]
      constructor
      · intro r hr
        obtain ⟨r0, hr0, hfr⟩ := List.mem_map.mp hr
        obtain ⟨p, hp, hid⟩ := h1 r0 hr0
        refine ⟨p, hp, ?_⟩
        rw [hid, ← hfr]
        split <;> rfl
      · intro q hq
        obtain ⟨r, hr, hid⟩ := h2 q hq
        refine ⟨_, List.mem_map_of_mem _ hr, ?_⟩
        rw [← hid]
        split <;> rfl

/-- C29: if every reception's `pvz_id` is the id of an existing pickup point and
every product's `reception_id` is the id of an existing reception, the same holds
after any finite sequence of `CreatePVZ`, `CreateReception`, `CreateProduct`,
`DeleteLastProduct` and `CloseLastReception` calls, with arbitrary arguments,
generated ids, clock readings and database failures. -/
theorem referential_integrity_invariant (s : Store) (h : RefIntegrity s)
    (cs : List (Env × Call)) : RefIntegrity (run s cs) := by
  induction cs generalizing s with
  | nil => exact h
  | cons c cs ih => exact ih (step s c) (step_refIntegrity s c h)

theorem referential_integrity_invariant_witness :
    RefIntegrity (run Store.empty sampleCalls) :=
  referential_integrity_invariant Store.empty
    ⟨fun _ hr => absurd hr (List.not_mem_nil _), fun _ hq => absurd hq (List.not_mem_nil _)⟩
    sampleCalls

/-! ## Other pickup points are not touched -/

theorem filter_eq_of_filter_eq {α : Type} (P Q : α → Bool) (l l' : List α)
    (hPQ : ∀ x, Q x = true → P x = true) (h : l'.filter P = l.filter P) :
    l'.filter Q = l.filter Q := by
  have key : ∀ m : List α, m.filter Q = (m.filter P).filter Q := by
    intro m
    rw [List.filter_filter]
    apply List.filter_congr
    intro x _
    cases hq : Q x
    · simp
    · simp [hPQ x hq]
  rw [key l', key l, h]

theorem ownedByOther_not_owned (s : Store) (pvzID : String)
    (hrid : (s.receptions.map Reception.ID).Nodup) (p : Product)
    (h : ownedByOther s pvzID p = true) : (!ownedBy s pvzID p) = true := by
  unfold ownedByOther at h
  rw [List.any_eq_true] at h
  obtain ⟨r, hr, hrp⟩ := h
  simp only [Bool.and_eq_true, decide_eq_true_eq, Bool.not_eq_true', decide_eq_false_iff_not]
    at hrp
  rw [Bool.not_eq_true']
  unfold ownedBy
  rw [List.any_eq_false]
  intro r' hr' hcontra
  simp only [Bool.and_eq_true, decide_eq_true_eq] at hcontra
  have : r' = r := List.inj_on_of_nodup_map hrid hr' hr (by rw [hcontra.1, hrp.1])
  rw [this] at hcontra
  exact hrp.2 hcontra.2

theorem frame_createReception (e : Env) (s : Store) (pvzID : String) :
    (CreateReception e s pvzID).store.receptions.filter (fun r => !decide (r.PvzID = pvzID))
        = s.receptions.filter (fun r => !decide (r.PvzID = pvzID)) := by
  rcases createReception_receptions e s pvzID with hEq | ⟨_, hEq⟩
  · rw [hEq]
  · rw [hEq, List.filter_append]
    simp

theorem frame_closeLastReception (e : Env) (s : Store) (pvzID : String)
    (hrid : (s.receptions.map Reception.ID).Nodup) :
    (CloseLastReception e s pvzID).store.receptions.filter
        (fun r => !decide (r.PvzID = pvzID))
      = s.receptions.filter (fun r => !decide (r.PvzID = pvzID)) := by
  rcases closeLastReception_receptions_row e s pvzID with hEq | ⟨row, hrow, hpvz, _, hEq⟩
  · rw [hEq]
  · obtain ⟨pre, post, hsplit, hpre, hpost⟩ :=
      split_of_nodup_key Reception.ID s.receptions hrid row hrow
    rw [hEq, hsplit, map_update_key_split Reception.ID
      (fun r => ⟨r.ID, r.DateTime, r.PvzID, StatusClose⟩) pre post row hpre hpost]
    simp [List.filter_append, List.filter_cons, hpvz]

theorem frame_createProduct (e : Env) (s : Store) (pvzID : String)
    (productType : ProductType) :
    (CreateProduct e s pvzID productType).store.products.filter
        (fun p => !ownedBy s pvzID p)
      = s.products.filter (fun p => !ownedBy s pvzID p) := by
  rcases createProduct_products e s pvzID productType with hEq | ⟨row, hrow, hpvz, _, hEq⟩
  · rw [hEq]
  · have howned : ownedBy s pvzID ⟨e.uuid, Round e.now Millisecond, productType, row.ID⟩
        = true := by
      unfold ownedBy
      rw [List.any_eq_true]
      exact ⟨row, hrow, by simp [hpvz]⟩
    rw [hEq, List.filter_append]
    simp [List.filter_cons, howned]

theorem frame_deleteLastProduct (e : Env) (s : Store) (pvzID : String)
    (hpid : (s.products.map Product.ID).Nodup) :
    (DeleteLastProduct e s pvzID).store.products.filter (fun p => !ownedBy s pvzID p)
      = s.products.filter (fun p => !ownedBy s pvzID p) := by
  rcases deleteLastProduct_products e s pvzID with
    hEq | ⟨row, hrow, prow, hprow, hpvz, _, hpr, hEq⟩
  · rw [hEq]
  · have howned : ownedBy s pvzID prow = true := by
      unfold ownedBy
      rw [List.any_eq_true]
      exact ⟨row, hrow, by simp [hpvz, hpr]⟩
    obtain ⟨pre, post, hsplit, hpre, hpost⟩ :=
      split_of_nodup_key Product.ID s.products hpid prow hprow
    rw [hEq, hsplit, filter_ne_key_split Product.ID pre post prow hpre hpost]
    simp [List.filter_append, List.filter_cons, howned]

/-- C26: in a store whose reception ids and product ids are pairwise distinct,
each of `CreateReception pvzID`, `CreateProduct pvzID t`, `DeleteLastProduct pvzID`
and `CloseLastReception pvzID`, whether it succeeds or fails, leaves the pvz
table unchanged, and leaves the receptions and the products that belong to a
pickup point other than `pvzID` unchanged: the same rows in the same order. -/
theorem operations_frame (e : Env) (s : Store) (pvzID : String) (productType : ProductType)
    (hrid : (s.receptions.map Reception.ID).Nodup)
    (hpid : (s.products.map Product.ID).Nodup) :
    Frame s pvzID (CreateReception e s pvzID).store ∧
    Frame s pvzID (CreateProduct e s pvzID productType).store ∧
    Frame s pvzID (DeleteLastProduct e s pvzID).store ∧
    Frame s pvzID (CloseLastReception e s pvzID).store := by
  have hQ := ownedByOther_not_owned s pvzID hrid
  refine ⟨⟨createReception_pvz e s pvzID, frame_createReception e s pvzID, ?_⟩,
    ⟨createProduct_pvz e s pvzID productType, ?_, ?_⟩,
    ⟨deleteLastProduct_pvz e s pvzID, ?_, ?_⟩,
    ⟨closeLastReception_pvz e s pvzID, frame_closeLastReception e s pvzID hrid, ?_⟩⟩
  · rw [createReception_products]
  · rw [createProduct_receptions]
  · exact filter_eq_of_filter_eq _ _ _ _ hQ (frame_createProduct e s pvzID productType)
  · rw [deleteLastProduct_receptions]
  · exact filter_eq_of_filter_eq _ _ _ _ hQ (frame_deleteLastProduct e s pvzID hpid)
  · rw [closeLastReception_products]

theorem operations_frame_witness :
    Frame sampleTwoPoints "Z"
      (CreateReception (Env.ok "N1" 9000000 0 0) sampleTwoPoints "Z").store ∧
    Frame sampleTwoPoints "Z"
      (CreateProduct (Env.ok "N1" 9000000 0 0) sampleTwoPoints "Z" "обувь").store ∧
    Frame sampleTwoPoints "Z"
      (DeleteLastProduct (Env.ok "N1" 9000000 0 0) sampleTwoPoints "Z").store ∧
    Frame sampleTwoPoints "Z"
      (CloseLastReception (Env.ok "N1" 9000000 0 0) sampleTwoPoints "Z").store :=
  operations_frame (Env.ok "N1" 9000000 0 0) sampleTwoPoints "Z" "обувь"
    (by decide) (by decide)

/-! ## The nested lists of `GetPVZInfo` -/

theorem getPVZInfo_ok_eq_of_nodup (e : ReadEnv) (s : Store) (start end_ : Nat)
    (page limit : Int) (v : Option (List PVZInfo))
    (hnd : (s.pvz.map PVZ.ID).Nodup)
    (h : (GetPVZInfo e s start end_ page limit).res = .ok v) :
    v = some ((selectPVZList e.pvzRank s start end_ limit.toNat
        (wrapInt64 ((page - 1) * limit)).toNat).map (fun p => (⟨p, some
          (((selectRecList e.recRank s
            ((selectPVZList e.pvzRank s start end_ limit.toNat
              (wrapInt64 ((page - 1) * limit)).toNat).map PVZ.ID) start end_).filter
            (fun r => decide (r.PvzID = p.ID))).map (fun r => ⟨r, some
              ((selectProductList e.prodRank s
                ((selectRecList e.recRank s
                  ((selectPVZList e.pvzRank s start end_ limit.toNat
                    (wrapInt64 ((page - 1) * limit)).toNat).map PVZ.ID) start end_).map
                  Reception.ID)).filter
                (fun q => decide (q.ReceptionID = r.ID)))⟩))⟩ : PVZInfo))) := by
  obtain ⟨_, _, h' | h'⟩ := getPVZInfo_ok_inv e s start end_ page limit v h
  · rw [h'.2, h'.1]; rfl
  · obtain ⟨_, out, hv, hst⟩ := h'
    have hkeys := fun r hr => (selectRecList_keys e.recRank s
      ((selectPVZList e.pvzRank s start end_ limit.toNat
        (wrapInt64 ((page - 1) * limit)).toNat).map PVZ.ID) start end_ r hr).2.1
    rw [stitch_eq_of_nodup _ _ _ (selectPVZList_nodup_ids _ _ _ _ _ _ hnd) hkeys] at hst
    simp only [Option.some.injEq] at hst
    rw [hv, ← hst]
    simp only [buildProductsMap_getD]

/-- C27: in a store whose pickup-point ids are pairwise distinct, every entry of
a successful result of `GetPVZInfo` (for any page and limit, in particular for
`page ≥ 1` and `limit ≥ 1`) has a non-empty `Receptions` list: a pickup point
chosen for the page has a reception inside the window, and the receptions query
selects by the same window. -/
theorem getPVZInfo_receptions_nonempty (e : ReadEnv) (s : Store) (start end_ : Nat)
    (page limit : Int) (v : Option (List PVZInfo))
    (hnd : (s.pvz.map PVZ.ID).Nodup)
    (h : (GetPVZInfo e s start end_ page limit).res = .ok v) :
    ∃ out, v = some out ∧
      ∀ info ∈ out, ∃ recs, info.Receptions = some recs ∧ recs ≠ [] := by
  have hv := getPVZInfo_ok_eq_of_nodup e s start end_ page limit v hnd h
  refine ⟨_, hv, ?_⟩
  intro info hinfo
  obtain ⟨p, hp, hpi⟩ := List.mem_map.mp hinfo
  refine ⟨_, by rw [← hpi], ?_⟩
  have hpw : p ∈ pvzInWindow s start end_ := by
    have := (selectPVZList_sublist e.pvzRank s start end_ limit.toNat
      (wrapInt64 ((page - 1) * limit)).toNat).subset hp
    exact (mem_orderBy _ _ _ _).mp this
  rw [mem_pvzInWindow] at hpw
  obtain ⟨_, r, hr, hrp, h1, h2⟩ := hpw
  have hrsel : r ∈ selectRecList e.recRank s
      ((selectPVZList e.pvzRank s start end_ limit.toNat
        (wrapInt64 ((page - 1) * limit)).toNat).map PVZ.ID) start end_ := by
    unfold selectRecList
    rw [mem_orderBy, List.mem_filter]
    refine ⟨hr, ?_⟩
    have hmem : r.PvzID ∈ (selectPVZList e.pvzRank s start end_ limit.toNat
        (wrapInt64 ((page - 1) * limit)).toNat).map PVZ.ID := by
      rw [hrp]; exact List.mem_map_of_mem _ hp
    simp [inWindow, hmem, h1, h2]
  intro hnil
  have hmem : r ∈ (selectRecList e.recRank s
      ((selectPVZList e.pvzRank s start end_ limit.toNat
        (wrapInt64 ((page - 1) * limit)).toNat).map PVZ.ID) start end_).filter
      (fun r => decide (r.PvzID = p.ID)) := by
    rw [List.mem_filter]
    exact ⟨hrsel, by simp [hrp]⟩
  rw [List.map_eq_nil_iff] at hnil
  rw [hnil] at hmem
  cases hmem

theorem getPVZInfo_receptions_nonempty_witness :
    ∃ out, some [(⟨⟨"Z", 0, "Казань"⟩,
        some [⟨⟨"R1", 1000000, "Z", StatusClose⟩,
          some [⟨"P1", 2000000, "обувь", "R1"⟩, ⟨"P2", 3000000, "обувь", "R1"⟩]⟩]⟩ : PVZInfo)]
        = some out ∧
      ∀ info ∈ out, ∃ recs, info.Receptions = some recs ∧ recs ≠ [] :=
  getPVZInfo_receptions_nonempty ReadEnv.ok sampleHistory 0 5000000 1 10 _ (by decide)
    (by decide)

/-! ## The stitch is lossless -/

theorem flatMap_filter_perm {α : Type} (key : α → String) :
    ∀ (ks : List String) (l : List α), ks.Nodup → (∀ x ∈ l, key x ∈ ks) →
      (ks.flatMap (fun k => l.filter (fun x => decide (key x = k)))).Perm l := by
  intro ks
  induction ks with
  | nil =>
    intro l _ hl
    cases l with
    | nil => exact List.Perm.refl _
    | cons x xs => exact absurd (hl x (List.mem_cons_self _ _)) (List.not_mem_nil _)
  | cons k ks ih =>
    intro l hnd hl
    rw [List.nodup_cons] at hnd
    rw [List.flatMap_cons]
    have hrest : ks.flatMap (fun k' => l.filter (fun x => decide (key x = k')))
        = ks.flatMap (fun k' => (l.filter (fun x => !decide (key x = k))).filter
            (fun x => decide (key x = k'))) := by
      apply List.flatMap_congr
      intro k' hk'
      rw [List.filter_filter]
      apply List.filter_congr
      intro x _
      by_cases hx : key x = k'
      · have hne : ¬ k' = k := by
          intro hxk
          exact hnd.1 (by rw [← hxk]; exact hk')
        simp [hx, hne]
      · simp [hx]
    rw [hrest]
    have hih := ih (l.filter (fun x => !decide (key x = k))) hnd.2 (by
      intro x hx
      rw [List.mem_filter] at hx
      have hxk : ¬ key x = k := by simpa using hx.2
      rcases List.mem_cons.mp (hl x hx.1) with h' | h'
      · exact absurd h' hxk
      · exact h')
    refine (List.Perm.append_left _ hih).trans ?_
    exact List.filter_append_perm (fun x => decide (key x = k)) l

/-- C28: let the fetched pickup points have pairwise distinct ids, the fetched
receptions pairwise distinct ids, every fetched reception a `PvzID` among the
fetched pickup-point ids and every fetched product a `ReceptionID` among the
fetched reception ids (what the two `ANY` filters and the id columns ensure).
Then the stitch does not panic: every lookup `pvzMap[reception.PvzID]` finds an
entry. The output lists the fetched pickup points in order; under each are
exactly the fetched receptions with its id as `PvzID`, in fetched order, and
under each of these exactly the fetched products with its id as `ReceptionID`,
in fetched order. All nested receptions together are a rearrangement of the
fetched receptions and all nested products together a rearrangement of the
fetched products, so each appears exactly once. -/
theorem stitch_safe_and_lossless (pvzRows : List PVZ) (recRows : List Reception)
    (prodRows : List Product)
    (hkeys : ∀ r ∈ recRows, r.PvzID ∈ pvzRows.map PVZ.ID)
    (hpvz : (pvzRows.map PVZ.ID).Nodup)
    (hrec : (recRows.map Reception.ID).Nodup)
    (hprod : ∀ q ∈ prodRows, q.ReceptionID ∈ recRows.map Reception.ID) :
    ∃ out,
      stitch (pvzRows.map (fun p => ⟨p, none⟩)) (recRows.map (fun r => ⟨r, none⟩))
        (buildProductsMap prodRows) = some out ∧
      out.map PVZInfo.Pvz = pvzRows ∧
      (∀ info ∈ out, ∃ recs, info.Receptions = some recs ∧
        recs.map ReceptionWithProducts.Reception
          = recRows.filter (fun r => decide (r.PvzID = info.Pvz.ID)) ∧
        ∀ rwp ∈ recs, rwp.Products
          = some (prodRows.filter (fun q => decide (q.ReceptionID = rwp.Reception.ID)))) ∧
      (out.flatMap (fun info =>
        (info.Receptions.getD []).map ReceptionWithProducts.Reception)).Perm recRows ∧
      ((out.flatMap (fun info => info.Receptions.getD [])).flatMap
        (fun rwp => rwp.Products.getD [])).Perm prodRows := by
  have hst := stitch_eq_of_nodup pvzRows recRows (buildProductsMap prodRows) hpvz hkeys
  simp only [buildProductsMap_getD] at hst
  have hrecPerm : (pvzRows.flatMap (fun p =>
      recRows.filter (fun r => decide (r.PvzID = p.ID)))).Perm recRows := by
    have := flatMap_filter_perm Reception.PvzID (pvzRows.map PVZ.ID) recRows hpvz hkeys
    rw [List.flatMap_map] at this
    exact this
  have hprodPerm : (recRows.flatMap (fun r =>
      prodRows.filter (fun q => decide (q.ReceptionID = r.ID)))).Perm prodRows := by
    have := flatMap_filter_perm Product.ReceptionID (recRows.map Reception.ID) prodRows
      hrec hprod
    rw [List.flatMap_map] at this
    exact this
  refine ⟨_, hst, ?_, ?_, ?_, ?_⟩
  · simp [List.map_map, Function.comp_def]
  · intro info hinfo
    obtain ⟨p, _, hpi⟩ := List.mem_map.mp hinfo
    refine ⟨_, by rw [← hpi], ?_, ?_⟩
    · rw [← hpi]
      simp [List.map_map, Function.comp_def]
    · intro rwp hrwp
      obtain ⟨r, _, hrw⟩ := List.mem_map.mp hrwp
      rw [← hrw]
  · rw [List.flatMap_map]
    simpa [List.map_map, Function.comp_def] using hrecPerm
  · rw [List.flatMap_map, List.flatMap_assoc]
    have h1 : (pvzRows.flatMap fun p =>
        ((recRows.filter (fun r => decide (r.PvzID = p.ID))).map
          (fun r => (⟨r, some (prodRows.filter
            (fun q => decide (q.ReceptionID = r.ID)))⟩ : ReceptionWithProducts))).flatMap
          (fun rwp => rwp.Products.getD []))
        = (pvzRows.flatMap (fun p =>
            recRows.filter (fun r => decide (r.PvzID = p.ID)))).flatMap
            (fun r => prodRows.filter (fun q => decide (q.ReceptionID = r.ID))) := by
      rw [List.flatMap_assoc]
      apply List.flatMap_congr
      intro p _
      rw [List.flatMap_map]
      rfl
    simp only [Option.getD_some]
    rw [h1]
    exact (hrecPerm.flatMap_right _).trans hprodPerm

theorem stitch_safe_and_lossless_witness :
    ∃ out,
      stitch (sampleTwoPoints.pvz.map (fun p => ⟨p, none⟩))
        (sampleTwoPoints.receptions.map (fun r => ⟨r, none⟩))
        (buildProductsMap sampleTwoPoints.products) = some out ∧
      out.map PVZInfo.Pvz = sampleTwoPoints.pvz ∧
      (∀ info ∈ out, ∃ recs, info.Receptions = some recs ∧
        recs.map ReceptionWithProducts.Reception
          = sampleTwoPoints.receptions.filter (fun r => decide (r.PvzID = info.Pvz.ID)) ∧
        ∀ rwp ∈ recs, rwp.Products
          = some (sampleTwoPoints.products.filter
              (fun q => decide (q.ReceptionID = rwp.Reception.ID)))) ∧
      (out.flatMap (fun info =>
        (info.Receptions.getD []).map ReceptionWithProducts.Reception)).Perm
          sampleTwoPoints.receptions ∧
      ((out.flatMap (fun info => info.Receptions.getD [])).flatMap
        (fun rwp => rwp.Products.getD [])).Perm sampleTwoPoints.products :=
  stitch_safe_and_lossless sampleTwoPoints.pvz sampleTwoPoints.receptions
    sampleTwoPoints.products (by decide) (by decide) (by decide) (by decide)

/-! ## Concurrent openers -/

theorem createReception_access_sequential (e : Env) (s : Store) (pvzID : String) :
    CreateReception.access e pvzID
        (CreateReception.access e pvzID
          (CreateReception.access e pvzID .checkPvz s).1
          (CreateReception.access e pvzID .checkPvz s).2).1
        (CreateReception.access e pvzID
          (CreateReception.access e pvzID .checkPvz s).1
          (CreateReception.access e pvzID .checkPvz s).2).2
      = (.done (CreateReception e s pvzID).res, (CreateReception e s pvzID).store) := by
  cases h1 : e.queryErr <;> cases h2 : e.queryErr2 <;> cases h3 : e.execErr <;>
    cases h4 : s.pvz.any (fun p => decide (p.ID = pvzID)) <;>
    cases h5 : (receptionsWhere s pvzID StatusInProgress).isEmpty <;>
    simp [CreateReception, CreateReception.access, h1, h2, h3, h4, h5]

theorem openers_one_after_the_other :
    Openers.run (Env.ok "RA" 5000000 0 0) (Env.ok "RB" 6000000 0 0) "Z" sampleClosed
        [true, true, true, false, false, false]
      = ⟨.done (.ok ⟨"RA", 5000000, "Z", StatusInProgress⟩),
          .done (.fail .ErrReceptionInProgress),
          ⟨sampleClosed.pvz,
            sampleClosed.receptions ++ [⟨"RA", 5000000, "Z", StatusInProgress⟩],
            sampleClosed.products⟩⟩ := by
  decide

/-- C21 (evaluation at the failing input): pickup point `Z` exists and has no
reception in progress. Two `CreateReception "Z"` calls run so that both make
their two checks before either inserts. Both calls succeed, neither fails with
`ErrReceptionInProgress`, and `Z` ends with two receptions in progress. -/
theorem concurrent_openers_both_succeed :
    (∃ p ∈ sampleClosed.pvz, p.ID = "Z") ∧
    inProgressCount sampleClosed "Z" = 0 ∧
    Openers.run (Env.ok "RA" 5000000 0 0) (Env.ok "RB" 5000400 0 0) "Z" sampleClosed
        checksFirst
      = ⟨.done (.ok ⟨"RA", 5000000, "Z", StatusInProgress⟩),
          .done (.ok ⟨"RB", 5000000, "Z", StatusInProgress⟩),
          ⟨sampleClosed.pvz,
            sampleClosed.receptions ++ [⟨"RA", 5000000, "Z", StatusInProgress⟩,
              ⟨"RB", 5000000, "Z", StatusInProgress⟩],
            sampleClosed.products⟩⟩ ∧
    inProgressCount
      (Openers.run (Env.ok "RA" 5000000 0 0) (Env.ok "RB" 5000400 0 0) "Z" sampleClosed
        checksFirst).store "Z" = 2 := by
  decide

/-- Whatever the two inserts do, under the interleaving `checksFirst` neither of
two `CreateReception` calls on a pickup point without a reception in progress
fails with `ErrReceptionInProgress`. -/
theorem concurrent_openers_no_conflict (eA eB : Env) (s : Store) (pvzID : String)
    (hnone : receptionsWhere s pvzID StatusInProgress = []) :
    (Openers.run eA eB pvzID s checksFirst).pcA ≠ .done (.fail .ErrReceptionInProgress) ∧
    (Openers.run eA eB pvzID s checksFirst).pcB ≠ .done (.fail .ErrReceptionInProgress) := by
  cases h1 : eA.queryErr <;> cases h2 : eA.queryErr2 <;> cases h3 : eA.execErr <;>
    cases h4 : eB.queryErr <;> cases h5 : eB.queryErr2 <;> cases h6 : eB.execErr <;>
    cases h7 : s.pvz.any (fun p => decide (p.ID = pvzID)) <;>
    simp [Openers.run, checksFirst, Openers.step, CreateReception.access,
      h1, h2, h3, h4, h5, h6, h7, hnone]

/-! ## Role check -/

theorem foldl_rolesMap (roles : List Role) (r : String) :
    ∀ m : GoMap Unit,
      (roles.foldl (fun m val => m.set val ()) m r).isSome = true ↔
        r ∈ roles ∨ (m r).isSome = true := by
  induction roles with
  | nil => intro m; simp
  | cons a rest ih =>
    intro m
    rw [List.foldl_cons, ih, List.mem_cons]
    by_cases hra : r = a
    · simp [GoMap.set, hra]
    · simp [GoMap.set, hra]

theorem buildRolesMap_isSome (roles : List Role) (r : String) :
    (buildRolesMap roles r).isSome = true ↔ r ∈ roles := by
  unfold buildRolesMap
  rw [foldl_rolesMap]
  simp [GoMap.empty]

/-- C30 (as stated, refuted): when the empty string is an allowed role, a token
whose claims hold no "role" passes the check and `next` is called; and when the
context holds a nil `*jwt.Token`, the middleware panics instead of answering
403. -/
theorem roleCheckerMW_empty_role_passes :
    RoleCheckerMW [""] (.token (.mapClaims GoMap.empty)) = .next ∧
    RoleCheckerMW ["employee"] .nilToken = .panic := by
  decide

/-- C30 (amended): for every list of allowed roles that does not contain the
empty string and every context whose "user" value is not a nil `*jwt.Token`, the
middleware calls `next` iff the context holds a token whose claims are a
`MapClaims` with a string "role" claim equal to one of the allowed roles; in
every other case (no token, other claims type, missing or non-string role, role
not in the list, an empty list) it answers 403 "access is denied" and does not
call `next`. -/
theorem roleCheckerMW_allows_iff (allowedRoles : List Role) (user : UserValue)
    (hempty : "" ∉ allowedRoles) (hnil : user ≠ .nilToken) :
    (RoleCheckerMW allowedRoles user = .next ↔
      ∃ m s, user = .token (.mapClaims m) ∧ m "role" = some (.str s) ∧ s ∈ allowedRoles) ∧
    ((¬ ∃ m s, user = .token (.mapClaims m) ∧ m "role" = some (.str s) ∧ s ∈ allowedRoles) →
      RoleCheckerMW allowedRoles user = .json 403 "access is denied") := by
  have hnoEmpty : buildRolesMap allowedRoles "" = none := by
    cases h : buildRolesMap allowedRoles "" with
    | none => rfl
    | some u =>
      have := (buildRolesMap_isSome allowedRoles "").mp (by rw [h]; rfl)
      exact absurd this hempty
  cases user with
  | absent => simp [RoleCheckerMW, StatusForbidden]
  | nilToken => exact absurd rfl hnil
  | token claims =>
    cases claims with
    | otherClaims => simp [RoleCheckerMW, StatusForbidden]
    | mapClaims m =>
      cases hm : m "role" with
      | none => simp [RoleCheckerMW, StatusForbidden, hm, hnoEmpty]
      | some val =>
        cases val with
        | other => simp [RoleCheckerMW, StatusForbidden, hm, hnoEmpty]
        | str s =>
          cases hs : buildRolesMap allowedRoles s with
          | none =>
            have hnot : s ∉ allowedRoles := by
              intro hmem
              have := (buildRolesMap_isSome allowedRoles s).mpr hmem
              rw [hs] at this
              cases this
            simp [RoleCheckerMW, StatusForbidden, hm, hs, hnot]
          | some u =>
            have hmem : s ∈ allowedRoles :=
              (buildRolesMap_isSome allowedRoles s).mp (by rw [hs]; rfl)
            simp [RoleCheckerMW, hm, hs, hmem]

theorem roleCheckerMW_allows_iff_witness :
    (RoleCheckerMW [Employee, Moderator] (.token (claimsWithRole "moderator")) = .next ↔
      ∃ m s, UserValue.token (claimsWithRole "moderator") = .token (.mapClaims m) ∧
        m "role" = some (.str s) ∧ s ∈ [Employee, Moderator]) ∧
    ((¬ ∃ m s, UserValue.token (claimsWithRole "moderator") = .token (.mapClaims m) ∧
        m "role" = some (.str s) ∧ s ∈ [Employee, Moderator]) →
      RoleCheckerMW [Employee, Moderator] (.token (claimsWithRole "moderator"))
        = .json 403 "access is denied") :=
  roleCheckerMW_allows_iff [Employee, Moderator] (.token (claimsWithRole "moderator"))
    (by decide) (by simp)

end PvzService
